import Mathlib

/-!
# Navigation-System: the JSON persistence reader and writer, and the route

A shallow embedding of `CJson.cpp` (class `CJson`): the attribute lookup, the
per-object bookkeeping, the grammar state machine of `CJson::readData` and the
text emitted by `CJson::writeData`; and of `CRoute.cpp` (class `CRoute`): the
member functions `addPoi` and `getDistanceNextPoi`. Theorems about them follow
the definitions.

Conventions of the embedding

* Member variables of `CJson` are the fields of the structure `CJson`; member
  functions take the object and return the changed object.
* The local variables of `readData`, the two databases included, are the fields
  of `ReadLocals`; one pass through the body of the `do ... while` loop is
  `CJson.loopBody`, the whole loop is `CJson.readLoop`.
* A thrown `jsonReadExceptions` value is a value of `error` different from
  `JSON_ERR_NO`; the loop stops there, as the `throw` leaves the loop.
* Numbers (`double` in the source) are rationals: the reader only copies them.
* The writer is given as the text it emits (`writeDataText`, with the printing
  of a `double` as a parameter) and as the tokens of that text (`writeData`);
  `jsonTokens` reads a text as tokens and `jsonTokens_writeDataText` relates
  the two.
* The input of the reader is the sequence of tokens the scanner returns before
  its null pointer; the scanner itself (a generated lexer) and its error for an
  illegal character are not modelled.
* Headers of the repository (`CJson.h`, `CJsonToken.h`, `CPOI.h`,
  `CWaypoint.h`, `CRoute.h`, the database classes) are not part of the sources
  at hand; what is needed of them is either a parameter gathered in
  `Collaborators` or `RouteCollaborators`, or a definition marked
  `Modelled from the spec`.
* The course of a route is the list of the records its pointers lead to;
  distances (`double` in the source) are rationals.
-/

namespace NavigationSystem

/-! ## Tokens -/

/-- Token kinds, `CJsonToken::TokenType`: the six punctuation markers, the three
value kinds and the null kind. -/
inductive TokenType
  | BEGIN_OBJECT
  | END_OBJECT
  | BEGIN_ARRAY
  | END_ARRAY
  | NAME_SEPARATOR
  | VALUE_SEPARATOR
  | STRING
  | NUMBER
  | BOOL
  | JSON_NULL
  deriving DecidableEq, Repr

/-- Modelled from the spec: the token classes of `CJsonToken.h` (not among the
sources). A token is a tagged value: a punctuation marker, or a value token
carrying its payload inline (`CJsonStringToken`, `CJsonNumberToken`,
`CJsonBoolToken`). -/
inductive CJsonToken
  | beginObject
  | endObject
  | beginArray
  | endArray
  | nameSeparator
  | valueSeparator
  | stringToken (value : String)
  | numberToken (value : Rat)
  | boolToken (value : Bool)
  deriving DecidableEq, Repr

namespace CJsonToken

/-- The kind of a token, `CJsonToken::getType`. -/
def getType : CJsonToken → TokenType
  | beginObject => TokenType.BEGIN_OBJECT
  | endObject => TokenType.END_OBJECT
  | beginArray => TokenType.BEGIN_ARRAY
  | endArray => TokenType.END_ARRAY
  | nameSeparator => TokenType.NAME_SEPARATOR
  | valueSeparator => TokenType.VALUE_SEPARATOR
  | stringToken _ => TokenType.STRING
  | numberToken _ => TokenType.NUMBER
  | boolToken _ => TokenType.BOOL

/-- The downcast `dynamic_cast<CJsonStringToken *>(m_pToken)` followed by
`getValue()`: `none` stands for the null pointer. -/
def asString : CJsonToken → Option String
  | stringToken v => some v
  | _ => none

/-- The downcast `dynamic_cast<CJsonNumberToken *>(m_pToken)` followed by
`getValue()`: `none` stands for the null pointer. -/
def asNumber : CJsonToken → Option Rat
  | numberToken v => some v
  | _ => none

end CJsonToken

/-! ## Domain records and collaborators -/

/-- Modelled from the spec: the category of a point of interest, `CPOI::t_poi`
(declared in `CPOI.h`, not among the sources), by its numeric value. -/
abbrev t_poi := Nat

/-- Modelled from the spec: a waypoint record, name plus coordinate pair (class
`CWaypoint`, not among the sources). -/
structure CWaypoint where
  m_name : String
  m_latitude : Rat
  m_longitude : Rat
  deriving DecidableEq, Repr

/-- Modelled from the spec: a point-of-interest record, a waypoint plus category
and description (class `CPOI`, not among the sources). -/
structure CPOI where
  m_type : t_poi
  m_name : String
  m_description : String
  m_latitude : Rat
  m_longitude : Rat
  deriving DecidableEq, Repr

/-- Modelled from the spec: the waypoint collection (class `CWpDatabase`, not
among the sources). The reader only clears it and hands records to it; it is
represented by the records it holds in the order they were handed over, and its
own insertion policy for colliding names is left out. -/
abbrev CWpDatabase := List CWaypoint

/-- Modelled from the spec: the point-of-interest collection (class
`CPoiDatabase`, not among the sources), represented like `CWpDatabase`. -/
abbrev CPoiDatabase := List CPOI

/-- The call `waypointDb.resetWpsDatabase()`. -/
def CWpDatabase.resetWpsDatabase (_db : CWpDatabase) : CWpDatabase := []

/-- The call `waypointDb.addWaypoint(wp)`. -/
def CWpDatabase.addWaypoint (db : CWpDatabase) (wp : CWaypoint) : CWpDatabase := db ++ [wp]

/-- The call `poiDb.addPoi(poi)`. -/
def CPoiDatabase.addPoi (db : CPoiDatabase) (poi : CPOI) : CPoiDatabase := db ++ [poi]

/-- What `CJson.cpp` uses of code that is not among the sources, taken as
parameters: the constants `LATITUDE_MAX`, `LONGITUDE_MAX` and
`CPOI::DEFAULT_POI`, the category lookup `CPOI::getPoiType` and its printed
name `getPoiTypeName`, and the constructors `CWaypoint(name, latitude,
longitude)` and `CPOI(type, name, description, latitude, longitude)`, which may
hand back a record with other values than the arguments (an empty name, for
one). -/
structure Collaborators where
  LATITUDE_MAX : Rat
  LONGITUDE_MAX : Rat
  DEFAULT_POI : t_poi
  getPoiType : String → t_poi
  getPoiTypeName : t_poi → String
  newCWaypoint : String → Rat → Rat → CWaypoint
  newCPOI : t_poi → String → String → Rat → Rat → CPOI

/-! ## The class `CJson` -/

/-- Attribute identifiers, `CPOI::AttributesType`; `MAX_TYPES`, the bound of the
enumeration, is the number of these. -/
inductive AttributesType
  | INVALID_TYPE
  | NAME
  | LATITUDE
  | LONGITUDE
  | POI_TYPE
  | DESCRIPTION
  deriving DecidableEq, Repr

/-- The array `m_isAttrAlreadyRead`, one flag per attribute identifier. -/
structure AttrFlags where
  INVALID_TYPE : Bool
  NAME : Bool
  LATITUDE : Bool
  LONGITUDE : Bool
  POI_TYPE : Bool
  DESCRIPTION : Bool
  deriving DecidableEq, Repr

/-- The array `m_currentObjectRead`, one flag per database array. -/
structure CurrentObjectRead where
  WAYPOINTS : Bool
  POINT_OF_INTEREST : Bool
  deriving DecidableEq, Repr

/-- States of the reader, `CJson::readStates`. -/
inductive readStates
  | WAITING_FOR_BEGIN_OBJECT
  | WAITING_FOR_DB_NAME
  | WAITING_FOR_DB_ARRAY_BEGIN
  | WAITING_FOR_DB_OBJECT_BEGIN
  | WAITING_FOR_DB_OBJECT_END
  | WAITING_FOR_ATTRIBUTE_NAME
  | WAITING_FOR_NAME_SEPARATOR
  | WAITING_FOR_VALUE
  | WAITING_FOR_VALUE_SEPARATOR
  | WAITING_FOR_COMPLETION
  deriving DecidableEq, Repr

/-- Error codes, `CJson::jsonReadExceptions`, as listed by
`CJson::exceptionHandler`. -/
inductive jsonReadExceptions
  | JSON_ERR_NO
  | JSON_ERR_EXPECT_BEGIN_OBJECT
  | JSON_ERR_EXPECT_DB_NAME_STRING
  | JSON_ERR_EXPECT_NAME_SEPARATOR
  | JSON_ERR_EXPECT_DB_ARRAY_BEGIN
  | JSON_ERR_EXPECT_DB_OBJECT_BEGIN
  | JSON_ERR_EXPECT_DB_OBJECT_END
  | JSON_ERR_EXPECT_ATTR_NAME
  | JSON_ERR_EXPECT_ATTR_VALUE
  | JSON_ERR_EXPECT_VALUE_SEPARATOR
  | JSON_ERR_ILLEGAL_CHARACTER
  deriving DecidableEq, Repr

/-- The merge mode of `readData`: the two enumerators, and every other value the
enumeration type can hold. -/
inductive MergeMode
  | MERGE
  | REPLACE
  | other (value : Int)
  deriving DecidableEq, Repr

/-- The member variables of `CJson` the reader works with. The constructor of
`CJson` sets none of them, so a run starts from arbitrary values. -/
structure CJson where
  m_currentObjectRead : CurrentObjectRead
  m_isAttrAlreadyRead : AttrFlags
  m_exceptedTokenType : TokenType
  m_exceptedAttributeType : AttributesType
  deriving DecidableEq, Repr

/-- The variables `name`, `latitude`, `longitude`, `type`, `description` of
`readData`, handed to `extractValue` by reference: the record under
construction. -/
structure Scratch where
  name : String
  latitude : Rat
  longitude : Rat
  type : t_poi
  description : String
  deriving DecidableEq, Repr

namespace CJson

/-- The function `CJson::resetCurrentReadObjects`. -/
def resetCurrentReadObjects (self : CJson) : CJson :=
  { self with m_currentObjectRead := { WAYPOINTS := false, POINT_OF_INTEREST := false } }

/-- The function `CJson::currentReadObject`: the flag of the named array is
set; the result tells whether the name is known. -/
def currentReadObject (self : CJson) (name : String) : Bool × CJson :=
  if name = "waypoints" then
    (true, { self with m_currentObjectRead := { self.m_currentObjectRead with WAYPOINTS := true } })
  else if name = "pois" then
    (true, { self with
      m_currentObjectRead := { self.m_currentObjectRead with POINT_OF_INTEREST := true } })
  else
    (false, self)

/-- The table `arributeLUT` of `CJson::expectedAttributeValue`. -/
def arributeLUT : List (String × TokenType × AttributesType) :=
  [ ("name", TokenType.STRING, AttributesType.NAME),
    ("latitude", TokenType.NUMBER, AttributesType.LATITUDE),
    ("longitude", TokenType.NUMBER, AttributesType.LONGITUDE),
    ("type", TokenType.STRING, AttributesType.POI_TYPE),
    ("description", TokenType.STRING, AttributesType.DESCRIPTION) ]

/-- The search loop of `CJson::expectedAttributeValue` over the rest of the
table: the first row with the asked name is recorded and ends the search. -/
def expectedAttributeValue.search (self : CJson) (attributeName : String) :
    List (String × TokenType × AttributesType) → Bool × CJson
  | [] => (false, self)
  | row :: rest =>
    if attributeName = row.1 then
      (true, { self with m_exceptedTokenType := row.2.1, m_exceptedAttributeType := row.2.2 })
    else
      expectedAttributeValue.search self attributeName rest

/-- The function `CJson::expectedAttributeValue`. -/
def expectedAttributeValue (self : CJson) (attributeName : String) : Bool × CJson :=
  expectedAttributeValue.search
    { self with
      m_exceptedTokenType := TokenType.JSON_NULL,
      m_exceptedAttributeType := AttributesType.INVALID_TYPE }
    attributeName arributeLUT

/-- The function `CJson::allAttributesRead`. -/
def allAttributesRead (self : CJson) : Bool :=
  if self.m_currentObjectRead.WAYPOINTS then
    self.m_isAttrAlreadyRead.NAME &&
    self.m_isAttrAlreadyRead.LATITUDE &&
    self.m_isAttrAlreadyRead.LONGITUDE
  else if self.m_currentObjectRead.POINT_OF_INTEREST then
    self.m_isAttrAlreadyRead.NAME &&
    self.m_isAttrAlreadyRead.LATITUDE &&
    self.m_isAttrAlreadyRead.LONGITUDE &&
    self.m_isAttrAlreadyRead.POI_TYPE &&
    self.m_isAttrAlreadyRead.DESCRIPTION
  else
    false

/-- The function `CJson::resetAllAttributesRead`. Its loop runs from
`INVALID_TYPE` up to `MAX_TYPES`; `CPOI.h` is not among the sources, and
`INVALID_TYPE` is taken to be the first enumerator and `MAX_TYPES` the bound
behind the last, so that the loop clears every flag, as the specification has
it (the attribute tracking is reset for the new record). -/
def resetAllAttributesRead (self : CJson) : CJson :=
  { self with
    m_isAttrAlreadyRead :=
      { INVALID_TYPE := false, NAME := false, LATITUDE := false, LONGITUDE := false,
        POI_TYPE := false, DESCRIPTION := false } }

/-- Sets `m_isAttrAlreadyRead[CPOI::INVALID_TYPE]`, the `else` branch shared by
the cases of `extractValue`. -/
def flagInvalid (self : CJson) : CJson :=
  { self with m_isAttrAlreadyRead := { self.m_isAttrAlreadyRead with INVALID_TYPE := true } }

/-- The function `CJson::extractValue` on the current token `m_pToken`: the
changed object, the changed record under construction, and the result. -/
def extractValue (E : Collaborators) (self : CJson) (m_pToken : CJsonToken) (v : Scratch) :
    Bool × CJson × Scratch :=
  let out : CJson × Scratch :=
    match self.m_exceptedAttributeType with
    | AttributesType.NAME =>
      match m_pToken.asString with
      | some s =>
        if !self.m_isAttrAlreadyRead.NAME then
          ({ self with m_isAttrAlreadyRead := { self.m_isAttrAlreadyRead with NAME := true } },
           { v with name := s })
        else (flagInvalid self, v)
      | none => (flagInvalid self, v)
    | AttributesType.POI_TYPE =>
      match m_pToken.asString with
      | some s =>
        if !self.m_isAttrAlreadyRead.POI_TYPE then
          ({ self with m_isAttrAlreadyRead := { self.m_isAttrAlreadyRead with POI_TYPE := true } },
           { v with type := E.getPoiType s })
        else (flagInvalid self, v)
      | none => (flagInvalid self, v)
    | AttributesType.DESCRIPTION =>
      match m_pToken.asString with
      | some s =>
        if !self.m_isAttrAlreadyRead.DESCRIPTION then
          ({ self with
              m_isAttrAlreadyRead := { self.m_isAttrAlreadyRead with DESCRIPTION := true } },
           { v with description := s })
        else (flagInvalid self, v)
      | none => (flagInvalid self, v)
    | AttributesType.LATITUDE =>
      match m_pToken.asNumber with
      | some x =>
        if !self.m_isAttrAlreadyRead.LATITUDE then
          ({ self with m_isAttrAlreadyRead := { self.m_isAttrAlreadyRead with LATITUDE := true } },
           { v with latitude := x })
        else (flagInvalid self, v)
      | none => (flagInvalid self, v)
    | AttributesType.LONGITUDE =>
      match m_pToken.asNumber with
      | some x =>
        if !self.m_isAttrAlreadyRead.LONGITUDE then
          ({ self with
              m_isAttrAlreadyRead := { self.m_isAttrAlreadyRead with LONGITUDE := true } },
           { v with longitude := x })
        else (flagInvalid self, v)
      | none => (flagInvalid self, v)
    | AttributesType.INVALID_TYPE => (flagInvalid self, v)
  (!out.1.m_isAttrAlreadyRead.INVALID_TYPE, out.1, out.2)

end CJson

/-- The local variables of `CJson::readData` inside the `try` block, together
with the object (`self`), the two databases and the number of tokens obtained
from the scanner so far (`consumed`). -/
structure ReadLocals where
  self : CJson
  event : TokenType
  previousEvent : TokenType
  currentState : readStates
  previousState : readStates
  error : jsonReadExceptions
  vars : Scratch
  waypointDb : CWpDatabase
  poiDb : CPoiDatabase
  consumed : Nat
  deriving DecidableEq, Repr

namespace CJson

open readStates jsonReadExceptions

/-- Leaves the current state for `next`: `previousState = currentState;
currentState = next;`. -/
def ReadLocals.goto (l : ReadLocals) (next : readStates) : ReadLocals :=
  { l with previousState := l.currentState, currentState := next }

/-- Record emission of the state `WAITING_FOR_VALUE` once all attributes were
read: the record is built for the array being read and handed to its database
unless its name is empty. -/
def emitRecord (E : Collaborators) (l : ReadLocals) : ReadLocals :=
  if l.self.m_currentObjectRead.WAYPOINTS then
    let wp := E.newCWaypoint l.vars.name l.vars.latitude l.vars.longitude
    if wp.m_name ≠ "" then { l with waypointDb := l.waypointDb.addWaypoint wp } else l
  else if l.self.m_currentObjectRead.POINT_OF_INTEREST then
    let poi := E.newCPOI l.vars.type l.vars.name l.vars.description l.vars.latitude
      l.vars.longitude
    if poi.m_name ≠ "" then { l with poiDb := l.poiDb.addPoi poi } else l
  else l

/-- The `switch (currentState)` of `CJson::readData` for the token `m_pToken`,
`event` being its kind already. -/
def dispatch (E : Collaborators) (l : ReadLocals) (m_pToken : CJsonToken) : ReadLocals :=
  match l.currentState with
  | WAITING_FOR_BEGIN_OBJECT =>
    if l.event = TokenType.BEGIN_OBJECT then ReadLocals.goto l WAITING_FOR_DB_NAME
    else { l with error := JSON_ERR_EXPECT_BEGIN_OBJECT }
  | WAITING_FOR_DB_NAME =>
    if l.event = TokenType.STRING then
      let l1 := { l with self := resetAllAttributesRead (resetCurrentReadObjects l.self) }
      match m_pToken.asString with
      | some s =>
        let r := currentReadObject l1.self s
        let l2 := { l1 with self := r.2 }
        if r.1 then ReadLocals.goto l2 WAITING_FOR_NAME_SEPARATOR
        else { l2 with error := JSON_ERR_EXPECT_DB_NAME_STRING }
      | none => { l1 with error := JSON_ERR_EXPECT_DB_NAME_STRING }
    else { l with error := JSON_ERR_EXPECT_DB_NAME_STRING }
  | WAITING_FOR_DB_ARRAY_BEGIN =>
    if l.event = TokenType.BEGIN_ARRAY then ReadLocals.goto l WAITING_FOR_DB_OBJECT_BEGIN
    else { l with error := JSON_ERR_EXPECT_DB_ARRAY_BEGIN }
  | WAITING_FOR_DB_OBJECT_BEGIN =>
    if l.event = TokenType.BEGIN_OBJECT then
      ReadLocals.goto { l with self := resetAllAttributesRead l.self } WAITING_FOR_ATTRIBUTE_NAME
    else { l with error := JSON_ERR_EXPECT_DB_OBJECT_BEGIN }
  | WAITING_FOR_DB_OBJECT_END =>
    if l.event = TokenType.END_OBJECT then ReadLocals.goto l WAITING_FOR_VALUE_SEPARATOR
    else { l with error := JSON_ERR_EXPECT_DB_OBJECT_END }
  | WAITING_FOR_ATTRIBUTE_NAME =>
    if l.event = TokenType.STRING then
      match m_pToken.asString with
      | some s =>
        let r := expectedAttributeValue l.self s
        let l1 := { l with self := r.2 }
        if r.1 then ReadLocals.goto l1 WAITING_FOR_NAME_SEPARATOR
        else { l1 with error := JSON_ERR_EXPECT_ATTR_NAME }
      | none => l
    else l
  | WAITING_FOR_NAME_SEPARATOR =>
    if l.event = TokenType.NAME_SEPARATOR then
      if l.previousState = WAITING_FOR_DB_NAME then
        ReadLocals.goto l WAITING_FOR_DB_ARRAY_BEGIN
      else if l.previousState = WAITING_FOR_ATTRIBUTE_NAME then
        ReadLocals.goto l WAITING_FOR_VALUE
      else { l with error := JSON_ERR_EXPECT_NAME_SEPARATOR }
    else { l with error := JSON_ERR_EXPECT_NAME_SEPARATOR }
  | WAITING_FOR_VALUE =>
    if l.event = l.self.m_exceptedTokenType then
      let r := extractValue E l.self m_pToken l.vars
      let l1 := { l with self := r.2.1, vars := r.2.2 }
      if r.1 then
        if allAttributesRead l1.self then
          ReadLocals.goto (emitRecord E l1) WAITING_FOR_DB_OBJECT_END
        else ReadLocals.goto l1 WAITING_FOR_VALUE_SEPARATOR
      else { l1 with error := JSON_ERR_EXPECT_ATTR_VALUE }
    else { l with error := JSON_ERR_EXPECT_ATTR_VALUE }
  | WAITING_FOR_VALUE_SEPARATOR =>
    if l.event = TokenType.VALUE_SEPARATOR then
      if l.previousState = WAITING_FOR_DB_OBJECT_END then
        ReadLocals.goto l WAITING_FOR_DB_OBJECT_BEGIN
      else if l.previousState = WAITING_FOR_VALUE then
        ReadLocals.goto l WAITING_FOR_ATTRIBUTE_NAME
      else if l.previousEvent = TokenType.END_ARRAY then
        ReadLocals.goto l WAITING_FOR_DB_NAME
      else { l with error := JSON_ERR_EXPECT_VALUE_SEPARATOR }
    else if l.event = TokenType.END_ARRAY then ReadLocals.goto l WAITING_FOR_VALUE_SEPARATOR
    else if l.event = TokenType.END_OBJECT then ReadLocals.goto l WAITING_FOR_COMPLETION
    else { l with error := JSON_ERR_EXPECT_VALUE_SEPARATOR }
  | WAITING_FOR_COMPLETION => l

/-- One pass through the body of the `do ... while` loop of `CJson::readData`
for a token the scanner returned: the kind of the token becomes `event`, the
state is dispatched on, and unless an error was set (which is thrown) the event
becomes `previousEvent`. -/
def loopBody (E : Collaborators) (l : ReadLocals) (m_pToken : CJsonToken) : ReadLocals :=
  let l1 := dispatch E { l with event := m_pToken.getType, consumed := l.consumed + 1 } m_pToken
  if l1.error ≠ JSON_ERR_NO then l1 else { l1 with previousEvent := l1.event }

/-- The `do ... while (m_pToken)` loop of `CJson::readData` over the tokens the
scanner returns before its null pointer: it ends when the tokens are used up or
when a pass throws. -/
def readLoop (E : Collaborators) : ReadLocals → List CJsonToken → ReadLocals
  | l, [] => l
  | l, m_pToken :: rest =>
    let l1 := loopBody E l m_pToken
    if l1.error ≠ JSON_ERR_NO then l1 else readLoop E l1 rest

/-- The local variables of `CJson::readData` when the loop is entered. -/
def initialLocals (E : Collaborators) (self : CJson) (waypointDb : CWpDatabase)
    (poiDb : CPoiDatabase) : ReadLocals :=
  { self := self,
    event := TokenType.JSON_NULL,
    previousEvent := TokenType.JSON_NULL,
    currentState := WAITING_FOR_BEGIN_OBJECT,
    previousState := WAITING_FOR_BEGIN_OBJECT,
    error := JSON_ERR_NO,
    vars :=
      { name := "", latitude := E.LATITUDE_MAX + 1, longitude := E.LONGITUDE_MAX + 1,
        type := E.DEFAULT_POI, description := "" },
    waypointDb := waypointDb,
    poiDb := poiDb,
    consumed := 0 }

/-- What a call of `CJson::readData` leaves behind: the returned value, the two
databases, and the local variables at the end of the loop when the loop was
entered (`none` when the call returned before the scanner was built). -/
structure ReadResult where
  ret : Bool
  waypointDb : CWpDatabase
  poiDb : CPoiDatabase
  run : Option ReadLocals
  deriving DecidableEq, Repr

/-- The databases and local variables with which `CJson::readData` enters its
loop for the given mode, `none` for a mode that makes it return at once. -/
def enterLoop (E : Collaborators) (self : CJson) (waypointDb : CWpDatabase)
    (poiDb : CPoiDatabase) : MergeMode → Option ReadLocals
  | MergeMode.MERGE => some (initialLocals E self waypointDb poiDb)
  | MergeMode.REPLACE => some (initialLocals E self waypointDb.resetWpsDatabase poiDb)
  | MergeMode.other _ => none

/-- The function `CJson::readData`. `fileOpened` tells whether opening the file
succeeded and `input` is the sequence of tokens the scanner returns for the
file. The variable `ret` is set in two places only: `true` at its declaration
and `false` when the file cannot be opened; an unknown mode returns `false`
directly. -/
def readData (E : Collaborators) (self : CJson) (fileOpened : Bool) (input : List CJsonToken)
    (waypointDb : CWpDatabase) (poiDb : CPoiDatabase) (mode : MergeMode) : ReadResult :=
  if fileOpened then
    match enterLoop E self waypointDb poiDb mode with
    | some l0 =>
      let l := readLoop E l0 input
      { ret := true, waypointDb := l.waypointDb, poiDb := l.poiDb, run := some l }
    | none => { ret := false, waypointDb := waypointDb, poiDb := poiDb, run := none }
  else
    { ret := false, waypointDb := waypointDb, poiDb := poiDb, run := none }

/-! ## The writer: the text

The text `CJson::writeData` puts into a file it could open (a failing stream
is not modelled). The entries of a database are given in the order the writer
iterates over them. `printDouble` stands for `fileStream << x` on a `double`
after `fileStream.precision(10)`; names, category names and descriptions are
written as they are stored, between double quotes. In the string literals
below the braces of the source are written `\x7b` and `\x7d`. -/

/-- The text `CJson::writeData` emits for one waypoint in the first `for` loop;
`isLast` tells whether the entry is the last one of the database. -/
def writeWaypointText (printDouble : Rat → String) (wp : CWaypoint) (isLast : Bool) : String :=
  "\t\x7b\n" ++
  "\t\t\"name\": \"" ++ wp.m_name ++ "\",\n" ++
  "\t\t\"latitude\": " ++ printDouble wp.m_latitude ++ ",\n" ++
  "\t\t\"longitude\": " ++ printDouble wp.m_longitude ++ "\n" ++
  (if !isLast then "\t\x7d,\n" else "\t\x7d\n")

/-- The first `for` loop of `CJson::writeData`, as text. -/
def writeWaypointsText (printDouble : Rat → String) : List CWaypoint → String
  | [] => ""
  | wp :: rest =>
    writeWaypointText printDouble wp rest.isEmpty ++ writeWaypointsText printDouble rest

/-- The text `CJson::writeData` emits for one point of interest in the second
`for` loop. -/
def writePoiText (E : Collaborators) (printDouble : Rat → String) (poi : CPOI)
    (isLast : Bool) : String :=
  "\t\x7b\n" ++
  "\t\t\"name\": \"" ++ poi.m_name ++ "\",\n" ++
  "\t\t\"latitude\": " ++ printDouble poi.m_latitude ++ ",\n" ++
  "\t\t\"longitude\": " ++ printDouble poi.m_longitude ++ ",\n" ++
  "\t\t\"type\": \"" ++ E.getPoiTypeName poi.m_type ++ "\",\n" ++
  "\t\t\"description\": \"" ++ poi.m_description ++ "\"\n" ++
  (if !isLast then "\t\x7d,\n" else "\t\x7d\n")

/-- The second `for` loop of `CJson::writeData`, as text. -/
def writePoisText (E : Collaborators) (printDouble : Rat → String) : List CPOI → String
  | [] => ""
  | poi :: rest =>
    writePoiText E printDouble poi rest.isEmpty ++ writePoisText E printDouble rest

/-- The function `CJson::writeData`: the text written to the file. -/
def writeDataText (E : Collaborators) (printDouble : Rat → String)
    (Waypoints : List CWaypoint) (Pois : List CPOI) : String :=
  "\x7b\n" ++
  "\"waypoints\": [\n" ++
  writeWaypointsText printDouble Waypoints ++
  "],\n" ++
  "\"pois\": [\n" ++
  writePoisText E printDouble Pois ++
  "]\n\x7d\n"

/-! ## The writer: the tokens of the text

The text of `writeDataText` read as a sequence of tokens, for databases whose
names, category names and descriptions hold no double quote and no backslash:
each string between quotes is one string token, and a number token carries the
value of the entry as it is read back from its printed form. The theorem
`jsonTokens_writeDataText` states this reading; for other databases the text
need not have these tokens. -/

open CJsonToken in
/-- The tokens of `writeWaypointText` for a waypoint whose name holds no double
quote and no backslash: the opening brace, the three fields, and the closing
brace, followed by a comma unless the entry is the last of the database
(`isLast`). The number tokens carry the values of the record `wp`; they are
the values of the text when `wp` holds the values as read back from their
printed form. -/
def writeWaypoint (wp : CWaypoint) (isLast : Bool) : List CJsonToken :=
  [beginObject,
   stringToken "name", nameSeparator, stringToken wp.m_name, valueSeparator,
   stringToken "latitude", nameSeparator, numberToken wp.m_latitude, valueSeparator,
   stringToken "longitude", nameSeparator, numberToken wp.m_longitude] ++
  (if !isLast then [endObject, valueSeparator] else [endObject])

/-- The tokens of `writeWaypointsText`, the first `for` loop of
`CJson::writeData`, over the waypoints in the order of the database: an entry
is the last one when none follows it. -/
def writeWaypoints : List CWaypoint → List CJsonToken
  | [] => []
  | wp :: rest => writeWaypoint wp rest.isEmpty ++ writeWaypoints rest

open CJsonToken in
/-- The tokens of `writePoiText` for a point of interest whose name, category
name and description hold no double quote and no backslash; the number tokens
are as in `writeWaypoint`. -/
def writePoi (E : Collaborators) (poi : CPOI) (isLast : Bool) : List CJsonToken :=
  [beginObject,
   stringToken "name", nameSeparator, stringToken poi.m_name, valueSeparator,
   stringToken "latitude", nameSeparator, numberToken poi.m_latitude, valueSeparator,
   stringToken "longitude", nameSeparator, numberToken poi.m_longitude, valueSeparator,
   stringToken "type", nameSeparator, stringToken (E.getPoiTypeName poi.m_type), valueSeparator,
   stringToken "description", nameSeparator, stringToken poi.m_description] ++
  (if !isLast then [endObject, valueSeparator] else [endObject])

/-- The tokens of `writePoisText`, the second `for` loop of
`CJson::writeData`, over the points of interest. -/
def writePois (E : Collaborators) : List CPOI → List CJsonToken
  | [] => []
  | poi :: rest => writePoi E poi rest.isEmpty ++ writePois E rest

open CJsonToken in
/-- The tokens of `writeDataText`, the text `CJson::writeData` emits into a file
it could open, for databases whose strings hold no double quote and no
backslash; `Waypoints` and `Pois` are the entries of the two databases in the
order the writer iterates over them, with the numbers as they are read back
from the text. -/
def writeData (E : Collaborators) (Waypoints : List CWaypoint) (Pois : List CPOI) :
    List CJsonToken :=
  [beginObject, stringToken "waypoints", nameSeparator, beginArray] ++
  writeWaypoints Waypoints ++
  [endArray, valueSeparator] ++
  [stringToken "pois", nameSeparator, beginArray] ++
  writePois E Pois ++
  [endArray, endObject]

end CJson

/-! ## Schema documents

The documents of the fixed schema, `{ "waypoints": [ ... ], "pois": [ ... ] }`,
as token sequences. These definitions describe inputs of the reader; they are
not part of the program. -/

/-- The five attributes an object of the schema can hold. -/
inductive SchemaAttribute
  | name
  | latitude
  | longitude
  | type
  | description
  deriving DecidableEq, Repr

namespace SchemaAttribute

/-- The name under which an attribute is written. -/
def key : SchemaAttribute → String
  | name => "name"
  | latitude => "latitude"
  | longitude => "longitude"
  | type => "type"
  | description => "description"

/-- The identifier the attribute lookup gives to an attribute. -/
def id : SchemaAttribute → AttributesType
  | name => AttributesType.NAME
  | latitude => AttributesType.LATITUDE
  | longitude => AttributesType.LONGITUDE
  | type => AttributesType.POI_TYPE
  | description => AttributesType.DESCRIPTION

/-- The kind of token that is a value of the right kind for an attribute. -/
def kind : SchemaAttribute → TokenType
  | name => TokenType.STRING
  | latitude => TokenType.NUMBER
  | longitude => TokenType.NUMBER
  | type => TokenType.STRING
  | description => TokenType.STRING

end SchemaAttribute

/-- An object of a schema document: the values of its attributes, and the order
in which the attributes it holds are written (`order`). A waypoint object holds
name, latitude and longitude; a point-of-interest object holds all five. -/
structure SchemaObject where
  name : String
  latitude : Rat
  longitude : Rat
  type : String
  description : String
  order : List SchemaAttribute
  deriving DecidableEq, Repr

namespace SchemaObject

open CJsonToken

/-- The token that is the value of an attribute of the object. -/
def valueToken (o : SchemaObject) : SchemaAttribute → CJsonToken
  | SchemaAttribute.name => stringToken o.name
  | SchemaAttribute.latitude => numberToken o.latitude
  | SchemaAttribute.longitude => numberToken o.longitude
  | SchemaAttribute.type => stringToken o.type
  | SchemaAttribute.description => stringToken o.description

/-- One member of the object: `"key": value`. -/
def attributeTokens (o : SchemaObject) (a : SchemaAttribute) : List CJsonToken :=
  [stringToken a.key, nameSeparator, o.valueToken a]

/-- The members of the object for the attributes listed, separated by commas. -/
def membersTokens (o : SchemaObject) : List SchemaAttribute → List CJsonToken
  | [] => []
  | [a] => o.attributeTokens a
  | a :: b :: rest => o.attributeTokens a ++ valueSeparator :: o.membersTokens (b :: rest)

/-- The object: `{ members }`. -/
def tokens (o : SchemaObject) : List CJsonToken :=
  beginObject :: o.membersTokens o.order ++ [endObject]

/-- The waypoint record the reader builds from the values of the object. -/
def toWaypoint (E : Collaborators) (o : SchemaObject) : CWaypoint :=
  E.newCWaypoint o.name o.latitude o.longitude

/-- The point-of-interest record the reader builds from the values of the
object. -/
def toPoi (E : Collaborators) (o : SchemaObject) : CPOI :=
  E.newCPOI (E.getPoiType o.type) o.name o.description o.latitude o.longitude

/-- The record under construction after the value of attribute `a` of the
object was stored into it. -/
def store (E : Collaborators) (o : SchemaObject) (v : Scratch) : SchemaAttribute → Scratch
  | SchemaAttribute.name => { v with name := o.name }
  | SchemaAttribute.latitude => { v with latitude := o.latitude }
  | SchemaAttribute.longitude => { v with longitude := o.longitude }
  | SchemaAttribute.type => { v with type := E.getPoiType o.type }
  | SchemaAttribute.description => { v with description := o.description }

end SchemaObject

/-- The elements of an array, separated by commas. -/
def arrayElementsTokens : List SchemaObject → List CJsonToken
  | [] => []
  | [o] => o.tokens
  | o :: p :: rest => o.tokens ++ CJsonToken.valueSeparator :: arrayElementsTokens (p :: rest)

open CJsonToken in
/-- The schema document with the given waypoint objects and point-of-interest
objects. -/
def schemaDocument (waypoints pois : List SchemaObject) : List CJsonToken :=
  [beginObject, stringToken "waypoints", nameSeparator, beginArray] ++
  arrayElementsTokens waypoints ++
  [endArray, valueSeparator, stringToken "pois", nameSeparator, beginArray] ++
  arrayElementsTokens pois ++
  [endArray, endObject]

/-- The flag of `m_isAttrAlreadyRead` that belongs to a schema attribute. -/
def AttrFlags.get (F : AttrFlags) : SchemaAttribute → Bool
  | SchemaAttribute.name => F.NAME
  | SchemaAttribute.latitude => F.LATITUDE
  | SchemaAttribute.longitude => F.LONGITUDE
  | SchemaAttribute.type => F.POI_TYPE
  | SchemaAttribute.description => F.DESCRIPTION

/-- The flags with the flag of a schema attribute set. -/
def AttrFlags.set (F : AttrFlags) : SchemaAttribute → AttrFlags
  | SchemaAttribute.name => { F with NAME := true }
  | SchemaAttribute.latitude => { F with LATITUDE := true }
  | SchemaAttribute.longitude => { F with LONGITUDE := true }
  | SchemaAttribute.type => { F with POI_TYPE := true }
  | SchemaAttribute.description => { F with DESCRIPTION := true }

/-- The waypoints of a list of records that are handed to the database: those
whose name is not empty. -/
def keptWaypoints (ws : List CWaypoint) : List CWaypoint :=
  ws.filter (fun w => decide (w.m_name ≠ ""))

/-- The points of interest of a list of records that are handed to the
database: those whose name is not empty. -/
def keptPois (ps : List CPOI) : List CPOI :=
  ps.filter (fun p => decide (p.m_name ≠ ""))

/-! ## Runs of the reader, position by position

Notions for statements about the single steps of a run: the local variables
before each token of the input, and what a step does. They describe runs of
`CJson.readLoop`; they are not part of the program. -/

/-- The local variables before the `k`-th token of the input (counted from 0)
is requested: the loop was run over the first `k` tokens. -/
def localsBefore (E : Collaborators) (l0 : ReadLocals) (input : List CJsonToken) (k : Nat) :
    ReadLocals :=
  CJson.readLoop E l0 (input.take k)

/-- The flag `m_isAttrAlreadyRead[a]`. -/
def AttrFlags.read (F : AttrFlags) : AttributesType → Bool
  | AttributesType.INVALID_TYPE => F.INVALID_TYPE
  | AttributesType.NAME => F.NAME
  | AttributesType.LATITUDE => F.LATITUDE
  | AttributesType.LONGITUDE => F.LONGITUDE
  | AttributesType.POI_TYPE => F.POI_TYPE
  | AttributesType.DESCRIPTION => F.DESCRIPTION

/-- The field of the record under construction that belongs to attribute `a`
holds the payload of the token `tok` (for the category, what `getPoiType` makes
of the payload). -/
def Scratch.Holds (E : Collaborators) (v : Scratch) : AttributesType → CJsonToken → Prop
  | AttributesType.NAME, CJsonToken.stringToken s => v.name = s
  | AttributesType.LATITUDE, CJsonToken.numberToken x => v.latitude = x
  | AttributesType.LONGITUDE, CJsonToken.numberToken x => v.longitude = x
  | AttributesType.POI_TYPE, CJsonToken.stringToken s => v.type = E.getPoiType s
  | AttributesType.DESCRIPTION, CJsonToken.stringToken s => v.description = s
  | _, _ => False

/-- The reader is inside an object of an array: it waits for an attribute name,
for the name separator after an attribute name, for a value, or for the value
separator after a value. -/
def ReadLocals.InObject (l : ReadLocals) : Prop :=
  l.currentState = readStates.WAITING_FOR_ATTRIBUTE_NAME ∨
  (l.currentState = readStates.WAITING_FOR_NAME_SEPARATOR ∧
    l.previousState = readStates.WAITING_FOR_ATTRIBUTE_NAME) ∨
  l.currentState = readStates.WAITING_FOR_VALUE ∨
  (l.currentState = readStates.WAITING_FOR_VALUE_SEPARATOR ∧
    l.previousState = readStates.WAITING_FOR_VALUE)

/-- Token `d` of the input is accepted as the name of the database array
`name`: it arrives in `WAITING_FOR_DB_NAME` and is the string `name`. -/
def NamesArray (E : Collaborators) (l0 : ReadLocals) (input : List CJsonToken) (d : Nat)
    (name : String) : Prop :=
  input[d]? = some (CJsonToken.stringToken name) ∧
  (localsBefore E l0 input d).error = jsonReadExceptions.JSON_ERR_NO ∧
  (localsBefore E l0 input d).currentState = readStates.WAITING_FOR_DB_NAME

/-- From after token `d` up to token `k` no other array is named: the reader
never waits for a database name. -/
def StaysInArray (E : Collaborators) (l0 : ReadLocals) (input : List CJsonToken)
    (d k : Nat) : Prop :=
  ∀ m, d < m → m ≤ k →
    (localsBefore E l0 input m).currentState ≠ readStates.WAITING_FOR_DB_NAME

/-- Token `j` of the input is the opening brace of an object of an array: a
begin-object token that arrives in `WAITING_FOR_DB_OBJECT_BEGIN`. -/
def OpensObject (E : Collaborators) (l0 : ReadLocals) (input : List CJsonToken) (j : Nat) :
    Prop :=
  input[j]? = some CJsonToken.beginObject ∧
  (localsBefore E l0 input j).error = jsonReadExceptions.JSON_ERR_NO ∧
  (localsBefore E l0 input j).currentState = readStates.WAITING_FOR_DB_OBJECT_BEGIN

/-- From after token `j` up to token `k` the reader stays in its in-object
states: before each of these tokens it is in one of them. This is a notion of
the reader, not of the braces of the input: a token that is skipped in
`WAITING_FOR_ATTRIBUTE_NAME`, a brace included, does not end the span. -/
def StaysInObject (E : Collaborators) (l0 : ReadLocals) (input : List CJsonToken)
    (j k : Nat) : Prop :=
  ∀ m, j < m → m ≤ k → (localsBefore E l0 input m).InObject

/-- Token `i` of the input is captured as the value of attribute `a`: it is the
token `tok`, arrives in `WAITING_FOR_VALUE` after the lookup of the name of `a`,
and is accepted. -/
def Captures (E : Collaborators) (l0 : ReadLocals) (input : List CJsonToken) (i : Nat)
    (a : AttributesType) (tok : CJsonToken) : Prop :=
  input[i]? = some tok ∧
  (localsBefore E l0 input i).error = jsonReadExceptions.JSON_ERR_NO ∧
  (localsBefore E l0 input i).currentState = readStates.WAITING_FOR_VALUE ∧
  (localsBefore E l0 input i).self.m_exceptedAttributeType = a ∧
  (CJson.loopBody E (localsBefore E l0 input i) tok).error = jsonReadExceptions.JSON_ERR_NO

/-- Attribute `a` is captured from the token `tok` after token `j` and not
after token `k`. -/
def CapturesWithin (E : Collaborators) (l0 : ReadLocals) (input : List CJsonToken)
    (j k : Nat) (a : AttributesType) (tok : CJsonToken) : Prop :=
  ∃ i, j < i ∧ i ≤ k ∧ Captures E l0 input i a tok

/-- The step on token `k` of the input, the token `tok`, hands the record `r`
to the waypoint database. -/
def HandsWaypoint (E : Collaborators) (l0 : ReadLocals) (input : List CJsonToken) (k : Nat)
    (tok : CJsonToken) (r : CWaypoint) : Prop :=
  input[k]? = some tok ∧
  (localsBefore E l0 input k).error = jsonReadExceptions.JSON_ERR_NO ∧
  (CJson.loopBody E (localsBefore E l0 input k) tok).waypointDb =
    (localsBefore E l0 input k).waypointDb ++ [r]

/-- The step on token `k` of the input, the token `tok`, hands the record `p`
to the point-of-interest database. -/
def HandsPoi (E : Collaborators) (l0 : ReadLocals) (input : List CJsonToken) (k : Nat)
    (tok : CJsonToken) (p : CPOI) : Prop :=
  input[k]? = some tok ∧
  (localsBefore E l0 input k).error = jsonReadExceptions.JSON_ERR_NO ∧
  (CJson.loopBody E (localsBefore E l0 input k) tok).poiDb =
    (localsBefore E l0 input k).poiDb ++ [p]

/-- The record `r` is the waypoint of a reader span of the `waypoints` array
that is complete at token `k`: the array was named at some token `d`, some
token `j` after it is a brace accepted in `WAITING_FOR_DB_OBJECT_BEGIN`, since
then the reader stayed in that array and in its in-object states, and name,
latitude and longitude were each captured after that brace, from the tokens
whose payloads make up `r`. The span is what the reader takes for one object; it
need not be one pair of braces of the input, since braces that are skipped in
`WAITING_FOR_ATTRIBUTE_NAME` neither end nor open a span. -/
def WaypointOfObject (E : Collaborators) (l0 : ReadLocals) (input : List CJsonToken)
    (k : Nat) (r : CWaypoint) : Prop :=
  ∃ (d j : Nat) (n : String) (la lo : Rat),
    d < j ∧ j < k ∧ NamesArray E l0 input d "waypoints" ∧ StaysInArray E l0 input d k ∧
    OpensObject E l0 input j ∧ StaysInObject E l0 input j k ∧
    CapturesWithin E l0 input j k AttributesType.NAME (CJsonToken.stringToken n) ∧
    CapturesWithin E l0 input j k AttributesType.LATITUDE (CJsonToken.numberToken la) ∧
    CapturesWithin E l0 input j k AttributesType.LONGITUDE (CJsonToken.numberToken lo) ∧
    r = E.newCWaypoint n la lo

/-- The record `p` is the point of interest of a reader span of the `pois`
array that is complete at token `k`: as `WaypointOfObject`, with all five
attributes captured after the brace that opens the span. -/
def PoiOfObject (E : Collaborators) (l0 : ReadLocals) (input : List CJsonToken)
    (k : Nat) (p : CPOI) : Prop :=
  ∃ (d j : Nat) (n ty de : String) (la lo : Rat),
    d < j ∧ j < k ∧ NamesArray E l0 input d "pois" ∧ StaysInArray E l0 input d k ∧
    OpensObject E l0 input j ∧ StaysInObject E l0 input j k ∧
    CapturesWithin E l0 input j k AttributesType.NAME (CJsonToken.stringToken n) ∧
    CapturesWithin E l0 input j k AttributesType.LATITUDE (CJsonToken.numberToken la) ∧
    CapturesWithin E l0 input j k AttributesType.LONGITUDE (CJsonToken.numberToken lo) ∧
    CapturesWithin E l0 input j k AttributesType.POI_TYPE (CJsonToken.stringToken ty) ∧
    CapturesWithin E l0 input j k AttributesType.DESCRIPTION (CJsonToken.stringToken de) ∧
    p = E.newCPOI (E.getPoiType ty) n de la lo

/-- The step from `l` to `l1` on the token `tok` captures a value: `l` waits
for the value of an attribute that is not yet captured, `l1` has the flag of
that attribute set in addition, the field of the attribute holds the payload of
the token, and the other fields hold what they held. -/
def ValueStep (E : Collaborators) (l : ReadLocals) (tok : CJsonToken) (l1 : ReadLocals) :
    Prop :=
  l.currentState = readStates.WAITING_FOR_VALUE ∧
  l.self.m_exceptedAttributeType ≠ AttributesType.INVALID_TYPE ∧
  l.self.m_isAttrAlreadyRead.read l.self.m_exceptedAttributeType = false ∧
  (∀ b, l1.self.m_isAttrAlreadyRead.read b = true ↔
    (l.self.m_isAttrAlreadyRead.read b = true ∨ b = l.self.m_exceptedAttributeType)) ∧
  l1.vars.Holds E l.self.m_exceptedAttributeType tok ∧
  ∀ b tok1, b ≠ l.self.m_exceptedAttributeType → l.vars.Holds E b tok1 →
    l1.vars.Holds E b tok1

/-! ## Sample data -/

/-- Collaborators for the worked examples: constructors that keep their
arguments, and a category lookup with one named category. -/
def sampleCollaborators : Collaborators :=
  { LATITUDE_MAX := 90,
    LONGITUDE_MAX := 180,
    DEFAULT_POI := 0,
    getPoiType := fun s => if s = "RESTAURANT" then 1 else 0,
    getPoiTypeName := fun t => if t = 1 then "RESTAURANT" else "DEFAULT",
    newCWaypoint := fun name latitude longitude =>
      { m_name := name, m_latitude := latitude, m_longitude := longitude },
    newCPOI := fun type name description latitude longitude =>
      { m_type := type, m_name := name, m_description := description, m_latitude := latitude,
        m_longitude := longitude } }

/-- Member values of a `CJson` object for the worked examples. -/
def sampleCJson : CJson :=
  { m_currentObjectRead := { WAYPOINTS := false, POINT_OF_INTEREST := false },
    m_isAttrAlreadyRead :=
      { INVALID_TYPE := false, NAME := false, LATITUDE := false, LONGITUDE := false,
        POI_TYPE := false, DESCRIPTION := false },
    m_exceptedTokenType := TokenType.JSON_NULL,
    m_exceptedAttributeType := AttributesType.INVALID_TYPE }

/-- The schema object `writeData` writes for a stored waypoint: name, latitude
and longitude, in this order. -/
def writtenWaypoint (wp : CWaypoint) : SchemaObject :=
  { name := wp.m_name, latitude := wp.m_latitude, longitude := wp.m_longitude,
    type := "", description := "",
    order := [SchemaAttribute.name, SchemaAttribute.latitude, SchemaAttribute.longitude] }

/-- The schema object `writeData` writes for a stored point of interest: name,
latitude, longitude, the printed name of the category, and the description, in
this order. -/
def writtenPoi (E : Collaborators) (poi : CPOI) : SchemaObject :=
  { name := poi.m_name, latitude := poi.m_latitude, longitude := poi.m_longitude,
    type := E.getPoiTypeName poi.m_type, description := poi.m_description,
    order := [SchemaAttribute.name, SchemaAttribute.latitude, SchemaAttribute.longitude,
      SchemaAttribute.type, SchemaAttribute.description] }

/-- What handing over the record of a schema object does to the two databases,
for the array flags `cur`: the record built from the values of the object is
added to the database of the array unless its name is empty. -/
def handOver (E : Collaborators) (cur : CurrentObjectRead) (o : SchemaObject)
    (dbs : CWpDatabase × CPoiDatabase) : CWpDatabase × CPoiDatabase :=
  if cur.WAYPOINTS then (dbs.1 ++ keptWaypoints [o.toWaypoint E], dbs.2)
  else if cur.POINT_OF_INTEREST then (dbs.1, dbs.2 ++ keptPois [o.toPoi E])
  else dbs

/-- The local variables are in state `cs` with previous state `ps`, no error is
set, the array flags are `cur` and the two databases are `dbs`. -/
def ReadLocals.IsAt (l : ReadLocals) (cs ps : readStates) (cur : CurrentObjectRead)
    (dbs : CWpDatabase × CPoiDatabase) : Prop :=
  l.currentState = cs ∧ l.previousState = ps ∧ l.error = jsonReadExceptions.JSON_ERR_NO ∧
  l.self.m_currentObjectRead = cur ∧ (l.waypointDb, l.poiDb) = dbs

/-- The local variables in state `WAITING_FOR_DB_NAME` right after the opening
brace of a document, for the worked examples. -/
def sampleLocalsDbName : ReadLocals :=
  CJson.loopBody sampleCollaborators
    (CJson.initialLocals sampleCollaborators sampleCJson [] []) CJsonToken.beginObject

/-- A waypoint object for the worked examples: `{"name":"A","latitude":1,
"longitude":2}`. -/
def sampleWaypointObject : SchemaObject :=
  { name := "A", latitude := 1, longitude := 2, type := "", description := "",
    order := [SchemaAttribute.name, SchemaAttribute.latitude, SchemaAttribute.longitude] }

/-- A point-of-interest object for the worked examples, its attributes in an
order of its own. -/
def samplePoiObject : SchemaObject :=
  { name := "Mensa", latitude := 3, longitude := 4, type := "RESTAURANT",
    description := "canteen",
    order := [SchemaAttribute.type, SchemaAttribute.name, SchemaAttribute.description,
      SchemaAttribute.longitude, SchemaAttribute.latitude] }

open CJsonToken in
/-- The example document of the specification,
`{"waypoints":[{"name":"A","latitude":1.0,"longitude":2.0}],"pois":[]}`, as
tokens (the numbers 1.0 and 2.0 are the rationals 1 and 2). -/
def specExampleDocument : List CJsonToken :=
  [beginObject, stringToken "waypoints", nameSeparator, beginArray,
   beginObject, stringToken "name", nameSeparator, stringToken "A", valueSeparator,
   stringToken "latitude", nameSeparator, numberToken 1, valueSeparator,
   stringToken "longitude", nameSeparator, numberToken 2, endObject,
   endArray, valueSeparator, stringToken "pois", nameSeparator, beginArray, endArray,
   endObject]

/-! ## More notions for single steps and more sample data -/

/-- The flags with `m_isAttrAlreadyRead[a]` set. -/
def AttrFlags.mark (F : AttrFlags) : AttributesType → AttrFlags
  | AttributesType.INVALID_TYPE => { F with INVALID_TYPE := true }
  | AttributesType.NAME => { F with NAME := true }
  | AttributesType.LATITUDE => { F with LATITUDE := true }
  | AttributesType.LONGITUDE => { F with LONGITUDE := true }
  | AttributesType.POI_TYPE => { F with POI_TYPE := true }
  | AttributesType.DESCRIPTION => { F with DESCRIPTION := true }

/-- The record under construction with the payload of the token `tok` stored
into the field of attribute `a` and every other field as it was (for the
category the payload goes through `getPoiType`); a token that carries no
payload of the kind of `a` stores nothing. -/
def Scratch.capture (E : Collaborators) (v : Scratch) : AttributesType → CJsonToken → Scratch
  | AttributesType.NAME, CJsonToken.stringToken s => { v with name := s }
  | AttributesType.LATITUDE, CJsonToken.numberToken x => { v with latitude := x }
  | AttributesType.LONGITUDE, CJsonToken.numberToken x => { v with longitude := x }
  | AttributesType.POI_TYPE, CJsonToken.stringToken s => { v with type := E.getPoiType s }
  | AttributesType.DESCRIPTION, CJsonToken.stringToken s => { v with description := s }
  | _, _ => v

/-- The local variables before token `k` of the example document of the
specification, read with the sample collaborators into empty databases. -/
def sampleLocalsAt (k : Nat) : ReadLocals :=
  localsBefore sampleCollaborators (CJson.initialLocals sampleCollaborators sampleCJson [] [])
    specExampleDocument k

/-- The local variables at the end of a read of a schema document with one
waypoint object and one point-of-interest object, for the worked examples. -/
def sampleLocalsCompletion : ReadLocals :=
  CJson.readLoop sampleCollaborators
    (CJson.initialLocals sampleCollaborators sampleCJson [] [])
    (schemaDocument [sampleWaypointObject] [samplePoiObject])

open CJsonToken in
/-- A document whose first point-of-interest object is closed before its
description was given, followed by a complete one:
`{"waypoints":[{"name":"A","latitude":1,"longitude":2}],"pois":[{"name":"P",
"latitude":3,"longitude":4,"type":"RESTAURANT"},{"name":"Mensa","latitude":5,
"longitude":6,"type":"RESTAURANT","description":"canteen"}]}`. The closing
brace of the incomplete object is token 38. -/
def incompleteObjectDocument : List CJsonToken :=
  [beginObject, stringToken "waypoints", nameSeparator, beginArray,
   beginObject, stringToken "name", nameSeparator, stringToken "A", valueSeparator,
   stringToken "latitude", nameSeparator, numberToken 1, valueSeparator,
   stringToken "longitude", nameSeparator, numberToken 2, endObject,
   endArray, valueSeparator, stringToken "pois", nameSeparator, beginArray,
   beginObject, stringToken "name", nameSeparator, stringToken "P", valueSeparator,
   stringToken "latitude", nameSeparator, numberToken 3, valueSeparator,
   stringToken "longitude", nameSeparator, numberToken 4, valueSeparator,
   stringToken "type", nameSeparator, stringToken "RESTAURANT", endObject,
   valueSeparator,
   beginObject, stringToken "name", nameSeparator, stringToken "Mensa", valueSeparator,
   stringToken "latitude", nameSeparator, numberToken 5, valueSeparator,
   stringToken "longitude", nameSeparator, numberToken 6, valueSeparator,
   stringToken "type", nameSeparator, stringToken "RESTAURANT", valueSeparator,
   stringToken "description", nameSeparator, stringToken "canteen", endObject,
   endArray, endObject]

open CJsonToken in
/-- A document whose second waypoint object gives `latitude` twice, each time
with a number: `{"waypoints":[{"name":"A","latitude":1,"longitude":2},
{"name":"B","latitude":3,"latitude":4,"longitude":5},{"name":"C","latitude":6,
"longitude":7}],"pois":[{"name":"Mensa","latitude":5,"longitude":6,
"type":"RESTAURANT","description":"canteen"}]}`. The object opens at token 18,
its first latitude is token 25 and its second latitude is token 29. -/
def repeatedAttributeDocument : List CJsonToken :=
  [beginObject, stringToken "waypoints", nameSeparator, beginArray,
   beginObject, stringToken "name", nameSeparator, stringToken "A", valueSeparator,
   stringToken "latitude", nameSeparator, numberToken 1, valueSeparator,
   stringToken "longitude", nameSeparator, numberToken 2, endObject,
   valueSeparator,
   beginObject, stringToken "name", nameSeparator, stringToken "B", valueSeparator,
   stringToken "latitude", nameSeparator, numberToken 3, valueSeparator,
   stringToken "latitude", nameSeparator, numberToken 4, valueSeparator,
   stringToken "longitude", nameSeparator, numberToken 5, endObject,
   valueSeparator,
   beginObject, stringToken "name", nameSeparator, stringToken "C", valueSeparator,
   stringToken "latitude", nameSeparator, numberToken 6, valueSeparator,
   stringToken "longitude", nameSeparator, numberToken 7, endObject,
   endArray, valueSeparator, stringToken "pois", nameSeparator, beginArray,
   beginObject, stringToken "name", nameSeparator, stringToken "Mensa", valueSeparator,
   stringToken "latitude", nameSeparator, numberToken 5, valueSeparator,
   stringToken "longitude", nameSeparator, numberToken 6, valueSeparator,
   stringToken "type", nameSeparator, stringToken "RESTAURANT", valueSeparator,
   stringToken "description", nameSeparator, stringToken "canteen", endObject,
   endArray, endObject]

open CJsonToken in
/-- A document in which the name of a waypoint stands in one pair of braces and
its coordinates in the next: `{"waypoints":[{"name":"A",},{"latitude":1,
"longitude":2}]}`. The first pair of braces is tokens 4 and 9, the second is
tokens 11 and 19; the name is token 7 and the value of `longitude` is token
18. -/
def splitObjectDocument : List CJsonToken :=
  [beginObject, stringToken "waypoints", nameSeparator, beginArray,
   beginObject, stringToken "name", nameSeparator, stringToken "A", valueSeparator,
   endObject, valueSeparator,
   beginObject, stringToken "latitude", nameSeparator, numberToken 1, valueSeparator,
   stringToken "longitude", nameSeparator, numberToken 2, endObject,
   endArray, endObject]

/-- What the two separator states rely on: in `WAITING_FOR_NAME_SEPARATOR` the
previous state is `WAITING_FOR_DB_NAME` or `WAITING_FOR_ATTRIBUTE_NAME`, and in
`WAITING_FOR_VALUE_SEPARATOR` the previous state is `WAITING_FOR_DB_OBJECT_END`
or `WAITING_FOR_VALUE`, or the previous event is `END_ARRAY`. -/
def ReadLocals.SeparatorsCovered (l : ReadLocals) : Prop :=
  (l.currentState = readStates.WAITING_FOR_NAME_SEPARATOR →
    l.previousState = readStates.WAITING_FOR_DB_NAME ∨
    l.previousState = readStates.WAITING_FOR_ATTRIBUTE_NAME) ∧
  (l.currentState = readStates.WAITING_FOR_VALUE_SEPARATOR →
    l.previousState = readStates.WAITING_FOR_DB_OBJECT_END ∨
    l.previousState = readStates.WAITING_FOR_VALUE ∨
    l.previousEvent = TokenType.END_ARRAY)

/-! ## Reading a text as JSON tokens

What it means for a text to have a shape: the tokens a text is made of, read
the way JSON is read. These definitions describe texts; they are not part of
the program (its scanner is a generated lexer that is not among the sources).
The literals `true`, `false` and `null` are not read; `writeData` emits
none. -/

/-- Where the reading is: between tokens, inside a string (with the characters
read so far, last first, and whether the last one was an escaping backslash),
or inside a number (with the characters read so far). -/
inductive LexMode
  | outside
  | inString (acc : List Char) (escaped : Bool)
  | inNumber (acc : List Char)

/-- What a character between tokens does: it is a token, it starts a string or
a number, it is white space, or it cannot be read. -/
inductive LexStep
  | emit (t : CJsonToken)
  | enter (m : LexMode)
  | skip
  | stop

/-- The characters a number is written with. -/
def isNumberChar (c : Char) : Bool :=
  c.isDigit || c == '.' || c == '-' || c == '+' || c == 'e' || c == 'E'

/-- A character between tokens: the six punctuation marks (the braces are the
characters 123 and 125), the double quote (character 34) that opens a string,
a digit or minus sign that opens a number, and white space. -/
def lexOutside (c : Char) : LexStep :=
  if c = Char.ofNat 123 then LexStep.emit CJsonToken.beginObject
  else if c = Char.ofNat 125 then LexStep.emit CJsonToken.endObject
  else if c = '[' then LexStep.emit CJsonToken.beginArray
  else if c = ']' then LexStep.emit CJsonToken.endArray
  else if c = ':' then LexStep.emit CJsonToken.nameSeparator
  else if c = ',' then LexStep.emit CJsonToken.valueSeparator
  else if c = Char.ofNat 34 then LexStep.enter (LexMode.inString [] false)
  else if c = '-' ∨ c.isDigit = true then LexStep.enter (LexMode.inNumber [c])
  else if c = ' ' ∨ c = '\n' ∨ c = '\t' ∨ c = '\r' then LexStep.skip
  else LexStep.stop

/-- The tokens of a sequence of characters. A string runs from a double quote
to the next double quote that is not escaped by a backslash (character 92);
its payload is the characters in between, as they stand. A number is a
longest run of number characters; its payload is what `readNumber` makes of
it. The reading ends at a character that cannot be read and at the end of the
text; a string that is still open there gives no token. -/
def lexJson (readNumber : String → Rat) : LexMode → List Char → List CJsonToken
  | LexMode.outside, [] => []
  | LexMode.inString _ _, [] => []
  | LexMode.inNumber acc, [] => [CJsonToken.numberToken (readNumber (String.mk acc.reverse))]
  | LexMode.outside, c :: cs =>
    match lexOutside c with
    | LexStep.emit t => t :: lexJson readNumber LexMode.outside cs
    | LexStep.enter m => lexJson readNumber m cs
    | LexStep.skip => lexJson readNumber LexMode.outside cs
    | LexStep.stop => []
  | LexMode.inString acc true, c :: cs =>
    lexJson readNumber (LexMode.inString (c :: acc) false) cs
  | LexMode.inString acc false, c :: cs =>
    if c = Char.ofNat 34 then
      CJsonToken.stringToken (String.mk acc.reverse) :: lexJson readNumber LexMode.outside cs
    else if c = Char.ofNat 92 then lexJson readNumber (LexMode.inString (c :: acc) true) cs
    else lexJson readNumber (LexMode.inString (c :: acc) false) cs
  | LexMode.inNumber acc, c :: cs =>
    if isNumberChar c then lexJson readNumber (LexMode.inNumber (c :: acc)) cs
    else
      CJsonToken.numberToken (readNumber (String.mk acc.reverse)) ::
        match lexOutside c with
        | LexStep.emit t => t :: lexJson readNumber LexMode.outside cs
        | LexStep.enter m => lexJson readNumber m cs
        | LexStep.skip => lexJson readNumber LexMode.outside cs
        | LexStep.stop => []

/-- The tokens of a text. -/
def jsonTokens (readNumber : String → Rat) (text : String) : List CJsonToken :=
  lexJson readNumber LexMode.outside text.data

/-- The string holds no double quote and no backslash. -/
def isPlainString (s : String) : Bool :=
  s.data.all fun c => c != Char.ofNat 34 && c != Char.ofNat 92

/-- The string is written like a number: it starts with a digit or a minus
sign and goes on with number characters only. -/
def isNumberText (s : String) : Bool :=
  match s.data with
  | [] => false
  | d :: rest => (d == '-' || d.isDigit) && rest.all isNumberChar

/-- The waypoint with its coordinates as they are read back from the text. -/
def CWaypoint.asWritten (readNumber : String → Rat) (printDouble : Rat → String)
    (wp : CWaypoint) : CWaypoint :=
  { wp with
    m_latitude := readNumber (printDouble wp.m_latitude),
    m_longitude := readNumber (printDouble wp.m_longitude) }

/-- The point of interest with its coordinates as they are read back from the
text. -/
def CPOI.asWritten (readNumber : String → Rat) (printDouble : Rat → String) (poi : CPOI) :
    CPOI :=
  { poi with
    m_latitude := readNumber (printDouble poi.m_latitude),
    m_longitude := readNumber (printDouble poi.m_longitude) }

/-- The waypoint can be written without breaking the text: its name is plain
and its coordinates are printed like numbers. -/
def CWaypoint.Writable (printDouble : Rat → String) (wp : CWaypoint) : Bool :=
  isPlainString wp.m_name && isNumberText (printDouble wp.m_latitude) &&
    isNumberText (printDouble wp.m_longitude)

/-- The point of interest can be written without breaking the text: its name,
category name and description are plain and its coordinates are printed like
numbers. -/
def CPOI.Writable (E : Collaborators) (printDouble : Rat → String) (poi : CPOI) : Bool :=
  isPlainString poi.m_name && isPlainString (E.getPoiTypeName poi.m_type) &&
    isPlainString poi.m_description && isNumberText (printDouble poi.m_latitude) &&
    isNumberText (printDouble poi.m_longitude)

/-- A way of printing numbers for the worked examples: whole numbers in
decimal digits, any other number by its numerator alone. -/
def samplePrintDouble (x : Rat) : String := toString x.num

/-- A way of reading numbers for the worked examples: the numerals `1` to `4`
are read as what they say, anything else as 0. -/
def sampleReadNumber (s : String) : Rat :=
  if s = "1" then 1 else if s = "2" then 2 else if s = "3" then 3 else if s = "4" then 4
  else 0

/-- A waypoint database for the worked examples: the waypoints `A` and `B`. -/
def sampleWaypointDatabase : CWpDatabase :=
  [{ m_name := "A", m_latitude := 1, m_longitude := 2 },
   { m_name := "B", m_latitude := 3, m_longitude := 4 }]

/-- A waypoint whose name holds double quotes, braces and a comma: the name is
`a"},{"name":"b`. -/
def sampleQuotedWaypoint : CWaypoint :=
  { m_name := "a\"\x7d,\x7b\"name\":\"b", m_latitude := 1, m_longitude := 2 }

/-- A waypoint whose name ends with a backslash: the name is `a\`. -/
def sampleBackslashWaypoint : CWaypoint :=
  { m_name := "a\\", m_latitude := 1, m_longitude := 2 }

/-! ## class CRoute

The route of `CRoute.cpp`: the member functions `addPoi` and
`getDistanceNextPoi`. The iterators `m_ForwardItr` and `m_ReverseItr` are
loop variables of these functions and are not part of the model. -/

/-- The call `getName()` on a waypoint. -/
def CWaypoint.getName (wp : CWaypoint) : String := wp.m_name

/-- The `CWaypoint` part of a point of interest: its name and coordinates. -/
def CPOI.toCWaypoint (poi : CPOI) : CWaypoint :=
  { m_name := poi.m_name, m_latitude := poi.m_latitude, m_longitude := poi.m_longitude }

/-- Modelled from the spec: an entry of `m_Course` (declared in `CRoute.h`, not
among the sources). The container holds pointers of type `CWaypoint *`; a
pointer leads either to a waypoint of the waypoint database or to a point of
interest of the point-of-interest database, a point of interest being a
waypoint plus category and description (`CPOI` derives from `CWaypoint`). An
entry is represented by the record it points to. -/
inductive CourseEntry
  | waypoint (wp : CWaypoint)
  | poi (poi : CPOI)
  deriving DecidableEq, Repr

namespace CourseEntry

/-- The cast `dynamic_cast<CWaypoint *>(*itr)` on an entry of `m_Course`:
`none` stands for the null pointer. The operand has the type `CWaypoint *`
already, so the cast hands back the pointer for every entry; for a point of
interest it leads to its `CWaypoint` part. -/
def asCWaypoint : CourseEntry → Option CWaypoint
  | waypoint wp => some wp
  | poi p => some p.toCWaypoint

/-- The cast `dynamic_cast<CPOI *>(*itr)` on an entry of `m_Course`: `none`
stands for the null pointer, which is the result for a plain waypoint. -/
def asCPOI : CourseEntry → Option CPOI
  | waypoint _ => none
  | poi p => some p

/-- The name of the record an entry points to. -/
def getName : CourseEntry → String
  | waypoint wp => wp.getName
  | poi p => p.toCWaypoint.getName

/-- The entry points to a plain waypoint, not to a point of interest. -/
def isWaypoint : CourseEntry → Bool
  | waypoint _ => true
  | poi _ => false

end CourseEntry

/-- What `CRoute.cpp` uses of code that is not among the sources, taken as
parameters: the lookup `CPoiDatabase::getPointerToPoi(name)` (`none` for the
null pointer), the distance `CWaypoint::calculateDistance` between two
waypoints, and the constant `numeric_limits<double>::max()`. -/
structure RouteCollaborators where
  getPointerToPoi : CPoiDatabase → String → Option CPOI
  calculateDistance : CWaypoint → CWaypoint → Rat
  DBL_MAX : Rat

/-- The member variables of `CRoute`: the two database pointers (`none` for the
null pointer of a database that is not connected) and the course. -/
structure CRoute where
  m_pPoiDatabase : Option CPoiDatabase
  m_pWpDatabase : Option CWpDatabase
  m_Course : List CourseEntry
  deriving DecidableEq, Repr

namespace CRoute

/-- The `for` loop of `CRoute::addPoi`, from `rbegin()` towards `rend()`:
`toVisit` holds the entries from the one `m_ReverseItr` points to down to the
first entry of the course, `visited` the entries behind it in course order.
On a match the point of interest is inserted at `m_ReverseItr.base()`, that is
right behind the matching entry, and the loop is left (`some` of the new
course); `none` when the loop ends with `isAfterWp` still `false`. -/
def addPoi.loop (afterWp : String) (pPoi : CPOI) :
    List CourseEntry → List CourseEntry → Option (List CourseEntry)
  | [], _ => none
  | e :: toVisit, visited =>
    match e.asCWaypoint with
    | some pWp =>
      if afterWp = pWp.getName then
        some (toVisit.reverse ++ e :: CourseEntry.poi pPoi :: visited)
      else addPoi.loop afterWp pPoi toVisit (e :: visited)
    | none => addPoi.loop afterWp pPoi toVisit (e :: visited)

/-- The function `CRoute::addPoi`. The warnings it prints are left out. -/
def addPoi (R : RouteCollaborators) (self : CRoute) (namePoi afterWp : String) : CRoute :=
  match self.m_pPoiDatabase with
  | some db =>
    match R.getPointerToPoi db namePoi with
    | some pPoi =>
      match addPoi.loop afterWp pPoi self.m_Course.reverse [] with
      | some course => { self with m_Course := course }
      | none => self
    | none => self
  | none => self

/-- One pass through the body of the `for` loop of
`CRoute::getDistanceNextPoi`: `acc` holds `shortestDistance` and `poi`. -/
def getDistanceNextPoi.body (R : RouteCollaborators) (wp : CWaypoint) (acc : Rat × CPOI)
    (e : CourseEntry) : Rat × CPOI :=
  match e.asCPOI with
  | some pPoi =>
    let currentDistance := R.calculateDistance pPoi.toCWaypoint wp
    if currentDistance ≤ acc.1 then (currentDistance, pPoi) else acc
  | none => acc

/-- The function `CRoute::getDistanceNextPoi`: the returned distance and the
value of the reference parameter `poi` after the call. -/
def getDistanceNextPoi (R : RouteCollaborators) (self : CRoute) (wp : CWaypoint) (poi : CPOI) :
    Rat × CPOI :=
  if !self.m_Course.isEmpty then
    self.m_Course.foldl (getDistanceNextPoi.body R wp) (R.DBL_MAX, poi)
  else (R.DBL_MAX, poi)

end CRoute

/-- Collaborators of the route for the worked examples: a lookup by name, the
first match in the database, and a distance that is 0 between waypoints on the
same place, 4 from a place of latitude 3 and 12 from any other place. -/
def sampleRouteCollaborators : RouteCollaborators :=
  { getPointerToPoi := fun db name => db.find? (fun p => decide (p.m_name = name)),
    calculateDistance := fun a b =>
      if a.m_latitude = b.m_latitude ∧ a.m_longitude = b.m_longitude then 0
      else if a.m_latitude = 3 then 4 else 12,
    DBL_MAX := 1000000 }

/-- A point-of-interest database for the worked examples: a point of interest
named `A` and two more, `Q` and `Mensa`, `A` and `Mensa` on the same place. -/
def samplePoiDatabase : CPoiDatabase :=
  [{ m_type := 1, m_name := "A", m_description := "inn", m_latitude := 3, m_longitude := 4 },
   { m_type := 0, m_name := "Q", m_description := "kiosk", m_latitude := 7, m_longitude := 8 },
   { m_type := 1, m_name := "Mensa", m_description := "canteen", m_latitude := 3,
     m_longitude := 4 }]

/-- A route for the worked examples: the waypoint `A`, behind it the point of
interest that is also named `A`, then the point of interest `Mensa`, on the
same place as the one before, and the waypoint `B`. -/
def sampleRoute : CRoute :=
  { m_pPoiDatabase := some samplePoiDatabase,
    m_pWpDatabase := none,
    m_Course :=
      [CourseEntry.waypoint { m_name := "A", m_latitude := 1, m_longitude := 2 },
       CourseEntry.poi
         { m_type := 1, m_name := "A", m_description := "inn", m_latitude := 3,
           m_longitude := 4 },
       CourseEntry.poi
         { m_type := 1, m_name := "Mensa", m_description := "canteen", m_latitude := 3,
           m_longitude := 4 },
       CourseEntry.waypoint { m_name := "B", m_latitude := 5, m_longitude := 6 }] }

/-! ## Theorems -/

namespace CJson

open readStates jsonReadExceptions CJsonToken

/-! ### The databases only grow during the loop -/

theorem emitRecord_waypointDb (E : Collaborators) (l : ReadLocals) :
    l.waypointDb <+: (emitRecord E l).waypointDb := by
  simp only [emitRecord]
  split_ifs <;> simp [CWpDatabase.addWaypoint]

theorem emitRecord_poiDb (E : Collaborators) (l : ReadLocals) :
    l.poiDb <+: (emitRecord E l).poiDb := by
  simp only [emitRecord]
  split_ifs <;> simp [CPoiDatabase.addPoi]

theorem dispatch_waypointDb (E : Collaborators) (l : ReadLocals) (t : CJsonToken) :
    l.waypointDb <+: (dispatch E l t).waypointDb := by
  simp only [dispatch]
  repeat' split
  all_goals first
    | exact List.prefix_refl _
    | exact emitRecord_waypointDb E
        { l with self := (extractValue E l.self t l.vars).2.1,
                 vars := (extractValue E l.self t l.vars).2.2 }

theorem dispatch_poiDb (E : Collaborators) (l : ReadLocals) (t : CJsonToken) :
    l.poiDb <+: (dispatch E l t).poiDb := by
  simp only [dispatch]
  repeat' split
  all_goals first
    | exact List.prefix_refl _
    | exact emitRecord_poiDb E
        { l with self := (extractValue E l.self t l.vars).2.1,
                 vars := (extractValue E l.self t l.vars).2.2 }

theorem loopBody_waypointDb (E : Collaborators) (l : ReadLocals) (t : CJsonToken) :
    l.waypointDb <+: (loopBody E l t).waypointDb := by
  simp only [loopBody]
  split
  · exact dispatch_waypointDb E { l with event := t.getType, consumed := l.consumed + 1 } t
  · exact dispatch_waypointDb E { l with event := t.getType, consumed := l.consumed + 1 } t

theorem loopBody_poiDb (E : Collaborators) (l : ReadLocals) (t : CJsonToken) :
    l.poiDb <+: (loopBody E l t).poiDb := by
  simp only [loopBody]
  split
  · exact dispatch_poiDb E { l with event := t.getType, consumed := l.consumed + 1 } t
  · exact dispatch_poiDb E { l with event := t.getType, consumed := l.consumed + 1 } t

theorem readLoop_waypointDb (E : Collaborators) (ts : List CJsonToken) :
    ∀ l : ReadLocals, l.waypointDb <+: (readLoop E l ts).waypointDb := by
  induction ts with
  | nil => intro l; exact List.prefix_refl _
  | cons t rest ih =>
    intro l
    simp only [readLoop]
    split
    · exact loopBody_waypointDb E l t
    · exact (loopBody_waypointDb E l t).trans (ih _)

theorem readLoop_poiDb (E : Collaborators) (ts : List CJsonToken) :
    ∀ l : ReadLocals, l.poiDb <+: (readLoop E l ts).poiDb := by
  induction ts with
  | nil => intro l; exact List.prefix_refl _
  | cons t rest ih =>
    intro l
    simp only [readLoop]
    split
    · exact loopBody_poiDb E l t
    · exact (loopBody_poiDb E l t).trans (ih _)

/-! ### The return value, the mode and the first states -/

/-- C1 (the code departs from the specification). Whenever the file could be opened and
the mode is `MERGE` or `REPLACE`, `readData` returns `true`, whatever the
tokens are; in particular for the input `[`, on which the state machine rejects
the first token with `JSON_ERR_EXPECT_BEGIN_OBJECT`, the rejection is caught and
the value returned to the caller is still `true`. -/
theorem readData_returns_true_on_rejected_token (E : Collaborators) (self : CJson)
    (waypointDb : CWpDatabase) (poiDb : CPoiDatabase) :
    (∀ input : List CJsonToken,
      (readData E self true input waypointDb poiDb MergeMode.MERGE).ret = true ∧
      (readData E self true input waypointDb poiDb MergeMode.REPLACE).ret = true) ∧
    (readData E self true [beginArray] waypointDb poiDb MergeMode.MERGE).run.map
        (fun l => (l.error, l.consumed)) = some (JSON_ERR_EXPECT_BEGIN_OBJECT, 1) ∧
    (readData E self true [beginArray] waypointDb poiDb MergeMode.MERGE).ret = true := by
  refine ⟨fun input => ⟨rfl, rfl⟩, rfl, rfl⟩

/-- C5. With mode `REPLACE` the loop of `readData` is entered with an empty
waypoint database and the point-of-interest database as it was, no token
consumed yet; with mode `MERGE` it is entered with both databases as they were.
A `REPLACE` call therefore is a `MERGE` call on an emptied waypoint database,
and the entries the loop starts with stay where they are: the loop only adds at
the end of a database. -/
theorem readData_replace_clears_waypoints_only (E : Collaborators) (self : CJson)
    (input : List CJsonToken) (waypointDb : CWpDatabase) (poiDb : CPoiDatabase) :
    (enterLoop E self waypointDb poiDb MergeMode.REPLACE =
        some (initialLocals E self [] poiDb) ∧
      (initialLocals E self [] poiDb).waypointDb = [] ∧
      (initialLocals E self [] poiDb).poiDb = poiDb ∧
      (initialLocals E self [] poiDb).consumed = 0) ∧
    (enterLoop E self waypointDb poiDb MergeMode.MERGE =
        some (initialLocals E self waypointDb poiDb) ∧
      (initialLocals E self waypointDb poiDb).waypointDb = waypointDb ∧
      (initialLocals E self waypointDb poiDb).poiDb = poiDb ∧
      (initialLocals E self waypointDb poiDb).consumed = 0) ∧
    readData E self true input waypointDb poiDb MergeMode.REPLACE =
      readData E self true input [] poiDb MergeMode.MERGE ∧
    poiDb <+: (readData E self true input waypointDb poiDb MergeMode.REPLACE).poiDb ∧
    waypointDb <+: (readData E self true input waypointDb poiDb MergeMode.MERGE).waypointDb ∧
    poiDb <+: (readData E self true input waypointDb poiDb MergeMode.MERGE).poiDb := by
  refine ⟨⟨rfl, rfl, rfl, rfl⟩, ⟨rfl, rfl, rfl, rfl⟩, rfl, ?_, ?_, ?_⟩
  · exact readLoop_poiDb E input (initialLocals E self [] poiDb)
  · exact readLoop_waypointDb E input (initialLocals E self waypointDb poiDb)
  · exact readLoop_poiDb E input (initialLocals E self waypointDb poiDb)

/-- C6. For every mode value other than `MERGE` and `REPLACE`, `readData`
returns `false`, never enters its loop (no scanner is built, no token is
requested, whatever the input holds) and hands back both databases unchanged. -/
theorem readData_unknown_mode (E : Collaborators) (self : CJson) (fileOpened : Bool)
    (input : List CJsonToken) (waypointDb : CWpDatabase) (poiDb : CPoiDatabase) (value : Int) :
    readData E self fileOpened input waypointDb poiDb (MergeMode.other value) =
      { ret := false, waypointDb := waypointDb, poiDb := poiDb, run := none } := by
  cases fileOpened <;> rfl

/-- C7. In the initial state a begin-object token is accepted, and for every
input whose first token `t` is anything else the loop ends on that token with
`JSON_ERR_EXPECT_BEGIN_OBJECT`: the local variables are those of the start
except for the event, the error and the count of consumed tokens, which is 1, so
the rest of the input is never requested and both databases are as they were
when the loop was entered (the waypoint database emptied under `REPLACE`). -/
theorem readData_first_token_not_beginObject (E : Collaborators) (self : CJson)
    (waypointDb : CWpDatabase) (poiDb : CPoiDatabase) (t : CJsonToken)
    (rest : List CJsonToken) (ht : t ≠ beginObject) :
    readLoop E (initialLocals E self waypointDb poiDb) (t :: rest) =
      { initialLocals E self waypointDb poiDb with
        event := t.getType, error := JSON_ERR_EXPECT_BEGIN_OBJECT, consumed := 1 } ∧
    (loopBody E (initialLocals E self waypointDb poiDb) beginObject).error = JSON_ERR_NO ∧
    (readData E self true (t :: rest) waypointDb poiDb MergeMode.MERGE).run.map
        (fun l => (l.error, l.consumed, l.waypointDb, l.poiDb)) =
      some (JSON_ERR_EXPECT_BEGIN_OBJECT, 1, waypointDb, poiDb) ∧
    (readData E self true (t :: rest) waypointDb poiDb MergeMode.REPLACE).run.map
        (fun l => (l.error, l.consumed, l.waypointDb, l.poiDb)) =
      some (JSON_ERR_EXPECT_BEGIN_OBJECT, 1, [], poiDb) := by
  have key : ∀ wdb : CWpDatabase, readLoop E (initialLocals E self wdb poiDb) (t :: rest) =
      { initialLocals E self wdb poiDb with
        event := t.getType, error := JSON_ERR_EXPECT_BEGIN_OBJECT, consumed := 1 } := by
    intro wdb
    cases t <;>
      simp [readLoop, loopBody, dispatch, initialLocals, CJsonToken.getType] at ht ⊢
  refine ⟨key waypointDb, ?_, ?_, ?_⟩
  · simp [loopBody, dispatch, initialLocals, CJsonToken.getType, ReadLocals.goto]
  · simp only [readData, enterLoop, if_true, key waypointDb]
    rfl
  · simp only [readData, enterLoop, if_true, CWpDatabase.resetWpsDatabase, key []]
    rfl

/-- Witness for C7: a top-level array. -/
theorem readData_first_token_not_beginObject_witness :
    readLoop sampleCollaborators (initialLocals sampleCollaborators sampleCJson [] [])
        [beginArray, endArray] =
      { initialLocals sampleCollaborators sampleCJson [] [] with
        event := beginArray.getType, error := JSON_ERR_EXPECT_BEGIN_OBJECT, consumed := 1 } ∧
    (loopBody sampleCollaborators (initialLocals sampleCollaborators sampleCJson [] [])
        beginObject).error = JSON_ERR_NO ∧
    (readData sampleCollaborators sampleCJson true [beginArray, endArray] [] []
        MergeMode.MERGE).run.map (fun l => (l.error, l.consumed, l.waypointDb, l.poiDb)) =
      some (JSON_ERR_EXPECT_BEGIN_OBJECT, 1, [], []) ∧
    (readData sampleCollaborators sampleCJson true [beginArray, endArray] [] []
        MergeMode.REPLACE).run.map (fun l => (l.error, l.consumed, l.waypointDb, l.poiDb)) =
      some (JSON_ERR_EXPECT_BEGIN_OBJECT, 1, [], []) :=
  readData_first_token_not_beginObject sampleCollaborators sampleCJson [] [] beginArray
    [endArray] (by decide)

/-- C8. In `WAITING_FOR_DB_NAME` a token is accepted exactly when it is the
string `"waypoints"` or the string `"pois"`; every other token raises
`JSON_ERR_EXPECT_DB_NAME_STRING`. On acceptance all attribute flags and both
array flags are cleared and then the flag of the named array alone is set, and
the state becomes `WAITING_FOR_NAME_SEPARATOR` with previous state
`WAITING_FOR_DB_NAME`. -/
theorem loopBody_WAITING_FOR_DB_NAME (E : Collaborators) (l : ReadLocals) (t : CJsonToken)
    (hstate : l.currentState = WAITING_FOR_DB_NAME) (herr : l.error = JSON_ERR_NO) :
    ((loopBody E l t).error = JSON_ERR_NO ↔
      (t = stringToken "waypoints" ∨ t = stringToken "pois")) ∧
    ((loopBody E l t).error = JSON_ERR_NO ∨
      (loopBody E l t).error = JSON_ERR_EXPECT_DB_NAME_STRING) ∧
    loopBody E l (stringToken "waypoints") =
      { l with
        self := { l.self with
          m_currentObjectRead := { WAYPOINTS := true, POINT_OF_INTEREST := false },
          m_isAttrAlreadyRead :=
            { INVALID_TYPE := false, NAME := false, LATITUDE := false, LONGITUDE := false,
              POI_TYPE := false, DESCRIPTION := false } },
        event := TokenType.STRING, previousEvent := TokenType.STRING,
        currentState := WAITING_FOR_NAME_SEPARATOR, previousState := WAITING_FOR_DB_NAME,
        consumed := l.consumed + 1 } ∧
    loopBody E l (stringToken "pois") =
      { l with
        self := { l.self with
          m_currentObjectRead := { WAYPOINTS := false, POINT_OF_INTEREST := true },
          m_isAttrAlreadyRead :=
            { INVALID_TYPE := false, NAME := false, LATITUDE := false, LONGITUDE := false,
              POI_TYPE := false, DESCRIPTION := false } },
        event := TokenType.STRING, previousEvent := TokenType.STRING,
        currentState := WAITING_FOR_NAME_SEPARATOR, previousState := WAITING_FOR_DB_NAME,
        consumed := l.consumed + 1 } := by
  refine ⟨?_, ?_, ?_, ?_⟩
  · cases t with
    | stringToken v =>
      by_cases h1 : v = "waypoints"
      · simp [loopBody, dispatch, hstate, herr, CJsonToken.getType, CJsonToken.asString,
          currentReadObject, ReadLocals.goto, h1]
      · by_cases h2 : v = "pois"
        · simp [loopBody, dispatch, hstate, herr, CJsonToken.getType, CJsonToken.asString,
            currentReadObject, ReadLocals.goto, h2]
        · simp [loopBody, dispatch, hstate, herr, CJsonToken.getType, CJsonToken.asString,
            currentReadObject, ReadLocals.goto, h1, h2]
    | _ => simp [loopBody, dispatch, hstate, herr, CJsonToken.getType]
  · cases t with
    | stringToken v =>
      by_cases h1 : v = "waypoints"
      · simp [loopBody, dispatch, hstate, herr, CJsonToken.getType, CJsonToken.asString,
          currentReadObject, ReadLocals.goto, h1]
      · by_cases h2 : v = "pois"
        · simp [loopBody, dispatch, hstate, herr, CJsonToken.getType, CJsonToken.asString,
            currentReadObject, ReadLocals.goto, h2]
        · simp [loopBody, dispatch, hstate, herr, CJsonToken.getType, CJsonToken.asString,
            currentReadObject, ReadLocals.goto, h1, h2]
    | _ => simp [loopBody, dispatch, hstate, herr, CJsonToken.getType]
  · simp [loopBody, dispatch, hstate, herr, CJsonToken.getType, CJsonToken.asString,
      currentReadObject, ReadLocals.goto, resetAllAttributesRead, resetCurrentReadObjects]
  · simp [loopBody, dispatch, hstate, herr, CJsonToken.getType, CJsonToken.asString,
      currentReadObject, ReadLocals.goto, resetAllAttributesRead, resetCurrentReadObjects]

/-- Witness for C8: the state reached after the opening brace of a document, and
the unknown array name `"routes"`. -/
theorem loopBody_WAITING_FOR_DB_NAME_witness :
    ((loopBody sampleCollaborators sampleLocalsDbName (stringToken "routes")).error =
        JSON_ERR_NO ↔
      (stringToken "routes" = stringToken "waypoints" ∨
        stringToken "routes" = stringToken "pois")) ∧
    ((loopBody sampleCollaborators sampleLocalsDbName (stringToken "routes")).error =
        JSON_ERR_NO ∨
      (loopBody sampleCollaborators sampleLocalsDbName (stringToken "routes")).error =
        JSON_ERR_EXPECT_DB_NAME_STRING) ∧
    loopBody sampleCollaborators sampleLocalsDbName (stringToken "waypoints") =
      { sampleLocalsDbName with
        self := { sampleLocalsDbName.self with
          m_currentObjectRead := { WAYPOINTS := true, POINT_OF_INTEREST := false },
          m_isAttrAlreadyRead :=
            { INVALID_TYPE := false, NAME := false, LATITUDE := false, LONGITUDE := false,
              POI_TYPE := false, DESCRIPTION := false } },
        event := TokenType.STRING, previousEvent := TokenType.STRING,
        currentState := WAITING_FOR_NAME_SEPARATOR, previousState := WAITING_FOR_DB_NAME,
        consumed := sampleLocalsDbName.consumed + 1 } ∧
    loopBody sampleCollaborators sampleLocalsDbName (stringToken "pois") =
      { sampleLocalsDbName with
        self := { sampleLocalsDbName.self with
          m_currentObjectRead := { WAYPOINTS := false, POINT_OF_INTEREST := true },
          m_isAttrAlreadyRead :=
            { INVALID_TYPE := false, NAME := false, LATITUDE := false, LONGITUDE := false,
              POI_TYPE := false, DESCRIPTION := false } },
        event := TokenType.STRING, previousEvent := TokenType.STRING,
        currentState := WAITING_FOR_NAME_SEPARATOR, previousState := WAITING_FOR_DB_NAME,
        consumed := sampleLocalsDbName.consumed + 1 } :=
  loopBody_WAITING_FOR_DB_NAME sampleCollaborators sampleLocalsDbName (stringToken "routes")
    (by decide) (by decide)

/-- C9. `allAttributesRead` returns `true` exactly when the current array is
waypoints and NAME, LATITUDE and LONGITUDE have been captured, or the current
array is pois and all five attributes have been captured; with no array
selected it returns `false`. -/
theorem allAttributesRead_iff (self : CJson) :
    (allAttributesRead self = true ↔
      (self.m_currentObjectRead.WAYPOINTS = true ∧ self.m_isAttrAlreadyRead.NAME = true ∧
        self.m_isAttrAlreadyRead.LATITUDE = true ∧ self.m_isAttrAlreadyRead.LONGITUDE = true) ∨
      (self.m_currentObjectRead.POINT_OF_INTEREST = true ∧
        self.m_isAttrAlreadyRead.NAME = true ∧ self.m_isAttrAlreadyRead.LATITUDE = true ∧
        self.m_isAttrAlreadyRead.LONGITUDE = true ∧ self.m_isAttrAlreadyRead.POI_TYPE = true ∧
        self.m_isAttrAlreadyRead.DESCRIPTION = true)) ∧
    allAttributesRead
      { self with m_currentObjectRead := { WAYPOINTS := false, POINT_OF_INTEREST := false } } =
      false := by
  obtain ⟨⟨w, p⟩, ⟨i, n, la, lo, ty, d⟩, et, ea⟩ := self
  cases w <;> cases p <;> cases n <;> cases la <;> cases lo <;> cases ty <;> cases d <;>
    simp [allAttributesRead]

/-! ### Running the loop over a schema document -/

theorem readLoop_cons_ok (E : Collaborators) (l : ReadLocals) (t : CJsonToken)
    (ts : List CJsonToken) (h : (loopBody E l t).error = JSON_ERR_NO) :
    readLoop E l (t :: ts) = readLoop E (loopBody E l t) ts := by
  simp [readLoop, h]

theorem readLoop_cons_err (E : Collaborators) (l : ReadLocals) (t : CJsonToken)
    (ts : List CJsonToken) (h : (loopBody E l t).error ≠ JSON_ERR_NO) :
    readLoop E l (t :: ts) = loopBody E l t := by
  simp [readLoop, h]

theorem readLoop_append (E : Collaborators) (xs ys : List CJsonToken) :
    ∀ l : ReadLocals, (readLoop E l xs).error = JSON_ERR_NO →
      readLoop E l (xs ++ ys) = readLoop E (readLoop E l xs) ys := by
  induction xs with
  | nil => intro l _; rfl
  | cons t rest ih =>
    intro l h
    by_cases hb : (loopBody E l t).error = JSON_ERR_NO
    · rw [List.cons_append, readLoop_cons_ok E l t _ hb, readLoop_cons_ok E l t _ hb]
      rw [readLoop_cons_ok E l t _ hb] at h
      exact ih _ h
    · rw [readLoop_cons_err E l t _ hb] at h
      exact absurd h hb

theorem expectedAttributeValue_key (self : CJson) (a : SchemaAttribute) :
    expectedAttributeValue self a.key =
      (true, { self with m_exceptedTokenType := a.kind, m_exceptedAttributeType := a.id }) := by
  cases a <;>
    simp [expectedAttributeValue, expectedAttributeValue.search, arributeLUT,
      SchemaAttribute.key, SchemaAttribute.kind, SchemaAttribute.id]

theorem emitRecord_frame (E : Collaborators) (l : ReadLocals) :
    (emitRecord E l).self = l.self ∧ (emitRecord E l).event = l.event ∧
    (emitRecord E l).previousEvent = l.previousEvent ∧
    (emitRecord E l).currentState = l.currentState ∧
    (emitRecord E l).previousState = l.previousState ∧
    (emitRecord E l).error = l.error ∧ (emitRecord E l).vars = l.vars ∧
    (emitRecord E l).consumed = l.consumed := by
  simp only [emitRecord]
  split_ifs <;> simp

theorem readLoop_attribute_more (E : Collaborators) (o : SchemaObject) (a : SchemaAttribute)
    (l : ReadLocals) (hs : l.currentState = WAITING_FOR_ATTRIBUTE_NAME)
    (he : l.error = JSON_ERR_NO) (hi : l.self.m_isAttrAlreadyRead.INVALID_TYPE = false)
    (hf : l.self.m_isAttrAlreadyRead.get a = false)
    (hall : allAttributesRead
          { l.self with
            m_isAttrAlreadyRead := l.self.m_isAttrAlreadyRead.set a,
            m_exceptedTokenType := a.kind, m_exceptedAttributeType := a.id } = false) :
    readLoop E l (o.attributeTokens a) =
        { l with
          self := { l.self with
            m_isAttrAlreadyRead := l.self.m_isAttrAlreadyRead.set a,
            m_exceptedTokenType := a.kind, m_exceptedAttributeType := a.id },
          vars := o.store E l.vars a, event := a.kind, previousEvent := a.kind,
          currentState := WAITING_FOR_VALUE_SEPARATOR, previousState := WAITING_FOR_VALUE,
          consumed := l.consumed + 1 + 1 + 1 } := by
  obtain ⟨⟨cur, ⟨fi, fn, fla, flo, fty, fd⟩, et, ea⟩, ev, pev, cs, ps, err, vars, wdb, pdb, n⟩ := l
  simp only at hs he hi
  subst hs he hi
  cases a <;> simp only [AttrFlags.get] at hf <;> subst hf <;>
    simp only [AttrFlags.set, SchemaAttribute.kind, SchemaAttribute.id] at hall <;>
    simp [readLoop, loopBody, dispatch, SchemaObject.attributeTokens, expectedAttributeValue_key,
      CJsonToken.getType, CJsonToken.asString, CJsonToken.asNumber, ReadLocals.goto,
      SchemaAttribute.kind, SchemaAttribute.id, SchemaObject.valueToken, extractValue,
      AttrFlags.set, SchemaObject.store, hall]

theorem readLoop_attribute_last (E : Collaborators) (o : SchemaObject) (a : SchemaAttribute)
    (l : ReadLocals) (hs : l.currentState = WAITING_FOR_ATTRIBUTE_NAME)
    (he : l.error = JSON_ERR_NO) (hi : l.self.m_isAttrAlreadyRead.INVALID_TYPE = false)
    (hf : l.self.m_isAttrAlreadyRead.get a = false)
    (hall : allAttributesRead
          { l.self with
            m_isAttrAlreadyRead := l.self.m_isAttrAlreadyRead.set a,
            m_exceptedTokenType := a.kind, m_exceptedAttributeType := a.id } = true) :
    readLoop E l (o.attributeTokens a) =
        { emitRecord E
            { l with
              self := { l.self with
                m_isAttrAlreadyRead := l.self.m_isAttrAlreadyRead.set a,
                m_exceptedTokenType := a.kind, m_exceptedAttributeType := a.id },
              vars := o.store E l.vars a, event := a.kind,
              previousEvent := TokenType.NAME_SEPARATOR,
              currentState := WAITING_FOR_VALUE,
              previousState := WAITING_FOR_NAME_SEPARATOR,
              consumed := l.consumed + 1 + 1 + 1 } with
          previousEvent := a.kind, currentState := WAITING_FOR_DB_OBJECT_END,
          previousState := WAITING_FOR_VALUE } := by
  obtain ⟨⟨cur, ⟨fi, fn, fla, flo, fty, fd⟩, et, ea⟩, ev, pev, cs, ps, err, vars, wdb, pdb, n⟩ := l
  simp only at hs he hi
  subst hs he hi
  cases a <;> simp only [AttrFlags.get] at hf <;> subst hf <;>
    simp only [AttrFlags.set, SchemaAttribute.kind, SchemaAttribute.id] at hall <;>
    simp [readLoop, loopBody, dispatch, SchemaObject.attributeTokens, expectedAttributeValue_key,
      CJsonToken.getType, CJsonToken.asString, CJsonToken.asNumber, ReadLocals.goto,
      SchemaAttribute.kind, SchemaAttribute.id, SchemaObject.valueToken, extractValue,
      AttrFlags.set, SchemaObject.store, hall, emitRecord_frame]

theorem AttrFlags.get_set (F : AttrFlags) (a m : SchemaAttribute) :
    (F.set a).get m = true ↔ (F.get m = true ∨ m = a) := by
  cases a <;> cases m <;> simp [AttrFlags.set, AttrFlags.get]

theorem AttrFlags.set_INVALID_TYPE (F : AttrFlags) (a : SchemaAttribute) :
    (F.set a).INVALID_TYPE = F.INVALID_TYPE := by
  cases a <;> rfl

theorem loopBody_valueSeparator_after_value (E : Collaborators) (l : ReadLocals)
    (hs : l.currentState = WAITING_FOR_VALUE_SEPARATOR)
    (hp : l.previousState = WAITING_FOR_VALUE) (he : l.error = JSON_ERR_NO) :
    loopBody E l valueSeparator =
      { l with
        event := TokenType.VALUE_SEPARATOR, previousEvent := TokenType.VALUE_SEPARATOR,
        currentState := WAITING_FOR_ATTRIBUTE_NAME,
        previousState := WAITING_FOR_VALUE_SEPARATOR, consumed := l.consumed + 1 } := by
  simp [loopBody, dispatch, hs, hp, he, CJsonToken.getType, ReadLocals.goto]

/-- The members of an object whose attributes are new to the object, all of
them mandatory and together completing the mandatory ones (`M`), take the
reader from `WAITING_FOR_ATTRIBUTE_NAME` to `WAITING_FOR_DB_OBJECT_END`: the
values are stored one after the other, and the record is emitted on the last
value. -/
theorem readLoop_membersTokens (E : Collaborators) (o : SchemaObject)
    (cur : CurrentObjectRead) (M : List SchemaAttribute)
    (hM : ∀ s : CJson, s.m_currentObjectRead = cur →
      (allAttributesRead s = true ↔ ∀ a ∈ M, s.m_isAttrAlreadyRead.get a = true))
    (order : List SchemaAttribute) :
    ∀ l : ReadLocals, l.currentState = WAITING_FOR_ATTRIBUTE_NAME → l.error = JSON_ERR_NO →
      l.self.m_currentObjectRead = cur → l.self.m_isAttrAlreadyRead.INVALID_TYPE = false →
      order ≠ [] → order.Nodup → (∀ a ∈ order, l.self.m_isAttrAlreadyRead.get a = false) →
      (∀ a ∈ M, l.self.m_isAttrAlreadyRead.get a = true ∨ a ∈ order) →
      (∀ a ∈ order, a ∈ M) →
      ∃ (l1 : ReadLocals) (pe : TokenType),
        l1.self.m_currentObjectRead = cur ∧ l1.vars = order.foldl (o.store E) l.vars ∧
        l1.waypointDb = l.waypointDb ∧ l1.poiDb = l.poiDb ∧ l1.error = JSON_ERR_NO ∧
        readLoop E l (o.membersTokens order) =
          { emitRecord E l1 with
            previousEvent := pe, currentState := WAITING_FOR_DB_OBJECT_END,
            previousState := WAITING_FOR_VALUE } := by
  induction order with
  | nil => intro l _ _ _ _ h; exact absurd rfl h
  | cons a rest ih =>
    intro l hs he hc hi _ hnd hnew hcov hman
    have hfa : l.self.m_isAttrAlreadyRead.get a = false := hnew a (List.mem_cons_self _ _)
    cases rest with
    | nil =>
      have hall : allAttributesRead
          { l.self with
            m_isAttrAlreadyRead := l.self.m_isAttrAlreadyRead.set a,
            m_exceptedTokenType := a.kind, m_exceptedAttributeType := a.id } = true := by
        refine (hM { l.self with
            m_isAttrAlreadyRead := l.self.m_isAttrAlreadyRead.set a,
            m_exceptedTokenType := a.kind, m_exceptedAttributeType := a.id } hc).mpr ?_
        intro m hm
        refine (AttrFlags.get_set _ a m).mpr ?_
        rcases hcov m hm with h | h
        · exact Or.inl h
        · exact Or.inr (List.mem_singleton.mp h)
      refine ⟨_, _, ?_, ?_, ?_, ?_, ?_, readLoop_attribute_last E o a l hs he hi hfa hall⟩
      · exact hc
      · rfl
      · rfl
      · rfl
      · exact he
    | cons b rest =>
      have hba : b ≠ a := by
        intro h
        have := (List.nodup_cons.mp hnd).1
        exact this (h ▸ List.mem_cons_self _ _)
      have hfb : l.self.m_isAttrAlreadyRead.get b = false :=
        hnew b (List.mem_cons_of_mem _ (List.mem_cons_self _ _))
      have hall : allAttributesRead
          { l.self with
            m_isAttrAlreadyRead := l.self.m_isAttrAlreadyRead.set a,
            m_exceptedTokenType := a.kind, m_exceptedAttributeType := a.id } = false := by
        rw [Bool.eq_false_iff]
        intro hcontra
        have hcontra2 := (hM { l.self with
            m_isAttrAlreadyRead := l.self.m_isAttrAlreadyRead.set a,
            m_exceptedTokenType := a.kind, m_exceptedAttributeType := a.id } hc).mp hcontra
        have hb := (AttrFlags.get_set _ a b).mp
          (hcontra2 b (hman b (List.mem_cons_of_mem _ (List.mem_cons_self _ _))))
        rcases hb with h | h
        · rw [hfb] at h; exact Bool.noConfusion h
        · exact hba h
      have hstep := readLoop_attribute_more E o a l hs he hi hfa hall
      have h2e : (readLoop E l (o.attributeTokens a)).error = JSON_ERR_NO := by
        rw [hstep]; exact he
      have h2s : (readLoop E l (o.attributeTokens a)).currentState =
          WAITING_FOR_VALUE_SEPARATOR := by rw [hstep]
      have h2p : (readLoop E l (o.attributeTokens a)).previousState = WAITING_FOR_VALUE := by
        rw [hstep]
      have h2c : (readLoop E l (o.attributeTokens a)).self.m_currentObjectRead = cur := by
        rw [hstep]; exact hc
      have h2f : (readLoop E l (o.attributeTokens a)).self.m_isAttrAlreadyRead =
          l.self.m_isAttrAlreadyRead.set a := by rw [hstep]
      have h2v : (readLoop E l (o.attributeTokens a)).vars = o.store E l.vars a := by
        rw [hstep]
      have h2w : (readLoop E l (o.attributeTokens a)).waypointDb = l.waypointDb := by
        rw [hstep]
      have h2d : (readLoop E l (o.attributeTokens a)).poiDb = l.poiDb := by rw [hstep]
      have h3 := loopBody_valueSeparator_after_value E (readLoop E l (o.attributeTokens a))
        h2s h2p h2e
      have h3e : (loopBody E (readLoop E l (o.attributeTokens a)) valueSeparator).error =
          JSON_ERR_NO := by rw [h3]; exact h2e
      simp only [SchemaObject.membersTokens]
      rw [readLoop_append E _ _ l h2e,
        readLoop_cons_ok E (readLoop E l (o.attributeTokens a)) valueSeparator _ h3e]
      obtain ⟨l1, pe, h1, h2, h3w, h4, h5, h6⟩ :=
        ih (loopBody E (readLoop E l (o.attributeTokens a)) valueSeparator)
        (by rw [h3]) h3e (by rw [h3]; exact h2c)
        (by rw [h3]; simp only [h2f, AttrFlags.set_INVALID_TYPE]; exact hi)
        (List.cons_ne_nil _ _) (List.nodup_cons.mp hnd).2
        (by
          intro x hx
          have hxa : x ≠ a := by
            intro h
            exact (List.nodup_cons.mp hnd).1 (h ▸ hx)
          have := hnew x (List.mem_cons_of_mem _ hx)
          rw [h3]
          simp only [h2f]
          rw [Bool.eq_false_iff] at this ⊢
          intro hset
          have hget := (AttrFlags.get_set _ a x).mp hset
          rcases hget with h | h
          · exact this h
          · exact hxa h)
        (by
          intro m hm
          rw [h3]
          simp only [h2f]
          rcases hcov m hm with h | h
          · exact Or.inl ((AttrFlags.get_set _ a m).mpr (Or.inl h))
          · rcases List.mem_cons.mp h with h | h
            · exact Or.inl ((AttrFlags.get_set _ a m).mpr (Or.inr h))
            · exact Or.inr h)
        (by
          intro x hx
          exact hman x (List.mem_cons_of_mem _ hx))
      refine ⟨l1, pe, h1, ?_, ?_, ?_, h5, h6⟩
      · rw [h2, h3]; simp only [h2v, List.foldl_cons]
      · rw [h3w, h3]; exact h2w
      · rw [h4, h3]; exact h2d

theorem foldl_store (E : Collaborators) (o : SchemaObject) (order : List SchemaAttribute) :
    ∀ v : Scratch,
      (SchemaAttribute.name ∈ order → (order.foldl (o.store E) v).name = o.name) ∧
      (SchemaAttribute.latitude ∈ order → (order.foldl (o.store E) v).latitude = o.latitude) ∧
      (SchemaAttribute.longitude ∈ order →
        (order.foldl (o.store E) v).longitude = o.longitude) ∧
      (SchemaAttribute.type ∈ order →
        (order.foldl (o.store E) v).type = E.getPoiType o.type) ∧
      (SchemaAttribute.description ∈ order →
        (order.foldl (o.store E) v).description = o.description) ∧
      (SchemaAttribute.name ∉ order → (order.foldl (o.store E) v).name = v.name) ∧
      (SchemaAttribute.latitude ∉ order → (order.foldl (o.store E) v).latitude = v.latitude) ∧
      (SchemaAttribute.longitude ∉ order →
        (order.foldl (o.store E) v).longitude = v.longitude) ∧
      (SchemaAttribute.type ∉ order → (order.foldl (o.store E) v).type = v.type) ∧
      (SchemaAttribute.description ∉ order →
        (order.foldl (o.store E) v).description = v.description) := by
  induction order with
  | nil => intro v; simp
  | cons a rest ih =>
    intro v
    obtain ⟨h1, h2, h3, h4, h5, h6, h7, h8, h9, h10⟩ := ih (o.store E v a)
    simp only [List.foldl_cons, List.mem_cons, not_or]
    refine ⟨?_, ?_, ?_, ?_, ?_, ?_, ?_, ?_, ?_, ?_⟩
    · intro h
      by_cases hr : SchemaAttribute.name ∈ rest
      · exact h1 hr
      · rw [h6 hr]
        rcases h with h | h
        · rw [← h]; rfl
        · exact absurd h hr
    · intro h
      by_cases hr : SchemaAttribute.latitude ∈ rest
      · exact h2 hr
      · rw [h7 hr]
        rcases h with h | h
        · rw [← h]; rfl
        · exact absurd h hr
    · intro h
      by_cases hr : SchemaAttribute.longitude ∈ rest
      · exact h3 hr
      · rw [h8 hr]
        rcases h with h | h
        · rw [← h]; rfl
        · exact absurd h hr
    · intro h
      by_cases hr : SchemaAttribute.type ∈ rest
      · exact h4 hr
      · rw [h9 hr]
        rcases h with h | h
        · rw [← h]; rfl
        · exact absurd h hr
    · intro h
      by_cases hr : SchemaAttribute.description ∈ rest
      · exact h5 hr
      · rw [h10 hr]
        rcases h with h | h
        · rw [← h]; rfl
        · exact absurd h hr
    · intro h
      rw [h6 h.2]
      cases a <;> first | rfl | exact absurd rfl h.1
    · intro h
      rw [h7 h.2]
      cases a <;> first | rfl | exact absurd rfl h.1
    · intro h
      rw [h8 h.2]
      cases a <;> first | rfl | exact absurd rfl h.1
    · intro h
      rw [h9 h.2]
      cases a <;> first | rfl | exact absurd rfl h.1
    · intro h
      rw [h10 h.2]
      cases a <;> first | rfl | exact absurd rfl h.1

theorem loopBody_beginObject_of_object (E : Collaborators) (l : ReadLocals)
    (hs : l.currentState = WAITING_FOR_DB_OBJECT_BEGIN) (he : l.error = JSON_ERR_NO) :
    loopBody E l beginObject =
      { l with
        self := resetAllAttributesRead l.self,
        event := TokenType.BEGIN_OBJECT, previousEvent := TokenType.BEGIN_OBJECT,
        currentState := WAITING_FOR_ATTRIBUTE_NAME,
        previousState := WAITING_FOR_DB_OBJECT_BEGIN, consumed := l.consumed + 1 } := by
  simp [loopBody, dispatch, hs, he, CJsonToken.getType, ReadLocals.goto]

theorem loopBody_endObject_of_object (E : Collaborators) (l : ReadLocals)
    (hs : l.currentState = WAITING_FOR_DB_OBJECT_END) (he : l.error = JSON_ERR_NO) :
    loopBody E l endObject =
      { l with
        event := TokenType.END_OBJECT, previousEvent := TokenType.END_OBJECT,
        currentState := WAITING_FOR_VALUE_SEPARATOR,
        previousState := WAITING_FOR_DB_OBJECT_END, consumed := l.consumed + 1 } := by
  simp [loopBody, dispatch, hs, he, CJsonToken.getType, ReadLocals.goto]

theorem loopBody_valueSeparator_after_object (E : Collaborators) (l : ReadLocals)
    (hs : l.currentState = WAITING_FOR_VALUE_SEPARATOR)
    (hp : l.previousState = WAITING_FOR_DB_OBJECT_END) (he : l.error = JSON_ERR_NO) :
    loopBody E l valueSeparator =
      { l with
        event := TokenType.VALUE_SEPARATOR, previousEvent := TokenType.VALUE_SEPARATOR,
        currentState := WAITING_FOR_DB_OBJECT_BEGIN,
        previousState := WAITING_FOR_VALUE_SEPARATOR, consumed := l.consumed + 1 } := by
  simp [loopBody, dispatch, hs, hp, he, CJsonToken.getType, ReadLocals.goto]

/-- An object whose attributes are the mandatory ones of the array being read
(`M`), each once and in any order, takes the reader from
`WAITING_FOR_DB_OBJECT_BEGIN` to `WAITING_FOR_VALUE_SEPARATOR` after an object,
with the record of the object handed over. -/
theorem readLoop_object (E : Collaborators) (o : SchemaObject) (cur : CurrentObjectRead)
    (M : List SchemaAttribute) (ps : readStates) (dbs : CWpDatabase × CPoiDatabase)
    (hM : ∀ s : CJson, s.m_currentObjectRead = cur →
      (allAttributesRead s = true ↔ ∀ a ∈ M, s.m_isAttrAlreadyRead.get a = true))
    (hMne : M ≠ []) (hMnd : M.Nodup) (hperm : o.order.Perm M)
    (hrec : ∀ l1 : ReadLocals, l1.self.m_currentObjectRead = cur →
      (∀ a ∈ M, a ∈ o.order) → (∃ v, l1.vars = o.order.foldl (o.store E) v) →
      ((emitRecord E l1).waypointDb, (emitRecord E l1).poiDb) =
        handOver E cur o (l1.waypointDb, l1.poiDb))
    (l : ReadLocals) (h : l.IsAt WAITING_FOR_DB_OBJECT_BEGIN ps cur dbs) :
    (readLoop E l o.tokens).IsAt WAITING_FOR_VALUE_SEPARATOR WAITING_FOR_DB_OBJECT_END cur
      (handOver E cur o dbs) := by
  obtain ⟨hs, -, he, hc, hd⟩ := h
  have h1 := loopBody_beginObject_of_object E l hs he
  have h1e : (loopBody E l beginObject).error = JSON_ERR_NO := by rw [h1]; exact he
  have hne : o.order ≠ [] := by
    intro h0
    rw [h0] at hperm
    exact hMne (List.Perm.nil_eq hperm).symm
  obtain ⟨l1, pe, g1, g2, g3, g4, g5, g6⟩ :=
    readLoop_membersTokens E o cur M hM o.order (loopBody E l beginObject)
      (by rw [h1]) h1e (by rw [h1]; exact hc) (by rw [h1]; rfl) hne
      (hperm.nodup_iff.mpr hMnd)
      (by intro a _; rw [h1]; cases a <;> rfl)
      (by intro a ha; exact Or.inr (hperm.mem_iff.mpr ha))
      (by intro a ha; exact hperm.mem_iff.mp ha)
  have hfr := emitRecord_frame E l1
  have h4e : (readLoop E (loopBody E l beginObject) (o.membersTokens o.order)).error =
      JSON_ERR_NO := by rw [g6]; simp only [hfr.2.2.2.2.2.1]; exact g5
  have h4s : (readLoop E (loopBody E l beginObject) (o.membersTokens o.order)).currentState =
      WAITING_FOR_DB_OBJECT_END := by rw [g6]
  have h5 := loopBody_endObject_of_object E
    (readLoop E (loopBody E l beginObject) (o.membersTokens o.order)) h4s h4e
  have hrec1 := hrec l1 g1 (fun a ha => hperm.mem_iff.mpr ha) ⟨_, g2⟩
  simp only [SchemaObject.tokens, List.cons_append]
  rw [readLoop_cons_ok E l beginObject _ h1e, readLoop_append E _ _ _ h4e,
    readLoop_cons_ok E _ endObject _ (by rw [h5]; exact h4e)]
  simp only [readLoop]
  rw [h5]
  refine ⟨rfl, rfl, h4e, ?_, ?_⟩
  · show (readLoop E (loopBody E l beginObject)
        (o.membersTokens o.order)).self.m_currentObjectRead = cur
    rw [g6]; simp only [hfr.1]; exact g1
  · show ((readLoop E (loopBody E l beginObject) (o.membersTokens o.order)).waypointDb,
      (readLoop E (loopBody E l beginObject) (o.membersTokens o.order)).poiDb) = _
    rw [g6]
    simp only []
    rw [hrec1, g3, g4, h1]
    simp only []
    rw [hd]

/-- The elements of a non-empty array, each with the mandatory attributes of the
array once and in any order, take the reader from `WAITING_FOR_DB_OBJECT_BEGIN`
to `WAITING_FOR_VALUE_SEPARATOR` after the last object, the records handed over
one after the other. -/
theorem readLoop_arrayElements (E : Collaborators) (cur : CurrentObjectRead)
    (M : List SchemaAttribute)
    (hM : ∀ s : CJson, s.m_currentObjectRead = cur →
      (allAttributesRead s = true ↔ ∀ a ∈ M, s.m_isAttrAlreadyRead.get a = true))
    (hMne : M ≠ []) (hMnd : M.Nodup)
    (hrec : ∀ (o : SchemaObject) (l1 : ReadLocals), l1.self.m_currentObjectRead = cur →
      (∀ a ∈ M, a ∈ o.order) → (∃ v, l1.vars = o.order.foldl (o.store E) v) →
      ((emitRecord E l1).waypointDb, (emitRecord E l1).poiDb) =
        handOver E cur o (l1.waypointDb, l1.poiDb))
    (objs : List SchemaObject) :
    ∀ (l : ReadLocals) (ps : readStates) (dbs : CWpDatabase × CPoiDatabase),
      objs ≠ [] → (∀ o ∈ objs, o.order.Perm M) →
      l.IsAt WAITING_FOR_DB_OBJECT_BEGIN ps cur dbs →
      (readLoop E l (arrayElementsTokens objs)).IsAt WAITING_FOR_VALUE_SEPARATOR
        WAITING_FOR_DB_OBJECT_END cur (objs.foldl (fun d o => handOver E cur o d) dbs) := by
  induction objs with
  | nil => intro l ps dbs h; exact absurd rfl h
  | cons o rest ih =>
    intro l ps dbs _ hperm h
    have hobj := readLoop_object E o cur M ps dbs hM hMne hMnd
      (hperm o (List.mem_cons_self _ _)) (hrec o) l h
    cases rest with
    | nil => exact hobj
    | cons p rest =>
      obtain ⟨hs, hp, he, hc, hd⟩ := hobj
      have h3 := loopBody_valueSeparator_after_object E (readLoop E l o.tokens) hs hp he
      have h3e : (loopBody E (readLoop E l o.tokens) valueSeparator).error = JSON_ERR_NO := by
        rw [h3]; exact he
      simp only [arrayElementsTokens, List.foldl_cons]
      rw [readLoop_append E _ _ l he, readLoop_cons_ok E _ valueSeparator _ h3e]
      refine ih (loopBody E (readLoop E l o.tokens) valueSeparator)
        WAITING_FOR_VALUE_SEPARATOR (handOver E cur o dbs) (List.cons_ne_nil _ _)
        (fun q hq => hperm q (List.mem_cons_of_mem _ hq)) ?_
      rw [h3]
      exact ⟨rfl, rfl, he, hc, hd⟩

theorem allAttributesRead_waypoints (s : CJson)
    (h : s.m_currentObjectRead = { WAYPOINTS := true, POINT_OF_INTEREST := false }) :
    allAttributesRead s = true ↔
      ∀ a ∈ [SchemaAttribute.name, SchemaAttribute.latitude, SchemaAttribute.longitude],
        s.m_isAttrAlreadyRead.get a = true := by
  simp [allAttributesRead, h, AttrFlags.get, and_assoc]

theorem allAttributesRead_pois (s : CJson)
    (h : s.m_currentObjectRead = { WAYPOINTS := false, POINT_OF_INTEREST := true }) :
    allAttributesRead s = true ↔
      ∀ a ∈ [SchemaAttribute.name, SchemaAttribute.latitude, SchemaAttribute.longitude,
          SchemaAttribute.type, SchemaAttribute.description],
        s.m_isAttrAlreadyRead.get a = true := by
  simp [allAttributesRead, h, AttrFlags.get, and_assoc]

theorem emitRecord_waypoints (E : Collaborators) (o : SchemaObject) (l1 : ReadLocals)
    (hc : l1.self.m_currentObjectRead = { WAYPOINTS := true, POINT_OF_INTEREST := false })
    (hm : ∀ a ∈ [SchemaAttribute.name, SchemaAttribute.latitude, SchemaAttribute.longitude],
      a ∈ o.order)
    (hv : ∃ v, l1.vars = o.order.foldl (o.store E) v) :
    ((emitRecord E l1).waypointDb, (emitRecord E l1).poiDb) =
      handOver E { WAYPOINTS := true, POINT_OF_INTEREST := false } o
        (l1.waypointDb, l1.poiDb) := by
  obtain ⟨v, hv⟩ := hv
  obtain ⟨f1, f2, f3, -⟩ := foldl_store E o o.order v
  have e1 := f1 (hm _ (by simp))
  have e2 := f2 (hm _ (by simp))
  have e3 := f3 (hm _ (by simp))
  rw [← hv] at e1 e2 e3
  simp only [emitRecord, hc, handOver, e1, e2, e3, keptWaypoints, SchemaObject.toWaypoint,
    CWpDatabase.addWaypoint, if_true]
  by_cases hn : (E.newCWaypoint o.name o.latitude o.longitude).m_name = "" <;>
    simp [hn, List.filter]

theorem emitRecord_pois (E : Collaborators) (o : SchemaObject) (l1 : ReadLocals)
    (hc : l1.self.m_currentObjectRead = { WAYPOINTS := false, POINT_OF_INTEREST := true })
    (hm : ∀ a ∈ [SchemaAttribute.name, SchemaAttribute.latitude, SchemaAttribute.longitude,
        SchemaAttribute.type, SchemaAttribute.description],
      a ∈ o.order)
    (hv : ∃ v, l1.vars = o.order.foldl (o.store E) v) :
    ((emitRecord E l1).waypointDb, (emitRecord E l1).poiDb) =
      handOver E { WAYPOINTS := false, POINT_OF_INTEREST := true } o
        (l1.waypointDb, l1.poiDb) := by
  obtain ⟨v, hv⟩ := hv
  obtain ⟨f1, f2, f3, f4, f5, -⟩ := foldl_store E o o.order v
  have e1 := f1 (hm _ (by simp))
  have e2 := f2 (hm _ (by simp))
  have e3 := f3 (hm _ (by simp))
  have e4 := f4 (hm _ (by simp))
  have e5 := f5 (hm _ (by simp))
  rw [← hv] at e1 e2 e3 e4 e5
  simp only [emitRecord, hc, handOver, e1, e2, e3, e4, e5, keptPois, SchemaObject.toPoi,
    CPoiDatabase.addPoi, if_true]
  by_cases hn :
      (E.newCPOI (E.getPoiType o.type) o.name o.description o.latitude o.longitude).m_name = "" <;>
    simp [hn, List.filter]

theorem foldl_handOver_waypoints (E : Collaborators) (objs : List SchemaObject) :
    ∀ dbs : CWpDatabase × CPoiDatabase,
      objs.foldl
          (fun d o => handOver E { WAYPOINTS := true, POINT_OF_INTEREST := false } o d) dbs =
        (dbs.1 ++ keptWaypoints (objs.map (SchemaObject.toWaypoint E)), dbs.2) := by
  induction objs with
  | nil => intro dbs; simp [keptWaypoints]
  | cons o rest ih =>
    intro dbs
    rw [List.foldl_cons, ih]
    simp [handOver, keptWaypoints, List.filter_cons]
    split_ifs <;> simp

theorem foldl_handOver_pois (E : Collaborators) (objs : List SchemaObject) :
    ∀ dbs : CWpDatabase × CPoiDatabase,
      objs.foldl
          (fun d o => handOver E { WAYPOINTS := false, POINT_OF_INTEREST := true } o d) dbs =
        (dbs.1, dbs.2 ++ keptPois (objs.map (SchemaObject.toPoi E))) := by
  induction objs with
  | nil => intro dbs; simp [keptPois]
  | cons o rest ih =>
    intro dbs
    rw [List.foldl_cons, ih]
    simp [handOver, keptPois, List.filter_cons]
    split_ifs <;> simp

theorem readLoop_document_head (E : Collaborators) (self : CJson) (waypointDb : CWpDatabase)
    (poiDb : CPoiDatabase) :
    (readLoop E (initialLocals E self waypointDb poiDb)
        [beginObject, stringToken "waypoints", nameSeparator, beginArray]).IsAt
      WAITING_FOR_DB_OBJECT_BEGIN WAITING_FOR_DB_ARRAY_BEGIN
      { WAYPOINTS := true, POINT_OF_INTEREST := false } (waypointDb, poiDb) := by
  simp [ReadLocals.IsAt, readLoop, loopBody, dispatch, initialLocals, CJsonToken.getType,
    CJsonToken.asString, ReadLocals.goto, currentReadObject, resetAllAttributesRead,
    resetCurrentReadObjects]

theorem readLoop_document_middle (E : Collaborators) (l : ReadLocals)
    (cur : CurrentObjectRead) (dbs : CWpDatabase × CPoiDatabase)
    (h : l.IsAt WAITING_FOR_VALUE_SEPARATOR WAITING_FOR_DB_OBJECT_END cur dbs) :
    (readLoop E l [endArray, valueSeparator, stringToken "pois", nameSeparator,
        beginArray]).IsAt
      WAITING_FOR_DB_OBJECT_BEGIN WAITING_FOR_DB_ARRAY_BEGIN
      { WAYPOINTS := false, POINT_OF_INTEREST := true } dbs := by
  obtain ⟨hs, hp, he, hc, hd⟩ := h
  obtain ⟨⟨cur0, fl, et, ea⟩, ev, pev, cs, ps, err, vars, wdb, pdb, n⟩ := l
  simp only at hs hp he hc hd
  subst hs hp he hc hd
  simp [ReadLocals.IsAt, readLoop, loopBody, dispatch, CJsonToken.getType,
    CJsonToken.asString, ReadLocals.goto, currentReadObject, resetAllAttributesRead,
    resetCurrentReadObjects]

theorem readLoop_document_tail (E : Collaborators) (l : ReadLocals)
    (cur : CurrentObjectRead) (dbs : CWpDatabase × CPoiDatabase)
    (h : l.IsAt WAITING_FOR_VALUE_SEPARATOR WAITING_FOR_DB_OBJECT_END cur dbs) :
    (readLoop E l [endArray, endObject]).IsAt
      WAITING_FOR_COMPLETION WAITING_FOR_VALUE_SEPARATOR cur dbs := by
  obtain ⟨hs, hp, he, hc, hd⟩ := h
  obtain ⟨⟨cur0, fl, et, ea⟩, ev, pev, cs, ps, err, vars, wdb, pdb, n⟩ := l
  simp only at hs hp he hc hd
  subst hs hp he hc hd
  simp [ReadLocals.IsAt, readLoop, loopBody, dispatch, CJsonToken.getType, ReadLocals.goto]

/-- The reader in front of the first element of the `pois` array of a schema
document whose `waypoints` array is not empty. -/
theorem readLoop_document_upto_pois (E : Collaborators) (self : CJson)
    (waypointDb : CWpDatabase) (poiDb : CPoiDatabase) (waypoints : List SchemaObject)
    (hw : waypoints ≠ [])
    (hwf : ∀ o ∈ waypoints, o.order.Perm
      [SchemaAttribute.name, SchemaAttribute.latitude, SchemaAttribute.longitude]) :
    (readLoop E (initialLocals E self waypointDb poiDb)
        ([beginObject, stringToken "waypoints", nameSeparator, beginArray] ++
          arrayElementsTokens waypoints ++
          [endArray, valueSeparator, stringToken "pois", nameSeparator, beginArray])).IsAt
      WAITING_FOR_DB_OBJECT_BEGIN WAITING_FOR_DB_ARRAY_BEGIN
      { WAYPOINTS := false, POINT_OF_INTEREST := true }
      (waypointDb ++ keptWaypoints (waypoints.map (SchemaObject.toWaypoint E)), poiDb) := by
  have h1 := readLoop_document_head E self waypointDb poiDb
  have h2 := readLoop_arrayElements E _ _ allAttributesRead_waypoints (by simp) (by decide)
    (emitRecord_waypoints E) waypoints _ _ _ hw hwf h1
  rw [← readLoop_append E _ _ _ h1.2.2.1, foldl_handOver_waypoints] at h2
  have h3 := readLoop_document_middle E _ _ _ h2
  rw [← readLoop_append E _ _ _ h2.2.2.1] at h3
  exact h3

theorem readLoop_schemaDocument (E : Collaborators) (self : CJson) (waypointDb : CWpDatabase)
    (poiDb : CPoiDatabase) (waypoints pois : List SchemaObject)
    (hw : waypoints ≠ []) (hp : pois ≠ [])
    (hwf : ∀ o ∈ waypoints, o.order.Perm
      [SchemaAttribute.name, SchemaAttribute.latitude, SchemaAttribute.longitude])
    (hpf : ∀ o ∈ pois, o.order.Perm
      [SchemaAttribute.name, SchemaAttribute.latitude, SchemaAttribute.longitude,
        SchemaAttribute.type, SchemaAttribute.description]) :
    (readLoop E (initialLocals E self waypointDb poiDb) (schemaDocument waypoints pois)).IsAt
      WAITING_FOR_COMPLETION WAITING_FOR_VALUE_SEPARATOR
      { WAYPOINTS := false, POINT_OF_INTEREST := true }
      (waypointDb ++ keptWaypoints (waypoints.map (SchemaObject.toWaypoint E)),
        poiDb ++ keptPois (pois.map (SchemaObject.toPoi E))) := by
  have h3 := readLoop_document_upto_pois E self waypointDb poiDb waypoints hw hwf
  have h4 := readLoop_arrayElements E _ _ allAttributesRead_pois (by simp) (by decide)
    (emitRecord_pois E) pois _ _ _ hp hpf h3
  rw [← readLoop_append E _ _ _ h3.2.2.1, foldl_handOver_pois] at h4
  have h5 := readLoop_document_tail E _ _ _ h4
  rw [← readLoop_append E _ _ _ h4.2.2.1] at h5
  exact h5

/-- C2. For every schema document `{ "waypoints": [o1,...,on], "pois":
[p1,...,pm] }` with `n ≥ 1` and `m ≥ 1`, in which every waypoint object holds
name, latitude and longitude exactly once and every pois object holds name,
latitude, longitude, type and description exactly once, in any order,
`readData` raises no error, ends in `WAITING_FOR_COMPLETION`, and hands to each
database, after what it held at the start of the loop, the records built from
the objects of its array, in document order, those with an empty name left
out. -/
theorem readData_schemaDocument (E : Collaborators) (self : CJson) (waypointDb : CWpDatabase)
    (poiDb : CPoiDatabase) (waypoints pois : List SchemaObject)
    (hw : waypoints ≠ []) (hp : pois ≠ [])
    (hwf : ∀ o ∈ waypoints, o.order.Perm
      [SchemaAttribute.name, SchemaAttribute.latitude, SchemaAttribute.longitude])
    (hpf : ∀ o ∈ pois, o.order.Perm
      [SchemaAttribute.name, SchemaAttribute.latitude, SchemaAttribute.longitude,
        SchemaAttribute.type, SchemaAttribute.description]) :
    (∃ l : ReadLocals, l.error = JSON_ERR_NO ∧ l.currentState = WAITING_FOR_COMPLETION ∧
      readData E self true (schemaDocument waypoints pois) waypointDb poiDb MergeMode.MERGE =
        { ret := true,
          waypointDb := waypointDb ++ keptWaypoints (waypoints.map (SchemaObject.toWaypoint E)),
          poiDb := poiDb ++ keptPois (pois.map (SchemaObject.toPoi E)),
          run := some l }) ∧
    (∃ l : ReadLocals, l.error = JSON_ERR_NO ∧ l.currentState = WAITING_FOR_COMPLETION ∧
      readData E self true (schemaDocument waypoints pois) waypointDb poiDb
          MergeMode.REPLACE =
        { ret := true,
          waypointDb := keptWaypoints (waypoints.map (SchemaObject.toWaypoint E)),
          poiDb := poiDb ++ keptPois (pois.map (SchemaObject.toPoi E)),
          run := some l }) := by
  constructor
  · obtain ⟨hs, -, he, -, hd⟩ :=
      readLoop_schemaDocument E self waypointDb poiDb waypoints pois hw hp hwf hpf
    refine ⟨_, he, hs, ?_⟩
    simp only [readData, enterLoop, if_true]
    rw [(Prod.mk.inj hd).1, (Prod.mk.inj hd).2]
  · obtain ⟨hs, -, he, -, hd⟩ :=
      readLoop_schemaDocument E self [] poiDb waypoints pois hw hp hwf hpf
    refine ⟨_, he, hs, ?_⟩
    simp only [readData, enterLoop, if_true, CWpDatabase.resetWpsDatabase]
    rw [(Prod.mk.inj hd).1, (Prod.mk.inj hd).2]
    simp

/-- Witness for C2: one waypoint object and one point-of-interest object whose
attributes are written in another order than the writer uses. -/
theorem readData_schemaDocument_witness :
    (∃ l : ReadLocals, l.error = JSON_ERR_NO ∧ l.currentState = WAITING_FOR_COMPLETION ∧
      readData sampleCollaborators sampleCJson true
          (schemaDocument [sampleWaypointObject] [samplePoiObject]) [] [] MergeMode.MERGE =
        { ret := true,
          waypointDb := [] ++ keptWaypoints
            ([sampleWaypointObject].map (SchemaObject.toWaypoint sampleCollaborators)),
          poiDb := [] ++ keptPois
            ([samplePoiObject].map (SchemaObject.toPoi sampleCollaborators)),
          run := some l }) ∧
    (∃ l : ReadLocals, l.error = JSON_ERR_NO ∧ l.currentState = WAITING_FOR_COMPLETION ∧
      readData sampleCollaborators sampleCJson true
          (schemaDocument [sampleWaypointObject] [samplePoiObject]) [] []
          MergeMode.REPLACE =
        { ret := true,
          waypointDb := keptWaypoints
            ([sampleWaypointObject].map (SchemaObject.toWaypoint sampleCollaborators)),
          poiDb := [] ++ keptPois
            ([samplePoiObject].map (SchemaObject.toPoi sampleCollaborators)),
          run := some l }) :=
  readData_schemaDocument sampleCollaborators sampleCJson [] [] [sampleWaypointObject]
    [samplePoiObject] (by decide) (by decide) (by decide) (by decide)

/-! ### What the writer emits is a schema document -/

theorem writeWaypoints_eq (ws : List CWaypoint) :
    writeWaypoints ws = arrayElementsTokens (ws.map writtenWaypoint) := by
  induction ws with
  | nil => rfl
  | cons w rest ih =>
    cases rest with
    | nil => rfl
    | cons w2 rest =>
      simp only [writeWaypoints, List.map] at ih ⊢
      rw [ih]
      simp [writeWaypoint, arrayElementsTokens, SchemaObject.tokens,
        SchemaObject.membersTokens, SchemaObject.attributeTokens, SchemaObject.valueToken,
        SchemaAttribute.key, writtenWaypoint]

theorem writePois_eq (E : Collaborators) (ps : List CPOI) :
    writePois E ps = arrayElementsTokens (ps.map (writtenPoi E)) := by
  induction ps with
  | nil => rfl
  | cons p rest ih =>
    cases rest with
    | nil => rfl
    | cons p2 rest =>
      simp only [writePois, List.map] at ih ⊢
      rw [ih]
      simp [writePoi, arrayElementsTokens, SchemaObject.tokens,
        SchemaObject.membersTokens, SchemaObject.attributeTokens, SchemaObject.valueToken,
        SchemaAttribute.key, writtenPoi]

theorem writeData_eq_schemaDocument (E : Collaborators) (ws : List CWaypoint)
    (ps : List CPOI) :
    writeData E ws ps = schemaDocument (ws.map writtenWaypoint) (ps.map (writtenPoi E)) := by
  simp [writeData, schemaDocument, writeWaypoints_eq, writePois_eq]

/-- The round trip where the reader has no gap: for databases with at least one
entry each, whose entries have a name and are what the constructors make of
their own fields (with `getPoiType` undoing `getPoiTypeName`), reading the text
of `writeData` into empty collections raises no error and hands over exactly
the entries written, in the order written. -/
theorem readData_writeData_nonempty (E : Collaborators) (self : CJson)
    (ws : List CWaypoint) (ps : List CPOI) (hw : ws ≠ []) (hp : ps ≠ [])
    (hws : ∀ w ∈ ws, w.m_name ≠ "" ∧ E.newCWaypoint w.m_name w.m_latitude w.m_longitude = w)
    (hps : ∀ p ∈ ps, p.m_name ≠ "" ∧
      E.newCPOI (E.getPoiType (E.getPoiTypeName p.m_type)) p.m_name p.m_description
        p.m_latitude p.m_longitude = p) :
    ∃ l : ReadLocals, l.error = JSON_ERR_NO ∧ l.currentState = WAITING_FOR_COMPLETION ∧
      readData E self true (writeData E ws ps) [] [] MergeMode.MERGE =
        { ret := true, waypointDb := ws, poiDb := ps, run := some l } := by
  obtain ⟨hs, -, he, -, hd⟩ := readLoop_schemaDocument E self [] [] (ws.map writtenWaypoint)
    (ps.map (writtenPoi E)) (by simpa using hw) (by simpa using hp)
    (by
      intro o ho
      obtain ⟨w, -, rfl⟩ := List.mem_map.mp ho
      exact List.Perm.refl _)
    (by
      intro o ho
      obtain ⟨p, -, rfl⟩ := List.mem_map.mp ho
      exact List.Perm.refl _)
  have e1 : keptWaypoints ((ws.map writtenWaypoint).map (SchemaObject.toWaypoint E)) = ws := by
    have hmap : (ws.map writtenWaypoint).map (SchemaObject.toWaypoint E) = ws := by
      rw [List.map_map]
      conv_rhs => rw [← List.map_id ws]
      apply List.map_congr_left
      intro w hwm
      exact (hws w hwm).2
    rw [hmap, keptWaypoints, List.filter_eq_self]
    intro w hwm
    simpa using (hws w hwm).1
  have e2 : keptPois ((ps.map (writtenPoi E)).map (SchemaObject.toPoi E)) = ps := by
    have hmap : (ps.map (writtenPoi E)).map (SchemaObject.toPoi E) = ps := by
      rw [List.map_map]
      conv_rhs => rw [← List.map_id ps]
      apply List.map_congr_left
      intro p hpm
      exact (hps p hpm).2
    rw [hmap, keptPois, List.filter_eq_self]
    intro p hpm
    simpa using (hps p hpm).1
  rw [← writeData_eq_schemaDocument] at hs he hd
  refine ⟨_, he, hs, ?_⟩
  simp only [readData, enterLoop, if_true]
  rw [(Prod.mk.inj hd).1, (Prod.mk.inj hd).2, e1, e2]
  simp

/-- C3 (the code departs from the specification). For an empty waypoint database and a
point-of-interest database with one entry, the text `writeData` emits begins
`{ "waypoints": [ ]`; on its tokens `readData` raises
`JSON_ERR_EXPECT_DB_OBJECT_BEGIN` at the fifth token, the `]` of the empty
array, and the point of interest is not reproduced: both databases stay
empty. -/
theorem readData_writeData_empty_waypoints (E : Collaborators) (self : CJson) (poi : CPOI) :
    (readData E self true (writeData E [] [poi]) [] [] MergeMode.MERGE).run.map
        (fun l => (l.error, l.consumed)) = some (JSON_ERR_EXPECT_DB_OBJECT_BEGIN, 5) ∧
    (readData E self true (writeData E [] [poi]) [] [] MergeMode.MERGE).waypointDb = [] ∧
    (readData E self true (writeData E [] [poi]) [] [] MergeMode.MERGE).poiDb = [] := by
  simp [readData, enterLoop, initialLocals, readLoop, loopBody, dispatch, ReadLocals.goto,
    writeData, writeWaypoints, writePois, writePoi, CJsonToken.getType, CJsonToken.asString,
    currentReadObject, resetAllAttributesRead, resetCurrentReadObjects]

theorem readLoop_endArray_in_object_begin (E : Collaborators) (l : ReadLocals)
    (ps : readStates) (cur : CurrentObjectRead) (dbs : CWpDatabase × CPoiDatabase)
    (rest : List CJsonToken) (h : l.IsAt WAITING_FOR_DB_OBJECT_BEGIN ps cur dbs) :
    (readLoop E l (endArray :: rest)).error = JSON_ERR_EXPECT_DB_OBJECT_BEGIN ∧
    (readLoop E l (endArray :: rest)).currentState = WAITING_FOR_DB_OBJECT_BEGIN ∧
    (readLoop E l (endArray :: rest)).waypointDb = dbs.1 ∧
    (readLoop E l (endArray :: rest)).poiDb = dbs.2 ∧
    (readLoop E l (endArray :: rest)).consumed = l.consumed + 1 := by
  obtain ⟨hs, -, he, -, hd⟩ := h
  subst hd
  simp [readLoop, loopBody, dispatch, hs, he, CJsonToken.getType]

/-- C4 (the code departs from the specification). On the example document of the
specification, `{"waypoints":[{"name":"A","latitude":1.0,"longitude":2.0}],
"pois":[]}`, the waypoint is handed over, but the `]` of the empty `pois` array
arrives in `WAITING_FOR_DB_OBJECT_BEGIN` and raises
`JSON_ERR_EXPECT_DB_OBJECT_BEGIN`: the read does not go through without an
error and does not reach `WAITING_FOR_COMPLETION`. -/
theorem readData_specExampleDocument (E : Collaborators) (self : CJson)
    (waypointDb : CWpDatabase) (poiDb : CPoiDatabase) :
    (readLoop E (initialLocals E self waypointDb poiDb) specExampleDocument).error =
      JSON_ERR_EXPECT_DB_OBJECT_BEGIN ∧
    (readLoop E (initialLocals E self waypointDb poiDb) specExampleDocument).currentState =
      WAITING_FOR_DB_OBJECT_BEGIN ∧
    (readLoop E (initialLocals E self waypointDb poiDb) specExampleDocument).waypointDb =
      waypointDb ++ keptWaypoints [E.newCWaypoint "A" 1 2] ∧
    (readLoop E (initialLocals E self waypointDb poiDb) specExampleDocument).poiDb = poiDb ∧
    (readData sampleCollaborators sampleCJson true specExampleDocument [] []
        MergeMode.MERGE).run.map (fun l => (l.error, l.consumed, l.waypointDb, l.poiDb)) =
      some (JSON_ERR_EXPECT_DB_OBJECT_BEGIN, 23,
        [{ m_name := "A", m_latitude := 1, m_longitude := 2 }], []) := by
  have h3 := readLoop_document_upto_pois E self waypointDb poiDb [sampleWaypointObject]
    (by decide) (by decide)
  have hdoc : specExampleDocument =
      ([beginObject, stringToken "waypoints", nameSeparator, beginArray] ++
        arrayElementsTokens [sampleWaypointObject] ++
        [endArray, valueSeparator, stringToken "pois", nameSeparator, beginArray]) ++
      [endArray, endObject] := rfl
  have h4 := readLoop_endArray_in_object_begin E _ _ _ _ [endObject] h3
  have h5 := (congrArg (readLoop E (initialLocals E self waypointDb poiDb)) hdoc).trans
    (readLoop_append E _ _ _ h3.2.2.1)
  rw [h5]
  refine ⟨h4.1, h4.2.1, ?_, h4.2.2.2.1, by decide⟩
  rw [h4.2.2.1]
  simp only [List.map, SchemaObject.toWaypoint, sampleWaypointObject]

/-! ### Single steps of the loop -/

theorem readLoop_snoc (E : Collaborators) (t : CJsonToken) (xs : List CJsonToken) :
    ∀ l : ReadLocals, l.error = JSON_ERR_NO →
      readLoop E l (xs ++ [t]) =
        if (readLoop E l xs).error = JSON_ERR_NO then loopBody E (readLoop E l xs) t
        else readLoop E l xs := by
  induction xs with
  | nil =>
    intro l h
    simp only [List.nil_append, readLoop, h, if_true]
    split <;> rfl
  | cons x rest ih =>
    intro l _
    by_cases hb : (loopBody E l x).error = JSON_ERR_NO
    · rw [List.cons_append, readLoop_cons_ok E l x _ hb, readLoop_cons_ok E l x _ hb]
      exact ih _ hb
    · rw [List.cons_append, readLoop_cons_err E l x _ hb, readLoop_cons_err E l x _ hb]
      simp [hb]

theorem localsBefore_zero (E : Collaborators) (l0 : ReadLocals) (input : List CJsonToken) :
    localsBefore E l0 input 0 = l0 := by
  simp [localsBefore, readLoop]

theorem localsBefore_succ (E : Collaborators) (l0 : ReadLocals) (input : List CJsonToken)
    (k : Nat) (tok : CJsonToken) (h0 : l0.error = JSON_ERR_NO) (hk : input[k]? = some tok) :
    localsBefore E l0 input (k + 1) =
      if (localsBefore E l0 input k).error = JSON_ERR_NO then
        loopBody E (localsBefore E l0 input k) tok
      else localsBefore E l0 input k := by
  unfold localsBefore
  rw [List.take_succ, hk]
  exact readLoop_snoc E tok _ l0 h0

theorem localsBefore_succ_ok (E : Collaborators) (l0 : ReadLocals) (input : List CJsonToken)
    (k : Nat) (tok : CJsonToken) (h0 : l0.error = JSON_ERR_NO) (hk : input[k]? = some tok)
    (he : (localsBefore E l0 input k).error = JSON_ERR_NO) :
    localsBefore E l0 input (k + 1) = loopBody E (localsBefore E l0 input k) tok := by
  rw [localsBefore_succ E l0 input k tok h0 hk, if_pos he]

theorem localsBefore_succ_none (E : Collaborators) (l0 : ReadLocals) (input : List CJsonToken)
    (k : Nat) (hk : input[k]? = none) :
    localsBefore E l0 input (k + 1) = localsBefore E l0 input k := by
  unfold localsBefore
  rw [List.take_succ, hk]
  simp

theorem localsBefore_error_of_succ (E : Collaborators) (l0 : ReadLocals)
    (input : List CJsonToken) (k : Nat) (h0 : l0.error = JSON_ERR_NO)
    (h : (localsBefore E l0 input (k + 1)).error = JSON_ERR_NO) :
    (localsBefore E l0 input k).error = JSON_ERR_NO := by
  cases hk : input[k]? with
  | none => rw [localsBefore_succ_none E l0 input k hk] at h; exact h
  | some tok =>
    rw [localsBefore_succ E l0 input k tok h0 hk] at h
    by_cases he : (localsBefore E l0 input k).error = JSON_ERR_NO
    · exact he
    · rw [if_neg he] at h; exact h

theorem expectedAttributeValue_frame (self : CJson) (attributeName : String) :
    (expectedAttributeValue self attributeName).2.m_currentObjectRead =
      self.m_currentObjectRead ∧
    (expectedAttributeValue self attributeName).2.m_isAttrAlreadyRead =
      self.m_isAttrAlreadyRead := by
  simp only [expectedAttributeValue, arributeLUT, expectedAttributeValue.search]
  repeat' split
  all_goals exact ⟨rfl, rfl⟩

theorem loopBody_of_BEGIN_OBJECT (E : Collaborators) (l : ReadLocals) (t : CJsonToken)
    (hs : l.currentState = WAITING_FOR_BEGIN_OBJECT) (he : l.error = JSON_ERR_NO)
    (he1 : (loopBody E l t).error = JSON_ERR_NO) :
    (loopBody E l t).currentState = WAITING_FOR_DB_NAME := by
  cases t <;> simp [loopBody, dispatch, hs, he, CJsonToken.getType, ReadLocals.goto] at he1 ⊢

theorem loopBody_of_DB_NAME (E : Collaborators) (l : ReadLocals) (t : CJsonToken)
    (hs : l.currentState = WAITING_FOR_DB_NAME) (he : l.error = JSON_ERR_NO)
    (he1 : (loopBody E l t).error = JSON_ERR_NO) :
    (loopBody E l t).currentState = WAITING_FOR_NAME_SEPARATOR ∧
    (loopBody E l t).previousState = WAITING_FOR_DB_NAME ∧
    ((t = stringToken "waypoints" ∧ (loopBody E l t).self.m_currentObjectRead =
        { WAYPOINTS := true, POINT_OF_INTEREST := false }) ∨
      (t = stringToken "pois" ∧ (loopBody E l t).self.m_currentObjectRead =
        { WAYPOINTS := false, POINT_OF_INTEREST := true })) := by
  cases t with
  | stringToken v =>
    by_cases h1 : v = "waypoints"
    · subst h1
      simp [loopBody, dispatch, hs, he, CJsonToken.getType, CJsonToken.asString,
        currentReadObject, ReadLocals.goto, resetAllAttributesRead, resetCurrentReadObjects]
    · by_cases h2 : v = "pois"
      · subst h2
        simp [loopBody, dispatch, hs, he, CJsonToken.getType, CJsonToken.asString,
          currentReadObject, ReadLocals.goto, resetAllAttributesRead, resetCurrentReadObjects]
      · simp [loopBody, dispatch, hs, he, CJsonToken.getType, CJsonToken.asString,
          currentReadObject, ReadLocals.goto, h1, h2] at he1
  | _ => simp [loopBody, dispatch, hs, he, CJsonToken.getType] at he1

theorem loopBody_of_DB_ARRAY_BEGIN (E : Collaborators) (l : ReadLocals) (t : CJsonToken)
    (hs : l.currentState = WAITING_FOR_DB_ARRAY_BEGIN) (he : l.error = JSON_ERR_NO)
    (he1 : (loopBody E l t).error = JSON_ERR_NO) :
    (loopBody E l t).currentState = WAITING_FOR_DB_OBJECT_BEGIN ∧
    (loopBody E l t).self.m_currentObjectRead = l.self.m_currentObjectRead := by
  cases t <;> simp [loopBody, dispatch, hs, he, CJsonToken.getType, ReadLocals.goto] at he1 ⊢

theorem loopBody_of_DB_OBJECT_BEGIN (E : Collaborators) (l : ReadLocals) (t : CJsonToken)
    (hs : l.currentState = WAITING_FOR_DB_OBJECT_BEGIN) (he : l.error = JSON_ERR_NO)
    (he1 : (loopBody E l t).error = JSON_ERR_NO) :
    t = beginObject ∧ (loopBody E l t).currentState = WAITING_FOR_ATTRIBUTE_NAME ∧
    (loopBody E l t).self.m_currentObjectRead = l.self.m_currentObjectRead ∧
    ∀ a, (loopBody E l t).self.m_isAttrAlreadyRead.read a = false := by
  cases t <;> simp [loopBody, dispatch, hs, he, CJsonToken.getType, ReadLocals.goto] at he1 ⊢
  refine ⟨rfl, ?_⟩
  intro a
  cases a <;> rfl

theorem loopBody_of_DB_OBJECT_END (E : Collaborators) (l : ReadLocals) (t : CJsonToken)
    (hs : l.currentState = WAITING_FOR_DB_OBJECT_END) (he : l.error = JSON_ERR_NO)
    (he1 : (loopBody E l t).error = JSON_ERR_NO) :
    (loopBody E l t).currentState = WAITING_FOR_VALUE_SEPARATOR ∧
    (loopBody E l t).previousState = WAITING_FOR_DB_OBJECT_END ∧
    (loopBody E l t).self.m_currentObjectRead = l.self.m_currentObjectRead := by
  cases t <;> simp [loopBody, dispatch, hs, he, CJsonToken.getType, ReadLocals.goto] at he1 ⊢

theorem loopBody_of_ATTRIBUTE_NAME (E : Collaborators) (l : ReadLocals) (t : CJsonToken)
    (hs : l.currentState = WAITING_FOR_ATTRIBUTE_NAME) (he : l.error = JSON_ERR_NO)
    (he1 : (loopBody E l t).error = JSON_ERR_NO) :
    ((loopBody E l t).currentState = WAITING_FOR_ATTRIBUTE_NAME ∨
      ((loopBody E l t).currentState = WAITING_FOR_NAME_SEPARATOR ∧
        (loopBody E l t).previousState = WAITING_FOR_ATTRIBUTE_NAME)) ∧
    (loopBody E l t).self.m_currentObjectRead = l.self.m_currentObjectRead ∧
    (loopBody E l t).self.m_isAttrAlreadyRead = l.self.m_isAttrAlreadyRead ∧
    (loopBody E l t).vars = l.vars := by
  cases t with
  | stringToken v =>
    have hf := expectedAttributeValue_frame l.self v
    by_cases hr : (expectedAttributeValue l.self v).1 = true
    · simp [loopBody, dispatch, hs, he, CJsonToken.getType, CJsonToken.asString, ReadLocals.goto,
        hr, hf]
    · simp [loopBody, dispatch, hs, he, CJsonToken.getType, CJsonToken.asString, ReadLocals.goto,
        hr] at he1
  | _ => simp [loopBody, dispatch, hs, he, CJsonToken.getType, ReadLocals.goto] at he1 ⊢

theorem loopBody_of_NAME_SEPARATOR (E : Collaborators) (l : ReadLocals) (t : CJsonToken)
    (hs : l.currentState = WAITING_FOR_NAME_SEPARATOR) (he : l.error = JSON_ERR_NO)
    (he1 : (loopBody E l t).error = JSON_ERR_NO) :
    ((l.previousState = WAITING_FOR_DB_NAME ∧
        (loopBody E l t).currentState = WAITING_FOR_DB_ARRAY_BEGIN) ∨
      (l.previousState = WAITING_FOR_ATTRIBUTE_NAME ∧
        (loopBody E l t).currentState = WAITING_FOR_VALUE)) ∧
    (loopBody E l t).self = l.self ∧ (loopBody E l t).vars = l.vars := by
  by_cases h1 : l.previousState = WAITING_FOR_DB_NAME
  · cases t <;>
      simp [loopBody, dispatch, hs, he, h1, CJsonToken.getType, ReadLocals.goto] at he1 ⊢
  · by_cases h2 : l.previousState = WAITING_FOR_ATTRIBUTE_NAME
    · cases t <;>
        simp [loopBody, dispatch, hs, he, h2, CJsonToken.getType, ReadLocals.goto] at he1 ⊢
    · cases t <;>
        simp [loopBody, dispatch, hs, he, h1, h2, CJsonToken.getType, ReadLocals.goto] at he1 ⊢

theorem loopBody_of_VALUE_SEPARATOR (E : Collaborators) (l : ReadLocals) (t : CJsonToken)
    (hs : l.currentState = WAITING_FOR_VALUE_SEPARATOR) (he : l.error = JSON_ERR_NO)
    (he1 : (loopBody E l t).error = JSON_ERR_NO) :
    (((loopBody E l t).currentState = WAITING_FOR_DB_OBJECT_BEGIN ∧
        l.previousState = WAITING_FOR_DB_OBJECT_END) ∨
      ((loopBody E l t).currentState = WAITING_FOR_ATTRIBUTE_NAME ∧
        l.previousState = WAITING_FOR_VALUE) ∨
      (loopBody E l t).currentState = WAITING_FOR_DB_NAME ∨
      ((loopBody E l t).currentState = WAITING_FOR_VALUE_SEPARATOR ∧
        (loopBody E l t).previousState = WAITING_FOR_VALUE_SEPARATOR) ∨
      (loopBody E l t).currentState = WAITING_FOR_COMPLETION) ∧
    (loopBody E l t).self = l.self ∧ (loopBody E l t).vars = l.vars := by
  by_cases h1 : l.previousState = WAITING_FOR_DB_OBJECT_END
  · cases t <;>
      simp [loopBody, dispatch, hs, he, h1, CJsonToken.getType, ReadLocals.goto] at he1 ⊢
  · by_cases h2 : l.previousState = WAITING_FOR_VALUE
    · cases t <;>
        simp [loopBody, dispatch, hs, he, h2, CJsonToken.getType, ReadLocals.goto] at he1 ⊢
    · by_cases h3 : l.previousEvent = TokenType.END_ARRAY
      · cases t <;>
          simp [loopBody, dispatch, hs, he, h1, h2, h3, CJsonToken.getType,
            ReadLocals.goto] at he1 ⊢
      · cases t <;>
          simp [loopBody, dispatch, hs, he, h1, h2, h3, CJsonToken.getType,
            ReadLocals.goto] at he1 ⊢

theorem loopBody_of_COMPLETION (E : Collaborators) (l : ReadLocals) (t : CJsonToken)
    (hs : l.currentState = WAITING_FOR_COMPLETION) :
    (loopBody E l t).currentState = WAITING_FOR_COMPLETION ∧
    (loopBody E l t).self = l.self ∧ (loopBody E l t).vars = l.vars := by
  simp only [loopBody, dispatch, hs]
  split <;> exact ⟨rfl, rfl, rfl⟩

theorem extractValue_ok (E : Collaborators) (self : CJson) (tok : CJsonToken) (v : Scratch)
    (h : (extractValue E self tok v).1 = true) :
    self.m_exceptedAttributeType ≠ AttributesType.INVALID_TYPE ∧
    self.m_isAttrAlreadyRead.read self.m_exceptedAttributeType = false ∧
    (∀ b, (extractValue E self tok v).2.1.m_isAttrAlreadyRead.read b = true ↔
      (self.m_isAttrAlreadyRead.read b = true ∨ b = self.m_exceptedAttributeType)) ∧
    (extractValue E self tok v).2.1.m_currentObjectRead = self.m_currentObjectRead ∧
    (extractValue E self tok v).2.2.Holds E self.m_exceptedAttributeType tok ∧
    (∀ b tok1, b ≠ self.m_exceptedAttributeType → v.Holds E b tok1 →
      (extractValue E self tok v).2.2.Holds E b tok1) := by
  obtain ⟨cur, ⟨fi, fn, fla, flo, fty, fd⟩, et, ea⟩ := self
  cases ea <;> cases tok <;>
    simp [extractValue, CJsonToken.asString, CJsonToken.asNumber, flagInvalid] at h
  all_goals
    split at h
    · rename_i hf
      simp only at h
      subst h hf
      refine ⟨by simp, by simp [AttrFlags.read], ?_, ?_, ?_, ?_⟩
      · intro b
        cases b <;>
          simp [extractValue, CJsonToken.asString, CJsonToken.asNumber, AttrFlags.read]
      · simp [extractValue, CJsonToken.asString, CJsonToken.asNumber]
      · simp [extractValue, CJsonToken.asString, CJsonToken.asNumber, Scratch.Holds]
      · intro b tok1 hb hh
        cases b <;> cases tok1 <;>
          simp_all [extractValue, CJsonToken.asString, CJsonToken.asNumber, Scratch.Holds]
    · simp at h

theorem emitRecord_cases (E : Collaborators) (l : ReadLocals) :
    (l.self.m_currentObjectRead.WAYPOINTS = true ∧ (emitRecord E l).poiDb = l.poiDb ∧
      ((emitRecord E l).waypointDb = l.waypointDb ∨
        (emitRecord E l).waypointDb =
          l.waypointDb ++ [E.newCWaypoint l.vars.name l.vars.latitude l.vars.longitude])) ∨
    (l.self.m_currentObjectRead.WAYPOINTS = false ∧
      l.self.m_currentObjectRead.POINT_OF_INTEREST = true ∧
      (emitRecord E l).waypointDb = l.waypointDb ∧
      ((emitRecord E l).poiDb = l.poiDb ∨
        (emitRecord E l).poiDb =
          l.poiDb ++ [E.newCPOI l.vars.type l.vars.name l.vars.description l.vars.latitude
            l.vars.longitude])) ∨
    ((emitRecord E l).waypointDb = l.waypointDb ∧ (emitRecord E l).poiDb = l.poiDb) := by
  simp only [emitRecord]
  split_ifs <;> simp_all [CWpDatabase.addWaypoint, CPoiDatabase.addPoi]

theorem loopBody_proj (E : Collaborators) (l : ReadLocals) (t : CJsonToken) :
    (loopBody E l t).error =
      (dispatch E { l with event := t.getType, consumed := l.consumed + 1 } t).error ∧
    (loopBody E l t).waypointDb =
      (dispatch E { l with event := t.getType, consumed := l.consumed + 1 } t).waypointDb ∧
    (loopBody E l t).poiDb =
      (dispatch E { l with event := t.getType, consumed := l.consumed + 1 } t).poiDb := by
  simp only [loopBody]
  split <;> exact ⟨rfl, rfl, rfl⟩

theorem dispatch_dbs_of_not_VALUE (E : Collaborators) (l : ReadLocals) (t : CJsonToken)
    (hs : l.currentState ≠ WAITING_FOR_VALUE) :
    (dispatch E l t).waypointDb = l.waypointDb ∧ (dispatch E l t).poiDb = l.poiDb := by
  simp only [dispatch]
  repeat' split
  all_goals first
    | exact ⟨rfl, rfl⟩
    | exact absurd (by assumption) hs

theorem loopBody_dbs_of_not_VALUE (E : Collaborators) (l : ReadLocals) (t : CJsonToken)
    (hs : l.currentState ≠ WAITING_FOR_VALUE) :
    (loopBody E l t).waypointDb = l.waypointDb ∧ (loopBody E l t).poiDb = l.poiDb := by
  obtain ⟨-, h2, h3⟩ := loopBody_proj E l t
  rw [h2, h3]
  exact dispatch_dbs_of_not_VALUE E { l with event := t.getType, consumed := l.consumed + 1 } t hs

theorem dispatch_error_or_dbs (E : Collaborators) (l : ReadLocals) (t : CJsonToken) :
    (dispatch E l t).error = l.error ∨
    ((dispatch E l t).waypointDb = l.waypointDb ∧ (dispatch E l t).poiDb = l.poiDb) := by
  simp only [dispatch]
  repeat' split
  all_goals first
    | exact Or.inr ⟨rfl, rfl⟩
    | exact Or.inl rfl
    | exact Or.inl (emitRecord_frame E
        { l with self := (extractValue E l.self t l.vars).2.1,
                 vars := (extractValue E l.self t l.vars).2.2 }).2.2.2.2.2.1

theorem loopBody_dbs_of_error (E : Collaborators) (l : ReadLocals) (t : CJsonToken)
    (he : l.error = JSON_ERR_NO) (he1 : (loopBody E l t).error ≠ JSON_ERR_NO) :
    (loopBody E l t).waypointDb = l.waypointDb ∧ (loopBody E l t).poiDb = l.poiDb := by
  obtain ⟨h1, h2, h3⟩ := loopBody_proj E l t
  rw [h2, h3]
  rcases dispatch_error_or_dbs E { l with event := t.getType, consumed := l.consumed + 1 } t
    with h | h
  · rw [h1, h] at he1
    exact absurd he he1
  · exact h

theorem emitRecord_self (E : Collaborators) (l : ReadLocals) :
    (emitRecord E l).self = l.self := (emitRecord_frame E l).1

theorem emitRecord_event (E : Collaborators) (l : ReadLocals) :
    (emitRecord E l).event = l.event := (emitRecord_frame E l).2.1

theorem emitRecord_previousEvent (E : Collaborators) (l : ReadLocals) :
    (emitRecord E l).previousEvent = l.previousEvent := (emitRecord_frame E l).2.2.1

theorem emitRecord_currentState (E : Collaborators) (l : ReadLocals) :
    (emitRecord E l).currentState = l.currentState := (emitRecord_frame E l).2.2.2.1

theorem emitRecord_previousState (E : Collaborators) (l : ReadLocals) :
    (emitRecord E l).previousState = l.previousState := (emitRecord_frame E l).2.2.2.2.1

theorem emitRecord_error (E : Collaborators) (l : ReadLocals) :
    (emitRecord E l).error = l.error := (emitRecord_frame E l).2.2.2.2.2.1

theorem emitRecord_vars (E : Collaborators) (l : ReadLocals) :
    (emitRecord E l).vars = l.vars := (emitRecord_frame E l).2.2.2.2.2.2.1

theorem emitRecord_consumed (E : Collaborators) (l : ReadLocals) :
    (emitRecord E l).consumed = l.consumed := (emitRecord_frame E l).2.2.2.2.2.2.2

theorem loopBody_of_VALUE (E : Collaborators) (l : ReadLocals) (t : CJsonToken)
    (hs : l.currentState = WAITING_FOR_VALUE) (he : l.error = JSON_ERR_NO)
    (he1 : (loopBody E l t).error = JSON_ERR_NO) :
    ValueStep E l t (loopBody E l t) ∧
    (loopBody E l t).self.m_currentObjectRead = l.self.m_currentObjectRead ∧
    (((loopBody E l t).currentState = WAITING_FOR_DB_OBJECT_END ∧
        allAttributesRead (loopBody E l t).self = true ∧
        ∃ l1 : ReadLocals, l1.self = (loopBody E l t).self ∧ l1.vars = (loopBody E l t).vars ∧
          l1.waypointDb = l.waypointDb ∧ l1.poiDb = l.poiDb ∧
          (loopBody E l t).waypointDb = (emitRecord E l1).waypointDb ∧
          (loopBody E l t).poiDb = (emitRecord E l1).poiDb) ∨
      ((loopBody E l t).currentState = WAITING_FOR_VALUE_SEPARATOR ∧
        (loopBody E l t).previousState = WAITING_FOR_VALUE ∧
        (loopBody E l t).waypointDb = l.waypointDb ∧ (loopBody E l t).poiDb = l.poiDb)) := by
  by_cases hev : t.getType = l.self.m_exceptedTokenType
  · by_cases hx : (extractValue E l.self t l.vars).1 = true
    · obtain ⟨k1, k2, k3, k4, k5, k6⟩ := extractValue_ok E l.self t l.vars hx
      by_cases hall : allAttributesRead (extractValue E l.self t l.vars).2.1 = true
      · have hl : loopBody E l t =
            { emitRecord E
                { l with
                  event := t.getType, consumed := l.consumed + 1,
                  self := (extractValue E l.self t l.vars).2.1,
                  vars := (extractValue E l.self t l.vars).2.2 } with
              previousEvent := t.getType, currentState := WAITING_FOR_DB_OBJECT_END,
              previousState := WAITING_FOR_VALUE } := by
          simp [loopBody, dispatch, hs, he, hev, hx, hall, ReadLocals.goto, emitRecord_self,
            emitRecord_event, emitRecord_previousEvent, emitRecord_currentState,
            emitRecord_previousState, emitRecord_error, emitRecord_vars, emitRecord_consumed]
        rw [hl]
        refine ⟨⟨hs, k1, k2, ?_, ?_, ?_⟩, ?_, Or.inl ⟨rfl, ?_,
          { l with
            event := t.getType, consumed := l.consumed + 1,
            self := (extractValue E l.self t l.vars).2.1,
            vars := (extractValue E l.self t l.vars).2.2 }, ?_, ?_, rfl, rfl, rfl, rfl⟩⟩
        · simpa only [emitRecord_self] using k3
        · simpa only [emitRecord_vars] using k5
        · simpa only [emitRecord_vars] using k6
        · simpa only [emitRecord_self] using k4
        · simpa only [emitRecord_self] using hall
        · simp only [emitRecord_self]
        · simp only [emitRecord_vars]
      · have hl : loopBody E l t =
            { l with
              event := t.getType, consumed := l.consumed + 1,
              self := (extractValue E l.self t l.vars).2.1,
              vars := (extractValue E l.self t l.vars).2.2,
              previousEvent := t.getType, currentState := WAITING_FOR_VALUE_SEPARATOR,
              previousState := WAITING_FOR_VALUE } := by
          simp [loopBody, dispatch, hs, he, hev, hx, hall, ReadLocals.goto]
        rw [hl]
        exact ⟨⟨hs, k1, k2, k3, k5, k6⟩, k4, Or.inr ⟨rfl, rfl, rfl, rfl⟩⟩
    · simp [loopBody, dispatch, hs, he, hev, hx] at he1
  · simp [loopBody, dispatch, hs, he, hev] at he1

theorem loopBody_currentObjectRead (E : Collaborators) (l : ReadLocals) (t : CJsonToken)
    (hs : l.currentState ≠ WAITING_FOR_DB_NAME) (he : l.error = JSON_ERR_NO)
    (he1 : (loopBody E l t).error = JSON_ERR_NO) :
    (loopBody E l t).self.m_currentObjectRead = l.self.m_currentObjectRead ∧
    (loopBody E l t).currentState ≠ WAITING_FOR_BEGIN_OBJECT := by
  cases h : l.currentState with
  | WAITING_FOR_BEGIN_OBJECT =>
    have h1 := loopBody_of_BEGIN_OBJECT E l t h he he1
    refine ⟨?_, by rw [h1]; simp⟩
    cases t <;> simp [loopBody, dispatch, h, he, CJsonToken.getType, ReadLocals.goto] at he1 ⊢
  | WAITING_FOR_DB_NAME => exact absurd h hs
  | WAITING_FOR_DB_ARRAY_BEGIN =>
    obtain ⟨h1, h2⟩ := loopBody_of_DB_ARRAY_BEGIN E l t h he he1
    exact ⟨h2, by rw [h1]; simp⟩
  | WAITING_FOR_DB_OBJECT_BEGIN =>
    obtain ⟨-, h1, h2, -⟩ := loopBody_of_DB_OBJECT_BEGIN E l t h he he1
    exact ⟨h2, by rw [h1]; simp⟩
  | WAITING_FOR_DB_OBJECT_END =>
    obtain ⟨h1, -, h2⟩ := loopBody_of_DB_OBJECT_END E l t h he he1
    exact ⟨h2, by rw [h1]; simp⟩
  | WAITING_FOR_ATTRIBUTE_NAME =>
    obtain ⟨h1, h2, -, -⟩ := loopBody_of_ATTRIBUTE_NAME E l t h he he1
    refine ⟨h2, ?_⟩
    rcases h1 with h1 | ⟨h1, -⟩ <;> rw [h1] <;> simp
  | WAITING_FOR_NAME_SEPARATOR =>
    obtain ⟨h1, h2, -⟩ := loopBody_of_NAME_SEPARATOR E l t h he he1
    refine ⟨by rw [h2], ?_⟩
    rcases h1 with ⟨-, h1⟩ | ⟨-, h1⟩ <;> rw [h1] <;> simp
  | WAITING_FOR_VALUE =>
    obtain ⟨-, h2, h3⟩ := loopBody_of_VALUE E l t h he he1
    refine ⟨h2, ?_⟩
    rcases h3 with ⟨h3, -⟩ | ⟨h3, -⟩ <;> rw [h3] <;> simp
  | WAITING_FOR_VALUE_SEPARATOR =>
    obtain ⟨h1, h2, -⟩ := loopBody_of_VALUE_SEPARATOR E l t h he he1
    refine ⟨by rw [h2], ?_⟩
    rcases h1 with ⟨h1, -⟩ | ⟨h1, -⟩ | h1 | ⟨h1, -⟩ | h1 <;> rw [h1] <;> simp
  | WAITING_FOR_COMPLETION =>
    obtain ⟨h1, h2, -⟩ := loopBody_of_COMPLETION E l t h
    exact ⟨by rw [h2], by rw [h1]; simp⟩

/-- Where the reader is in a run without error: unless it still waits for the
opening brace of the document or for an array name, an array was named and not
left since, and its flag alone is set. -/
theorem run_array (E : Collaborators) (l0 : ReadLocals) (input : List CJsonToken)
    (h0 : l0.error = JSON_ERR_NO) (hs0 : l0.currentState = WAITING_FOR_BEGIN_OBJECT) :
    ∀ k, k ≤ input.length → (localsBefore E l0 input k).error = JSON_ERR_NO →
      (localsBefore E l0 input k).currentState = WAITING_FOR_BEGIN_OBJECT ∨
      (localsBefore E l0 input k).currentState = WAITING_FOR_DB_NAME ∨
      ∃ d, d < k ∧ StaysInArray E l0 input d k ∧
        ((NamesArray E l0 input d "waypoints" ∧
            (localsBefore E l0 input k).self.m_currentObjectRead =
              { WAYPOINTS := true, POINT_OF_INTEREST := false }) ∨
          (NamesArray E l0 input d "pois" ∧
            (localsBefore E l0 input k).self.m_currentObjectRead =
              { WAYPOINTS := false, POINT_OF_INTEREST := true })) := by
  intro k
  induction k with
  | zero =>
    intro _ _
    left
    rw [localsBefore_zero]; exact hs0
  | succ k ih =>
    intro hk he1
    have hklt : k < input.length := hk
    have hget : input[k]? = some input[k] := List.getElem?_eq_getElem hklt
    have he := localsBefore_error_of_succ E l0 input k h0 he1
    have hsucc := localsBefore_succ_ok E l0 input k _ h0 hget he
    rw [hsucc] at he1
    by_cases hdb : (localsBefore E l0 input k).currentState = WAITING_FOR_DB_NAME
    · obtain ⟨h1, -, h3⟩ := loopBody_of_DB_NAME E _ _ hdb he he1
      right; right
      refine ⟨k, Nat.lt_succ_self k, ?_, ?_⟩
      · intro m hm1 hm2
        have : m = k + 1 := by omega
        subst this
        rw [hsucc, h1]; simp
      · rcases h3 with ⟨ht, hc⟩ | ⟨ht, hc⟩
        · left
          exact ⟨⟨by rw [hget, ht], he, hdb⟩, by rw [hsucc]; exact hc⟩
        · right
          exact ⟨⟨by rw [hget, ht], he, hdb⟩, by rw [hsucc]; exact hc⟩
    · obtain ⟨hc, hnb⟩ := loopBody_currentObjectRead E _ input[k] hdb he he1
      by_cases hdb1 : (localsBefore E l0 input (k + 1)).currentState = WAITING_FOR_DB_NAME
      · right; left; exact hdb1
      · rcases ih (Nat.le_of_lt hklt) he with h | h | ⟨d, hd, hstay, hnames⟩
        · have := loopBody_of_BEGIN_OBJECT E _ input[k] h he he1
          rw [← hsucc] at this
          exact absurd this hdb1
        · exact absurd h hdb
        · right; right
          refine ⟨d, Nat.lt_succ_of_lt hd, ?_, ?_⟩
          · intro m hm1 hm2
            rcases Nat.lt_or_ge m (k + 1) with hlt | hge
            · exact hstay m hm1 (Nat.le_of_lt_succ hlt)
            · have : m = k + 1 := by omega
              subst this
              exact hdb1
          · rw [hsucc, hc]
            exact hnames

/-- Where the reader is in a run without error while it is inside an object:
the opening brace of the object was accepted at some token `j`, the reader
stayed inside the object since, and every attribute whose flag is set was
captured after the brace, from a token whose payload the record under
construction still holds. -/
theorem run_object (E : Collaborators) (l0 : ReadLocals) (input : List CJsonToken)
    (h0 : l0.error = JSON_ERR_NO) (hs0 : l0.currentState = WAITING_FOR_BEGIN_OBJECT) :
    ∀ k, k ≤ input.length → (localsBefore E l0 input k).error = JSON_ERR_NO →
      (localsBefore E l0 input k).InObject →
      ∃ j, j < k ∧ OpensObject E l0 input j ∧ StaysInObject E l0 input j k ∧
        ∀ a, (localsBefore E l0 input k).self.m_isAttrAlreadyRead.read a = true →
          ∃ i tok, j < i ∧ i < k ∧ Captures E l0 input i a tok ∧
            (localsBefore E l0 input k).vars.Holds E a tok := by
  intro k
  induction k with
  | zero =>
    intro _ _ hin
    rw [localsBefore_zero] at hin
    simp [ReadLocals.InObject, hs0] at hin
  | succ k ih =>
    intro hk he1 hin
    have hklt : k < input.length := hk
    have hget : input[k]? = some input[k] := List.getElem?_eq_getElem hklt
    have he := localsBefore_error_of_succ E l0 input k h0 he1
    have hsucc := localsBefore_succ_ok E l0 input k _ h0 hget he
    have ih1 := ih (Nat.le_of_lt hklt) he
    have hstay : ∀ j, StaysInObject E l0 input j k → StaysInObject E l0 input j (k + 1) := by
      intro j hj m hm1 hm2
      rcases Nat.lt_or_ge m (k + 1) with hlt | hge
      · exact hj m hm1 (Nat.le_of_lt_succ hlt)
      · have : m = k + 1 := by omega
        subst this
        exact hin
    -- the step keeps flags and fields as they are
    have hsame : (localsBefore E l0 input k).InObject →
        (localsBefore E l0 input (k + 1)).self.m_isAttrAlreadyRead =
          (localsBefore E l0 input k).self.m_isAttrAlreadyRead →
        (localsBefore E l0 input (k + 1)).vars = (localsBefore E l0 input k).vars →
        ∃ j, j < k + 1 ∧ OpensObject E l0 input j ∧ StaysInObject E l0 input j (k + 1) ∧
          ∀ a, (localsBefore E l0 input (k + 1)).self.m_isAttrAlreadyRead.read a = true →
            ∃ i tok, j < i ∧ i < k + 1 ∧ Captures E l0 input i a tok ∧
              (localsBefore E l0 input (k + 1)).vars.Holds E a tok := by
      intro hin0 hf hv
      obtain ⟨j, hj, hopen, hst, hcap⟩ := ih1 hin0
      refine ⟨j, Nat.lt_succ_of_lt hj, hopen, hstay j hst, ?_⟩
      intro a ha
      rw [hf] at ha
      obtain ⟨i, tok, hi1, hi2, hc, hh⟩ := hcap a ha
      exact ⟨i, tok, hi1, Nat.lt_succ_of_lt hi2, hc, by rw [hv]; exact hh⟩
    rw [hsucc] at he1
    cases hs : (localsBefore E l0 input k).currentState with
    | WAITING_FOR_BEGIN_OBJECT =>
      have h1 := loopBody_of_BEGIN_OBJECT E _ input[k] hs he he1
      rw [← hsucc] at h1
      simp [ReadLocals.InObject, h1] at hin
    | WAITING_FOR_DB_NAME =>
      obtain ⟨h1, h2, -⟩ := loopBody_of_DB_NAME E _ input[k] hs he he1
      rw [← hsucc] at h1 h2
      simp [ReadLocals.InObject, h1, h2] at hin
    | WAITING_FOR_DB_ARRAY_BEGIN =>
      obtain ⟨h1, -⟩ := loopBody_of_DB_ARRAY_BEGIN E _ input[k] hs he he1
      rw [← hsucc] at h1
      simp [ReadLocals.InObject, h1] at hin
    | WAITING_FOR_DB_OBJECT_BEGIN =>
      obtain ⟨ht, -, -, hfl⟩ := loopBody_of_DB_OBJECT_BEGIN E _ input[k] hs he he1
      refine ⟨k, Nat.lt_succ_self k, ⟨by rw [hget, ht], he, hs⟩, ?_, ?_⟩
      · intro m hm1 hm2
        have : m = k + 1 := by omega
        subst this
        exact hin
      · intro a ha
        rw [hsucc, hfl a] at ha
        exact Bool.noConfusion ha
    | WAITING_FOR_DB_OBJECT_END =>
      obtain ⟨h1, h2, -⟩ := loopBody_of_DB_OBJECT_END E _ input[k] hs he he1
      rw [← hsucc] at h1 h2
      simp [ReadLocals.InObject, h1, h2] at hin
    | WAITING_FOR_ATTRIBUTE_NAME =>
      obtain ⟨-, -, h3, h4⟩ := loopBody_of_ATTRIBUTE_NAME E _ input[k] hs he he1
      rw [← hsucc] at h3 h4
      exact hsame (Or.inl hs) h3 h4
    | WAITING_FOR_NAME_SEPARATOR =>
      obtain ⟨h1, h2, h3⟩ := loopBody_of_NAME_SEPARATOR E _ input[k] hs he he1
      rw [← hsucc] at h1 h2 h3
      rcases h1 with ⟨-, h1⟩ | ⟨hp, -⟩
      · simp [ReadLocals.InObject, h1] at hin
      · exact hsame (Or.inr (Or.inl ⟨hs, hp⟩)) (by rw [h2]) h3
    | WAITING_FOR_VALUE =>
      obtain ⟨⟨-, -, k2, k3, k5, k6⟩, -, -⟩ := loopBody_of_VALUE E _ input[k] hs he he1
      rw [← hsucc] at k3 k5 k6
      obtain ⟨j, hj, hopen, hst, hcap⟩ := ih1 (Or.inr (Or.inr (Or.inl hs)))
      refine ⟨j, Nat.lt_succ_of_lt hj, hopen, hstay j hst, ?_⟩
      intro a ha
      rcases (k3 a).mp ha with hold | hnew
      · obtain ⟨i, tok, hi1, hi2, hc, hh⟩ := hcap a hold
        refine ⟨i, tok, hi1, Nat.lt_succ_of_lt hi2, hc, k6 a tok ?_ hh⟩
        intro hcontra
        rw [hcontra, k2] at hold
        exact Bool.noConfusion hold
      · refine ⟨k, input[k], hj, Nat.lt_succ_self k, ⟨hget, he, hs, hnew.symm, he1⟩, ?_⟩
        rw [hnew]
        exact k5
    | WAITING_FOR_VALUE_SEPARATOR =>
      obtain ⟨h1, h2, h3⟩ := loopBody_of_VALUE_SEPARATOR E _ input[k] hs he he1
      rw [← hsucc] at h1 h2 h3
      rcases h1 with ⟨h1, -⟩ | ⟨-, hp⟩ | h1 | ⟨h1, h1p⟩ | h1
      · simp [ReadLocals.InObject, h1] at hin
      · exact hsame (Or.inr (Or.inr (Or.inr ⟨hs, hp⟩))) (by rw [h2]) h3
      · simp [ReadLocals.InObject, h1] at hin
      · simp [ReadLocals.InObject, h1, h1p] at hin
      · simp [ReadLocals.InObject, h1] at hin
    | WAITING_FOR_COMPLETION =>
      obtain ⟨h1, -, -⟩ := loopBody_of_COMPLETION E (localsBefore E l0 input k) input[k] hs
      rw [← hsucc] at h1
      simp [ReadLocals.InObject, h1] at hin

/-- The object that is open when a value is accepted at token `k`: the array it
belongs to and its opening brace, and for every attribute whose flag is set
after the step the token after the brace it was captured from. -/
theorem run_value_step (E : Collaborators) (l0 : ReadLocals) (input : List CJsonToken)
    (h0 : l0.error = JSON_ERR_NO) (hs0 : l0.currentState = WAITING_FOR_BEGIN_OBJECT)
    (k : Nat) (tok : CJsonToken) (hget : input[k]? = some tok)
    (he : (localsBefore E l0 input k).error = JSON_ERR_NO)
    (hs : (localsBefore E l0 input k).currentState = WAITING_FOR_VALUE)
    (he1 : (loopBody E (localsBefore E l0 input k) tok).error = JSON_ERR_NO) :
    ∃ d j, d < j ∧ j < k ∧ StaysInArray E l0 input d k ∧ OpensObject E l0 input j ∧
      StaysInObject E l0 input j k ∧
      ((NamesArray E l0 input d "waypoints" ∧
          (localsBefore E l0 input k).self.m_currentObjectRead =
            { WAYPOINTS := true, POINT_OF_INTEREST := false }) ∨
        (NamesArray E l0 input d "pois" ∧
          (localsBefore E l0 input k).self.m_currentObjectRead =
            { WAYPOINTS := false, POINT_OF_INTEREST := true })) ∧
      ∀ a, (loopBody E (localsBefore E l0 input k) tok).self.m_isAttrAlreadyRead.read a = true →
        ∃ tok1, CapturesWithin E l0 input j k a tok1 ∧
          (loopBody E (localsBefore E l0 input k) tok).vars.Holds E a tok1 := by
  have hk : k ≤ input.length := by
    rcases Nat.lt_or_ge k input.length with h | h
    · exact Nat.le_of_lt h
    · rw [List.getElem?_eq_none h] at hget
      exact Option.noConfusion hget
  have hin : (localsBefore E l0 input k).InObject := Or.inr (Or.inr (Or.inl hs))
  obtain ⟨j, hj, hopen, hst, hcap⟩ := run_object E l0 input h0 hs0 k hk he hin
  rcases run_array E l0 input h0 hs0 k hk he with h | h | ⟨d, hd, hstay, hnames⟩
  · rw [hs] at h; exact readStates.noConfusion h
  · rw [hs] at h; exact readStates.noConfusion h
  · have hdstate : (localsBefore E l0 input d).currentState = WAITING_FOR_DB_NAME := by
      rcases hnames with ⟨h, -⟩ | ⟨h, -⟩ <;> exact h.2.2
    have hdj : d < j := by
      rcases Nat.lt_trichotomy d j with h | h | h
      · exact h
      · subst h
        rw [hopen.2.2] at hdstate
        exact readStates.noConfusion hdstate
      · have := hst d h (Nat.le_of_lt hd)
        simp [ReadLocals.InObject, hdstate] at this
    obtain ⟨⟨-, -, k2, k3, k5, k6⟩, -, -⟩ := loopBody_of_VALUE E _ tok hs he he1
    refine ⟨d, j, hdj, hj, hstay, hopen, hst, hnames, ?_⟩
    intro a ha
    rcases (k3 a).mp ha with hold | hnew
    · obtain ⟨i, tok1, hi1, hi2, hc, hh⟩ := hcap a hold
      refine ⟨tok1, ⟨i, hi1, Nat.le_of_lt hi2, hc⟩, k6 a tok1 ?_ hh⟩
      intro hcontra
      rw [hcontra, k2] at hold
      exact Bool.noConfusion hold
    · refine ⟨tok, ⟨k, hj, Nat.le_refl k, ⟨hget, he, hs, hnew.symm, he1⟩⟩, ?_⟩
      rw [hnew]
      exact k5

theorem Scratch.holds_string (E : Collaborators) (v : Scratch) (a : AttributesType)
    (tok : CJsonToken) (h : v.Holds E a tok)
    (ha : a = AttributesType.NAME ∨ a = AttributesType.POI_TYPE ∨
      a = AttributesType.DESCRIPTION) :
    ∃ s, tok = stringToken s ∧
      (a = AttributesType.NAME → v.name = s) ∧
      (a = AttributesType.POI_TYPE → v.type = E.getPoiType s) ∧
      (a = AttributesType.DESCRIPTION → v.description = s) := by
  rcases ha with ha | ha | ha <;> subst ha <;> cases tok <;>
    simp [Scratch.Holds] at h ⊢ <;> exact h

theorem Scratch.holds_number (E : Collaborators) (v : Scratch) (a : AttributesType)
    (tok : CJsonToken) (h : v.Holds E a tok)
    (ha : a = AttributesType.LATITUDE ∨ a = AttributesType.LONGITUDE) :
    ∃ x, tok = numberToken x ∧
      (a = AttributesType.LATITUDE → v.latitude = x) ∧
      (a = AttributesType.LONGITUDE → v.longitude = x) := by
  rcases ha with ha | ha <;> subst ha <;> cases tok <;>
    simp [Scratch.Holds] at h ⊢ <;> exact h

/-- What a step that changes a database is: a value accepted in
`WAITING_FOR_VALUE` that completes the attributes of the object, followed by
the emission of the record. -/
theorem loopBody_hands (E : Collaborators) (l : ReadLocals) (t : CJsonToken)
    (he : l.error = JSON_ERR_NO)
    (h : (loopBody E l t).waypointDb ≠ l.waypointDb ∨ (loopBody E l t).poiDb ≠ l.poiDb) :
    l.currentState = WAITING_FOR_VALUE ∧ (loopBody E l t).error = JSON_ERR_NO ∧
    (loopBody E l t).self.m_currentObjectRead = l.self.m_currentObjectRead ∧
    allAttributesRead (loopBody E l t).self = true ∧
    ∃ l1 : ReadLocals, l1.self = (loopBody E l t).self ∧ l1.vars = (loopBody E l t).vars ∧
      l1.waypointDb = l.waypointDb ∧ l1.poiDb = l.poiDb ∧
      (loopBody E l t).waypointDb = (emitRecord E l1).waypointDb ∧
      (loopBody E l t).poiDb = (emitRecord E l1).poiDb := by
  have hs : l.currentState = WAITING_FOR_VALUE := by
    by_contra hs
    obtain ⟨h1, h2⟩ := loopBody_dbs_of_not_VALUE E l t hs
    rcases h with h | h
    · exact h h1
    · exact h h2
  have he1 : (loopBody E l t).error = JSON_ERR_NO := by
    by_contra he1
    obtain ⟨h1, h2⟩ := loopBody_dbs_of_error E l t he he1
    rcases h with h | h
    · exact h h1
    · exact h h2
  obtain ⟨-, hc, h3⟩ := loopBody_of_VALUE E l t hs he he1
  rcases h3 with ⟨-, hall, hl1⟩ | ⟨-, -, h1, h2⟩
  · exact ⟨hs, he1, hc, hall, hl1⟩
  · rcases h with h | h
    · exact absurd h1 h
    · exact absurd h2 h

theorem allAttributesRead_flags (self : CJson) (h : allAttributesRead self = true) :
    (self.m_currentObjectRead.WAYPOINTS = true ∧ self.m_isAttrAlreadyRead.NAME = true ∧
      self.m_isAttrAlreadyRead.LATITUDE = true ∧ self.m_isAttrAlreadyRead.LONGITUDE = true) ∨
    (self.m_currentObjectRead.POINT_OF_INTEREST = true ∧
      self.m_isAttrAlreadyRead.NAME = true ∧ self.m_isAttrAlreadyRead.LATITUDE = true ∧
      self.m_isAttrAlreadyRead.LONGITUDE = true ∧ self.m_isAttrAlreadyRead.POI_TYPE = true ∧
      self.m_isAttrAlreadyRead.DESCRIPTION = true) := by
  obtain ⟨⟨w, p⟩, ⟨i, n, la, lo, ty, d⟩, et, ea⟩ := self
  revert h
  cases w <;> cases p <;> cases n <;> cases la <;> cases lo <;> cases ty <;> cases d <;>
    simp [allAttributesRead]

/-- What the code does guarantee about the records it hands over. For every
token sequence and every step of `readData` that hands a record to a database: the record handed to the
waypoint database is built from the name, latitude and longitude captured
since the last brace accepted in `WAITING_FOR_DB_OBJECT_BEGIN`, in the
`waypoints` array, and the step leaves the point-of-interest database alone;
the record handed to the point-of-interest database is built from the five
attributes captured since the last such brace, in the `pois` array, and the
step leaves the waypoint database alone. The span since that brace is the
reader's notion of an object; it can reach over several pairs of braces of the
input. -/
theorem readData_records_from_reader_span (E : Collaborators) (self : CJson)
    (waypointDb : CWpDatabase) (poiDb : CPoiDatabase) (input : List CJsonToken) :
    (∀ (k : Nat) (tok : CJsonToken) (r : CWaypoint),
      HandsWaypoint E (initialLocals E self waypointDb poiDb) input k tok r →
        WaypointOfObject E (initialLocals E self waypointDb poiDb) input k r ∧
        (loopBody E (localsBefore E (initialLocals E self waypointDb poiDb) input k) tok).poiDb =
          (localsBefore E (initialLocals E self waypointDb poiDb) input k).poiDb) ∧
    (∀ (k : Nat) (tok : CJsonToken) (p : CPOI),
      HandsPoi E (initialLocals E self waypointDb poiDb) input k tok p →
        PoiOfObject E (initialLocals E self waypointDb poiDb) input k p ∧
        (loopBody E (localsBefore E (initialLocals E self waypointDb poiDb) input k)
            tok).waypointDb =
          (localsBefore E (initialLocals E self waypointDb poiDb) input k).waypointDb) := by
  have h0 : (initialLocals E self waypointDb poiDb).error = JSON_ERR_NO := rfl
  have hs0 : (initialLocals E self waypointDb poiDb).currentState =
      WAITING_FOR_BEGIN_OBJECT := rfl
  constructor
  · intro k tok r ⟨hget, he, hw⟩
    have hne : (loopBody E (localsBefore E (initialLocals E self waypointDb poiDb) input k)
        tok).waypointDb ≠
        (localsBefore E (initialLocals E self waypointDb poiDb) input k).waypointDb := by
      rw [hw]; simp
    obtain ⟨hs, he1, hc, hall, l1, e1, e2, e3, e4, e5, e6⟩ :=
      loopBody_hands E _ tok he (Or.inl hne)
    obtain ⟨d, j, hdj, hjk, hstay, hopen, hst, hnames, hcap⟩ :=
      run_value_step E _ input h0 hs0 k tok hget he hs he1
    rw [e5] at hw
    rw [e6]
    have hcur1 : l1.self.m_currentObjectRead =
        (localsBefore E (initialLocals E self waypointDb poiDb) input
          k).self.m_currentObjectRead := by rw [e1, hc]
    rcases emitRecord_cases E l1 with ⟨c1, c2, c3⟩ | ⟨-, -, c3, -⟩ | ⟨c3, -⟩
    · rcases c3 with c3 | c3
      · rw [c3, e3] at hw
        simp at hw
      · rw [c3, e3] at hw
        have hr : r = E.newCWaypoint l1.vars.name l1.vars.latitude l1.vars.longitude := by
          have := List.append_cancel_left hw
          simp at this
          exact this.symm
        rw [hcur1] at c1
        have hwp : NamesArray E (initialLocals E self waypointDb poiDb) input d "waypoints" := by
          rcases hnames with ⟨h, -⟩ | ⟨-, h⟩
          · exact h
          · rw [h] at c1; exact Bool.noConfusion c1
        have hflags := allAttributesRead_flags
          (loopBody E (localsBefore E (initialLocals E self waypointDb poiDb) input k)
            tok).self hall
        rw [hc] at hflags
        have hf3 :
            (loopBody E (localsBefore E (initialLocals E self waypointDb poiDb) input k)
              tok).self.m_isAttrAlreadyRead.NAME = true ∧
            (loopBody E (localsBefore E (initialLocals E self waypointDb poiDb) input k)
              tok).self.m_isAttrAlreadyRead.LATITUDE = true ∧
            (loopBody E (localsBefore E (initialLocals E self waypointDb poiDb) input k)
              tok).self.m_isAttrAlreadyRead.LONGITUDE = true := by
          rcases hflags with ⟨-, a, b, c⟩ | ⟨-, a, b, c, -, -⟩ <;> exact ⟨a, b, c⟩
        obtain ⟨t1, hc1, hh1⟩ := hcap AttributesType.NAME hf3.1
        obtain ⟨t2, hc2, hh2⟩ := hcap AttributesType.LATITUDE hf3.2.1
        obtain ⟨t3, hc3, hh3⟩ := hcap AttributesType.LONGITUDE hf3.2.2
        obtain ⟨n, rfl, hn, -, -⟩ := Scratch.holds_string E _ _ _ hh1 (Or.inl rfl)
        obtain ⟨la, rfl, hla, -⟩ := Scratch.holds_number E _ _ _ hh2 (Or.inl rfl)
        obtain ⟨lo, rfl, -, hlo⟩ := Scratch.holds_number E _ _ _ hh3 (Or.inr rfl)
        refine ⟨⟨d, j, n, la, lo, hdj, hjk, hwp, hstay, hopen, hst, hc1, hc2, hc3, ?_⟩,
          by rw [c2, e4]⟩
        rw [hr, e2, hn rfl, hla rfl, hlo rfl]
    · rw [c3, e3] at hw
      simp at hw
    · rw [c3, e3] at hw
      simp at hw
  · intro k tok p ⟨hget, he, hw⟩
    have hne : (loopBody E (localsBefore E (initialLocals E self waypointDb poiDb) input k)
        tok).poiDb ≠
        (localsBefore E (initialLocals E self waypointDb poiDb) input k).poiDb := by
      rw [hw]; simp
    obtain ⟨hs, he1, hc, hall, l1, e1, e2, e3, e4, e5, e6⟩ :=
      loopBody_hands E _ tok he (Or.inr hne)
    obtain ⟨d, j, hdj, hjk, hstay, hopen, hst, hnames, hcap⟩ :=
      run_value_step E _ input h0 hs0 k tok hget he hs he1
    rw [e6] at hw
    rw [e5]
    have hcur1 : l1.self.m_currentObjectRead =
        (localsBefore E (initialLocals E self waypointDb poiDb) input
          k).self.m_currentObjectRead := by rw [e1, hc]
    rcases emitRecord_cases E l1 with ⟨-, c2, -⟩ | ⟨c0, c1, c2, c3⟩ | ⟨-, c3⟩
    · rw [c2, e4] at hw
      simp at hw
    · rcases c3 with c3 | c3
      · rw [c3, e4] at hw
        simp at hw
      · rw [c3, e4] at hw
        have hr : p = E.newCPOI l1.vars.type l1.vars.name l1.vars.description
            l1.vars.latitude l1.vars.longitude := by
          have := List.append_cancel_left hw
          simp at this
          exact this.symm
        rw [hcur1] at c0 c1
        have hwp : NamesArray E (initialLocals E self waypointDb poiDb) input d "pois" := by
          rcases hnames with ⟨-, h⟩ | ⟨h, -⟩
          · rw [h] at c0; exact Bool.noConfusion c0
          · exact h
        have hflags := allAttributesRead_flags
          (loopBody E (localsBefore E (initialLocals E self waypointDb poiDb) input k)
            tok).self hall
        rw [hc] at hflags
        have hf5 :
            (loopBody E (localsBefore E (initialLocals E self waypointDb poiDb) input k)
              tok).self.m_isAttrAlreadyRead.NAME = true ∧
            (loopBody E (localsBefore E (initialLocals E self waypointDb poiDb) input k)
              tok).self.m_isAttrAlreadyRead.LATITUDE = true ∧
            (loopBody E (localsBefore E (initialLocals E self waypointDb poiDb) input k)
              tok).self.m_isAttrAlreadyRead.LONGITUDE = true ∧
            (loopBody E (localsBefore E (initialLocals E self waypointDb poiDb) input k)
              tok).self.m_isAttrAlreadyRead.POI_TYPE = true ∧
            (loopBody E (localsBefore E (initialLocals E self waypointDb poiDb) input k)
              tok).self.m_isAttrAlreadyRead.DESCRIPTION = true := by
          rcases hflags with ⟨hw1, -⟩ | ⟨-, a, b, c, e, f⟩
          · rw [c0] at hw1; exact Bool.noConfusion hw1
          · exact ⟨a, b, c, e, f⟩
        obtain ⟨t1, hc1, hh1⟩ := hcap AttributesType.NAME hf5.1
        obtain ⟨t2, hc2, hh2⟩ := hcap AttributesType.LATITUDE hf5.2.1
        obtain ⟨t3, hc3, hh3⟩ := hcap AttributesType.LONGITUDE hf5.2.2.1
        obtain ⟨t4, hc4, hh4⟩ := hcap AttributesType.POI_TYPE hf5.2.2.2.1
        obtain ⟨t5, hc5, hh5⟩ := hcap AttributesType.DESCRIPTION hf5.2.2.2.2
        obtain ⟨n, rfl, hn, -, -⟩ := Scratch.holds_string E _ _ _ hh1 (Or.inl rfl)
        obtain ⟨la, rfl, hla, -⟩ := Scratch.holds_number E _ _ _ hh2 (Or.inl rfl)
        obtain ⟨lo, rfl, -, hlo⟩ := Scratch.holds_number E _ _ _ hh3 (Or.inr rfl)
        obtain ⟨ty, rfl, -, hty, -⟩ := Scratch.holds_string E _ _ _ hh4 (Or.inr (Or.inl rfl))
        obtain ⟨de, rfl, -, -, hde⟩ := Scratch.holds_string E _ _ _ hh5 (Or.inr (Or.inr rfl))
        refine ⟨⟨d, j, n, ty, de, la, lo, hdj, hjk, hwp, hstay, hopen, hst, hc1, hc2, hc3, hc4,
          hc5, ?_⟩, by rw [c2, e3]⟩
        rw [hr, e2, hn rfl, hla rfl, hlo rfl, hty rfl, hde rfl]
    · rw [c3, e4] at hw
      simp at hw

/-- An instance of the fact above: in the example document of the specification
the step on token 15 (counted from 0), the value of `longitude`, hands over the
waypoint `A`. -/
theorem readData_records_from_reader_span_witness :
    HandsWaypoint sampleCollaborators (initialLocals sampleCollaborators sampleCJson [] [])
      specExampleDocument 15 (numberToken 2)
      { m_name := "A", m_latitude := 1, m_longitude := 2 } ∧
    WaypointOfObject sampleCollaborators (initialLocals sampleCollaborators sampleCJson [] [])
      specExampleDocument 15 { m_name := "A", m_latitude := 1, m_longitude := 2 } ∧
    (loopBody sampleCollaborators
        (localsBefore sampleCollaborators (initialLocals sampleCollaborators sampleCJson [] [])
          specExampleDocument 15) (numberToken 2)).poiDb =
      (localsBefore sampleCollaborators (initialLocals sampleCollaborators sampleCJson [] [])
        specExampleDocument 15).poiDb :=
  have hw : HandsWaypoint sampleCollaborators
      (initialLocals sampleCollaborators sampleCJson [] []) specExampleDocument 15
      (numberToken 2) { m_name := "A", m_latitude := 1, m_longitude := 2 } :=
    ⟨by decide, by decide, by decide⟩
  ⟨hw, (readData_records_from_reader_span sampleCollaborators sampleCJson [] []
    specExampleDocument).1 15 (numberToken 2) _ hw⟩

/-! ### The attribute lookup and the states with a fixed transition table -/

/-- C16. `expectedAttributeValue(name)` is given by the name alone: for the five
names of the table it returns `true` and records the kind and identifier of the
row, for every other string (a name in other letter case included) it returns
`false` and records `JSON_NULL` and `INVALID_TYPE`; nothing else of the object
changes, and what was recorded before plays no part. -/
theorem expectedAttributeValue_eq (self : CJson) (attributeName : String) :
    expectedAttributeValue self attributeName =
      (if attributeName = "name" then
        (true, { self with m_exceptedTokenType := TokenType.STRING,
                           m_exceptedAttributeType := AttributesType.NAME })
      else if attributeName = "latitude" then
        (true, { self with m_exceptedTokenType := TokenType.NUMBER,
                           m_exceptedAttributeType := AttributesType.LATITUDE })
      else if attributeName = "longitude" then
        (true, { self with m_exceptedTokenType := TokenType.NUMBER,
                           m_exceptedAttributeType := AttributesType.LONGITUDE })
      else if attributeName = "type" then
        (true, { self with m_exceptedTokenType := TokenType.STRING,
                           m_exceptedAttributeType := AttributesType.POI_TYPE })
      else if attributeName = "description" then
        (true, { self with m_exceptedTokenType := TokenType.STRING,
                           m_exceptedAttributeType := AttributesType.DESCRIPTION })
      else
        (false, { self with m_exceptedTokenType := TokenType.JSON_NULL,
                            m_exceptedAttributeType := AttributesType.INVALID_TYPE })) ∧
    ((expectedAttributeValue self attributeName).1 = true ↔
      attributeName ∈ ["name", "latitude", "longitude", "type", "description"]) ∧
    (∀ other : CJson,
      (expectedAttributeValue other attributeName).1 =
        (expectedAttributeValue self attributeName).1 ∧
      (expectedAttributeValue other attributeName).2.m_exceptedTokenType =
        (expectedAttributeValue self attributeName).2.m_exceptedTokenType ∧
      (expectedAttributeValue other attributeName).2.m_exceptedAttributeType =
        (expectedAttributeValue self attributeName).2.m_exceptedAttributeType) ∧
    (expectedAttributeValue self "Name").1 = false ∧
    (expectedAttributeValue self "LATITUDE").1 = false := by
  have key : ∀ s : CJson, expectedAttributeValue s attributeName =
      (if attributeName = "name" then
        (true, { s with m_exceptedTokenType := TokenType.STRING,
                        m_exceptedAttributeType := AttributesType.NAME })
      else if attributeName = "latitude" then
        (true, { s with m_exceptedTokenType := TokenType.NUMBER,
                        m_exceptedAttributeType := AttributesType.LATITUDE })
      else if attributeName = "longitude" then
        (true, { s with m_exceptedTokenType := TokenType.NUMBER,
                        m_exceptedAttributeType := AttributesType.LONGITUDE })
      else if attributeName = "type" then
        (true, { s with m_exceptedTokenType := TokenType.STRING,
                        m_exceptedAttributeType := AttributesType.POI_TYPE })
      else if attributeName = "description" then
        (true, { s with m_exceptedTokenType := TokenType.STRING,
                        m_exceptedAttributeType := AttributesType.DESCRIPTION })
      else
        (false, { s with m_exceptedTokenType := TokenType.JSON_NULL,
                         m_exceptedAttributeType := AttributesType.INVALID_TYPE })) := by
    intro s
    simp only [expectedAttributeValue, arributeLUT, expectedAttributeValue.search]
  refine ⟨key self, ?_, ?_, ?_, ?_⟩
  · rw [key self]
    simp only [List.mem_cons, List.mem_singleton, List.not_mem_nil, or_false]
    split_ifs <;> simp_all
  · intro other
    rw [key self, key other]
    split_ifs <;> exact ⟨rfl, rfl, rfl⟩
  · simp [expectedAttributeValue, arributeLUT, expectedAttributeValue.search]
  · simp [expectedAttributeValue, arributeLUT, expectedAttributeValue.search]

/-- C18. `WAITING_FOR_COMPLETION` is absorbing: a token received there is
consumed and becomes the event, and nothing else changes: the state stays
`WAITING_FOR_COMPLETION`, no error is set, the object (flags included), the
record under construction and both databases are as before; so is the end of a
read over any further tokens. -/
theorem loopBody_WAITING_FOR_COMPLETION (E : Collaborators) (l : ReadLocals)
    (t : CJsonToken) (rest : List CJsonToken)
    (hs : l.currentState = WAITING_FOR_COMPLETION) (he : l.error = JSON_ERR_NO) :
    loopBody E l t =
      { l with
        event := t.getType, previousEvent := t.getType, consumed := l.consumed + 1 } ∧
    (readLoop E l rest).currentState = WAITING_FOR_COMPLETION ∧
    (readLoop E l rest).error = JSON_ERR_NO ∧
    (readLoop E l rest).self = l.self ∧ (readLoop E l rest).vars = l.vars ∧
    (readLoop E l rest).waypointDb = l.waypointDb ∧ (readLoop E l rest).poiDb = l.poiDb := by
  have step : ∀ (l : ReadLocals) (t : CJsonToken), l.currentState = WAITING_FOR_COMPLETION →
      l.error = JSON_ERR_NO →
      loopBody E l t =
        { l with
          event := t.getType, previousEvent := t.getType, consumed := l.consumed + 1 } := by
    intro l t hs he
    simp [loopBody, dispatch, hs, he]
  refine ⟨step l t hs he, ?_⟩
  clear t
  induction rest generalizing l with
  | nil => exact ⟨hs, he, rfl, rfl, rfl, rfl⟩
  | cons t rest ih =>
    have h1 := step l t hs he
    have h1e : (loopBody E l t).error = JSON_ERR_NO := by rw [h1]; exact he
    rw [readLoop_cons_ok E l t rest h1e]
    obtain ⟨a, b, c, d, e, f⟩ := ih (loopBody E l t) (by rw [h1]; exact hs) h1e
    have s1 : (loopBody E l t).self = l.self := by rw [h1]
    have s2 : (loopBody E l t).vars = l.vars := by rw [h1]
    have s3 : (loopBody E l t).waypointDb = l.waypointDb := by rw [h1]
    have s4 : (loopBody E l t).poiDb = l.poiDb := by rw [h1]
    exact ⟨a, b, c.trans s1, d.trans s2, e.trans s3, f.trans s4⟩

/-- C19. In `WAITING_FOR_NAME_SEPARATOR` a name separator moves to
`WAITING_FOR_DB_ARRAY_BEGIN` when the previous state is `WAITING_FOR_DB_NAME`
and to `WAITING_FOR_VALUE` when the previous state is
`WAITING_FOR_ATTRIBUTE_NAME`; every token that is not a name separator raises
`JSON_ERR_EXPECT_NAME_SEPARATOR`, as does a name separator after any other
previous state. -/
theorem loopBody_WAITING_FOR_NAME_SEPARATOR (E : Collaborators) (l : ReadLocals)
    (t : CJsonToken) (hs : l.currentState = WAITING_FOR_NAME_SEPARATOR)
    (he : l.error = JSON_ERR_NO) :
    (l.previousState = WAITING_FOR_DB_NAME →
      loopBody E l nameSeparator =
        { l with
          event := TokenType.NAME_SEPARATOR, previousEvent := TokenType.NAME_SEPARATOR,
          currentState := WAITING_FOR_DB_ARRAY_BEGIN,
          previousState := WAITING_FOR_NAME_SEPARATOR, consumed := l.consumed + 1 }) ∧
    (l.previousState = WAITING_FOR_ATTRIBUTE_NAME →
      loopBody E l nameSeparator =
        { l with
          event := TokenType.NAME_SEPARATOR, previousEvent := TokenType.NAME_SEPARATOR,
          currentState := WAITING_FOR_VALUE,
          previousState := WAITING_FOR_NAME_SEPARATOR, consumed := l.consumed + 1 }) ∧
    (l.previousState ≠ WAITING_FOR_DB_NAME → l.previousState ≠ WAITING_FOR_ATTRIBUTE_NAME →
      loopBody E l nameSeparator =
        { l with
          event := TokenType.NAME_SEPARATOR, error := JSON_ERR_EXPECT_NAME_SEPARATOR,
          consumed := l.consumed + 1 }) ∧
    (t ≠ nameSeparator →
      loopBody E l t =
        { l with
          event := t.getType, error := JSON_ERR_EXPECT_NAME_SEPARATOR,
          consumed := l.consumed + 1 }) := by
  refine ⟨?_, ?_, ?_, ?_⟩
  · intro hp
    simp [loopBody, dispatch, hs, he, hp, CJsonToken.getType, ReadLocals.goto]
  · intro hp
    simp [loopBody, dispatch, hs, he, hp, CJsonToken.getType, ReadLocals.goto]
  · intro hp1 hp2
    simp [loopBody, dispatch, hs, he, hp1, hp2, CJsonToken.getType, ReadLocals.goto]
  · intro ht
    cases t <;> simp [loopBody, dispatch, hs, he, CJsonToken.getType] at ht ⊢

/-- C20. The transitions out of `WAITING_FOR_VALUE_SEPARATOR`: a value separator
leads to `WAITING_FOR_DB_OBJECT_BEGIN` if the previous state is
`WAITING_FOR_DB_OBJECT_END`, else to `WAITING_FOR_ATTRIBUTE_NAME` if the
previous state is `WAITING_FOR_VALUE`, else to `WAITING_FOR_DB_NAME` if the
previous event is `END_ARRAY` (and raises `JSON_ERR_EXPECT_VALUE_SEPARATOR` if
none of the three holds); an end-of-array token leads back to
`WAITING_FOR_VALUE_SEPARATOR` whatever the previous state is; an end-of-object
token leads to `WAITING_FOR_COMPLETION`; every other token raises
`JSON_ERR_EXPECT_VALUE_SEPARATOR`. -/
theorem loopBody_WAITING_FOR_VALUE_SEPARATOR (E : Collaborators) (l : ReadLocals)
    (t : CJsonToken) (hs : l.currentState = WAITING_FOR_VALUE_SEPARATOR)
    (he : l.error = JSON_ERR_NO) :
    (l.previousState = WAITING_FOR_DB_OBJECT_END →
      loopBody E l valueSeparator =
        { l with
          event := TokenType.VALUE_SEPARATOR, previousEvent := TokenType.VALUE_SEPARATOR,
          currentState := WAITING_FOR_DB_OBJECT_BEGIN,
          previousState := WAITING_FOR_VALUE_SEPARATOR, consumed := l.consumed + 1 }) ∧
    (l.previousState = WAITING_FOR_VALUE →
      loopBody E l valueSeparator =
        { l with
          event := TokenType.VALUE_SEPARATOR, previousEvent := TokenType.VALUE_SEPARATOR,
          currentState := WAITING_FOR_ATTRIBUTE_NAME,
          previousState := WAITING_FOR_VALUE_SEPARATOR, consumed := l.consumed + 1 }) ∧
    (l.previousState ≠ WAITING_FOR_DB_OBJECT_END → l.previousState ≠ WAITING_FOR_VALUE →
      l.previousEvent = TokenType.END_ARRAY →
      loopBody E l valueSeparator =
        { l with
          event := TokenType.VALUE_SEPARATOR, previousEvent := TokenType.VALUE_SEPARATOR,
          currentState := WAITING_FOR_DB_NAME,
          previousState := WAITING_FOR_VALUE_SEPARATOR, consumed := l.consumed + 1 }) ∧
    (l.previousState ≠ WAITING_FOR_DB_OBJECT_END → l.previousState ≠ WAITING_FOR_VALUE →
      l.previousEvent ≠ TokenType.END_ARRAY →
      loopBody E l valueSeparator =
        { l with
          event := TokenType.VALUE_SEPARATOR, error := JSON_ERR_EXPECT_VALUE_SEPARATOR,
          consumed := l.consumed + 1 }) ∧
    loopBody E l endArray =
      { l with
        event := TokenType.END_ARRAY, previousEvent := TokenType.END_ARRAY,
        currentState := WAITING_FOR_VALUE_SEPARATOR,
        previousState := WAITING_FOR_VALUE_SEPARATOR, consumed := l.consumed + 1 } ∧
    loopBody E l endObject =
      { l with
        event := TokenType.END_OBJECT, previousEvent := TokenType.END_OBJECT,
        currentState := WAITING_FOR_COMPLETION,
        previousState := WAITING_FOR_VALUE_SEPARATOR, consumed := l.consumed + 1 } ∧
    (t ≠ valueSeparator → t ≠ endArray → t ≠ endObject →
      loopBody E l t =
        { l with
          event := t.getType, error := JSON_ERR_EXPECT_VALUE_SEPARATOR,
          consumed := l.consumed + 1 }) := by
  refine ⟨?_, ?_, ?_, ?_, ?_, ?_, ?_⟩
  · intro hp
    simp [loopBody, dispatch, hs, he, hp, CJsonToken.getType, ReadLocals.goto]
  · intro hp
    simp [loopBody, dispatch, hs, he, hp, CJsonToken.getType, ReadLocals.goto]
  · intro hp1 hp2 hp3
    simp [loopBody, dispatch, hs, he, hp1, hp2, hp3, CJsonToken.getType, ReadLocals.goto]
  · intro hp1 hp2 hp3
    simp [loopBody, dispatch, hs, he, hp1, hp2, hp3, CJsonToken.getType, ReadLocals.goto]
  · simp [loopBody, dispatch, hs, he, CJsonToken.getType, ReadLocals.goto]
  · simp [loopBody, dispatch, hs, he, CJsonToken.getType, ReadLocals.goto]
  · intro h1 h2 h3
    cases t <;> simp [loopBody, dispatch, hs, he, CJsonToken.getType] at h1 h2 h3 ⊢

theorem extractValue_store (E : Collaborators) (self : CJson) (t : CJsonToken) (v : Scratch)
    (hkind : t.getType = self.m_exceptedTokenType)
    (hrow : (self.m_exceptedTokenType, self.m_exceptedAttributeType) ∈
      arributeLUT.map Prod.snd)
    (hnew : self.m_isAttrAlreadyRead.read self.m_exceptedAttributeType = false) :
    (extractValue E self t v).2.2 = v.capture E self.m_exceptedAttributeType t ∧
    (extractValue E self t v).2.1.m_isAttrAlreadyRead =
      self.m_isAttrAlreadyRead.mark self.m_exceptedAttributeType ∧
    (extractValue E self t v).2.1.m_currentObjectRead = self.m_currentObjectRead ∧
    (extractValue E self t v).2.1.m_exceptedTokenType = self.m_exceptedTokenType ∧
    (extractValue E self t v).2.1.m_exceptedAttributeType = self.m_exceptedAttributeType := by
  obtain ⟨cur, ⟨fi, fn, fla, flo, fty, fd⟩, et, ea⟩ := self
  simp only [arributeLUT, List.map, List.mem_cons, Prod.mk.injEq, List.mem_singleton,
    List.not_mem_nil, or_false] at hrow
  rcases hrow with ⟨h1, h2⟩ | ⟨h1, h2⟩ | ⟨h1, h2⟩ | ⟨h1, h2⟩ | ⟨h1, h2⟩ <;>
    subst h1 h2 <;> simp only [AttrFlags.read] at hnew <;> subst hnew <;>
    cases t <;> simp [CJsonToken.getType] at hkind <;>
    simp [extractValue, CJsonToken.asString, CJsonToken.asNumber, Scratch.capture,
      AttrFlags.mark]

/-- C13. In `WAITING_FOR_VALUE` a token whose kind differs from the expected
kind is rejected with `JSON_ERR_EXPECT_ATTR_VALUE` and changes nothing but the
event, the error and the count of consumed tokens: record under construction
and flags stay. A token of the expected kind, the expected kind and attribute
being a row of the lookup table and the attribute not yet captured, stores its
payload into the field of that attribute, all other fields staying (for the
category the payload goes through `getPoiType`), and sets the flag of that
attribute, all other flags staying. -/
theorem loopBody_in_WAITING_FOR_VALUE (E : Collaborators) (l : ReadLocals) (t : CJsonToken)
    (hs : l.currentState = WAITING_FOR_VALUE) (he : l.error = JSON_ERR_NO) :
    (t.getType ≠ l.self.m_exceptedTokenType →
      loopBody E l t =
        { l with
          event := t.getType, error := JSON_ERR_EXPECT_ATTR_VALUE,
          consumed := l.consumed + 1 }) ∧
    (t.getType = l.self.m_exceptedTokenType →
      (l.self.m_exceptedTokenType, l.self.m_exceptedAttributeType) ∈
        arributeLUT.map Prod.snd →
      l.self.m_isAttrAlreadyRead.read l.self.m_exceptedAttributeType = false →
      (loopBody E l t).vars = l.vars.capture E l.self.m_exceptedAttributeType t ∧
      (loopBody E l t).self.m_isAttrAlreadyRead =
        l.self.m_isAttrAlreadyRead.mark l.self.m_exceptedAttributeType ∧
      (loopBody E l t).self.m_currentObjectRead = l.self.m_currentObjectRead) := by
  constructor
  · intro hk
    simp [loopBody, dispatch, hs, he, hk]
  · intro hk hrow hnew
    obtain ⟨s1, s2, s3, -, -⟩ := extractValue_store E l.self t l.vars hk hrow hnew
    rw [← s1, ← s2, ← s3]
    by_cases hx : (extractValue E l.self t l.vars).1 = true
    · by_cases hall : allAttributesRead (extractValue E l.self t l.vars).2.1 = true
      · simp [loopBody, dispatch, hs, he, hk, hx, hall, ReadLocals.goto, emitRecord_self,
          emitRecord_error, emitRecord_vars]
      · simp [loopBody, dispatch, hs, he, hk, hx, hall, ReadLocals.goto]
    · simp [loopBody, dispatch, hs, he, hk, hx]

/-- Witness for C18: the state at the end of a read of a whole document, a
further closing brace and a further closing bracket. -/
theorem loopBody_WAITING_FOR_COMPLETION_witness :
    sampleLocalsCompletion.currentState = WAITING_FOR_COMPLETION ∧
    sampleLocalsCompletion.error = JSON_ERR_NO ∧
    loopBody sampleCollaborators sampleLocalsCompletion endObject =
      { sampleLocalsCompletion with
        event := endObject.getType, previousEvent := endObject.getType,
        consumed := sampleLocalsCompletion.consumed + 1 } ∧
    (readLoop sampleCollaborators sampleLocalsCompletion [endArray]).currentState =
      WAITING_FOR_COMPLETION ∧
    (readLoop sampleCollaborators sampleLocalsCompletion [endArray]).error = JSON_ERR_NO ∧
    (readLoop sampleCollaborators sampleLocalsCompletion [endArray]).self =
      sampleLocalsCompletion.self ∧
    (readLoop sampleCollaborators sampleLocalsCompletion [endArray]).vars =
      sampleLocalsCompletion.vars ∧
    (readLoop sampleCollaborators sampleLocalsCompletion [endArray]).waypointDb =
      sampleLocalsCompletion.waypointDb ∧
    (readLoop sampleCollaborators sampleLocalsCompletion [endArray]).poiDb =
      sampleLocalsCompletion.poiDb :=
  ⟨by decide, by decide,
    loopBody_WAITING_FOR_COMPLETION sampleCollaborators sampleLocalsCompletion endObject
      [endArray] (by decide) (by decide)⟩

/-- Witness for C19: the state reached after the array name `"waypoints"`, a name
separator and an opening bracket in its place. -/
theorem loopBody_WAITING_FOR_NAME_SEPARATOR_witness :
    (sampleLocalsAt 2).currentState = WAITING_FOR_NAME_SEPARATOR ∧
    (sampleLocalsAt 2).error = JSON_ERR_NO ∧
    (sampleLocalsAt 2).previousState = WAITING_FOR_DB_NAME ∧
    loopBody sampleCollaborators (sampleLocalsAt 2) nameSeparator =
      { sampleLocalsAt 2 with
        event := TokenType.NAME_SEPARATOR, previousEvent := TokenType.NAME_SEPARATOR,
        currentState := WAITING_FOR_DB_ARRAY_BEGIN,
        previousState := WAITING_FOR_NAME_SEPARATOR,
        consumed := (sampleLocalsAt 2).consumed + 1 } ∧
    loopBody sampleCollaborators (sampleLocalsAt 2) beginArray =
      { sampleLocalsAt 2 with
        event := beginArray.getType, error := JSON_ERR_EXPECT_NAME_SEPARATOR,
        consumed := (sampleLocalsAt 2).consumed + 1 } :=
  ⟨by decide, by decide, by decide,
    (loopBody_WAITING_FOR_NAME_SEPARATOR sampleCollaborators (sampleLocalsAt 2) beginArray
      (by decide) (by decide)).1 (by decide),
    (loopBody_WAITING_FOR_NAME_SEPARATOR sampleCollaborators (sampleLocalsAt 2) beginArray
      (by decide) (by decide)).2.2.2 (by decide)⟩

/-- Witness for C20: the state reached after the first object of the waypoint
array, a value separator and a string in its place. -/
theorem loopBody_WAITING_FOR_VALUE_SEPARATOR_witness :
    (sampleLocalsAt 17).currentState = WAITING_FOR_VALUE_SEPARATOR ∧
    (sampleLocalsAt 17).error = JSON_ERR_NO ∧
    (sampleLocalsAt 17).previousState = WAITING_FOR_DB_OBJECT_END ∧
    loopBody sampleCollaborators (sampleLocalsAt 17) valueSeparator =
      { sampleLocalsAt 17 with
        event := TokenType.VALUE_SEPARATOR, previousEvent := TokenType.VALUE_SEPARATOR,
        currentState := WAITING_FOR_DB_OBJECT_BEGIN,
        previousState := WAITING_FOR_VALUE_SEPARATOR,
        consumed := (sampleLocalsAt 17).consumed + 1 } ∧
    loopBody sampleCollaborators (sampleLocalsAt 17) endArray =
      { sampleLocalsAt 17 with
        event := TokenType.END_ARRAY, previousEvent := TokenType.END_ARRAY,
        currentState := WAITING_FOR_VALUE_SEPARATOR,
        previousState := WAITING_FOR_VALUE_SEPARATOR,
        consumed := (sampleLocalsAt 17).consumed + 1 } ∧
    loopBody sampleCollaborators (sampleLocalsAt 17) (stringToken "B") =
      { sampleLocalsAt 17 with
        event := (stringToken "B").getType, error := JSON_ERR_EXPECT_VALUE_SEPARATOR,
        consumed := (sampleLocalsAt 17).consumed + 1 } :=
  ⟨by decide, by decide, by decide,
    (loopBody_WAITING_FOR_VALUE_SEPARATOR sampleCollaborators (sampleLocalsAt 17)
      (stringToken "B") (by decide) (by decide)).1 (by decide),
    (loopBody_WAITING_FOR_VALUE_SEPARATOR sampleCollaborators (sampleLocalsAt 17)
      (stringToken "B") (by decide) (by decide)).2.2.2.2.1,
    (loopBody_WAITING_FOR_VALUE_SEPARATOR sampleCollaborators (sampleLocalsAt 17)
      (stringToken "B") (by decide) (by decide)).2.2.2.2.2.2 (by decide) (by decide)
      (by decide)⟩

/-- Witness for C13: the state that awaits the value of `"name"` in the first
object, the string `"A"` and a number in its place. -/
theorem loopBody_in_WAITING_FOR_VALUE_witness :
    (sampleLocalsAt 7).currentState = WAITING_FOR_VALUE ∧
    (sampleLocalsAt 7).error = JSON_ERR_NO ∧
    (sampleLocalsAt 7).self.m_exceptedTokenType = TokenType.STRING ∧
    (sampleLocalsAt 7).self.m_exceptedAttributeType = AttributesType.NAME ∧
    loopBody sampleCollaborators (sampleLocalsAt 7) (numberToken 1) =
      { sampleLocalsAt 7 with
        event := (numberToken 1).getType, error := JSON_ERR_EXPECT_ATTR_VALUE,
        consumed := (sampleLocalsAt 7).consumed + 1 } ∧
    (loopBody sampleCollaborators (sampleLocalsAt 7) (stringToken "A")).vars =
      (sampleLocalsAt 7).vars.capture sampleCollaborators
        (sampleLocalsAt 7).self.m_exceptedAttributeType (stringToken "A") ∧
    (loopBody sampleCollaborators (sampleLocalsAt 7) (stringToken "A")).self.m_isAttrAlreadyRead =
      (sampleLocalsAt 7).self.m_isAttrAlreadyRead.mark
        (sampleLocalsAt 7).self.m_exceptedAttributeType ∧
    (loopBody sampleCollaborators (sampleLocalsAt 7) (stringToken "A")).self.m_currentObjectRead =
      (sampleLocalsAt 7).self.m_currentObjectRead :=
  ⟨by decide, by decide, by decide, by decide,
    (loopBody_in_WAITING_FOR_VALUE sampleCollaborators (sampleLocalsAt 7) (numberToken 1)
      (by decide) (by decide)).1 (by decide),
    (loopBody_in_WAITING_FOR_VALUE sampleCollaborators (sampleLocalsAt 7) (stringToken "A")
      (by decide) (by decide)).2 (by decide) (by decide) (by decide)⟩

/-! ### The shape of the written tokens -/

theorem writeWaypoints_intercalate (Waypoints : List CWaypoint) :
    writeWaypoints Waypoints =
      List.intercalate [valueSeparator] (Waypoints.map fun wp => writeWaypoint wp true) := by
  induction Waypoints with
  | nil => simp [writeWaypoints, List.intercalate]
  | cons wp rest ih =>
    cases rest with
    | nil => simp [writeWaypoints, List.intercalate]
    | cons r rs =>
      rw [writeWaypoints, ih]
      simp [writeWaypoint, List.intercalate, List.intersperse]

theorem writePois_intercalate (E : Collaborators) (Pois : List CPOI) :
    writePois E Pois =
      List.intercalate [valueSeparator] (Pois.map fun poi => writePoi E poi true) := by
  induction Pois with
  | nil => simp [writePois, List.intercalate]
  | cons poi rest ih =>
    cases rest with
    | nil => simp [writePois, List.intercalate]
    | cons r rs =>
      rw [writePois, ih]
      simp [writePoi, List.intercalate, List.intersperse]

theorem writeWaypoints_count (Waypoints : List CWaypoint) :
    (writeWaypoints Waypoints).count beginObject = Waypoints.length ∧
    (writeWaypoints Waypoints).count endObject = Waypoints.length := by
  induction Waypoints with
  | nil => simp [writeWaypoints]
  | cons wp rest ih =>
    rw [writeWaypoints, List.count_append, List.count_append, ih.1, ih.2]
    constructor <;> cases rest.isEmpty <;> simp [writeWaypoint, List.count_cons] <;> omega

theorem writePois_count (E : Collaborators) (Pois : List CPOI) :
    (writePois E Pois).count beginObject = Pois.length ∧
    (writePois E Pois).count endObject = Pois.length := by
  induction Pois with
  | nil => simp [writePois]
  | cons poi rest ih =>
    rw [writePois, List.count_append, List.count_append, ih.1, ih.2]
    constructor <;> cases rest.isEmpty <;> simp [writePoi, List.count_cons] <;> omega

/-- The shape of the token sequence `writeData`: it is
`{ "waypoints" : [ ... ] , "pois" : [ ... ] }`, where the content of each array
is the objects of the entries, one per entry and in the order of the
database, joined by single commas: a comma stands between two consecutive
objects only, none follows the last object, and no entry gives an empty array.
Each array holds as many opening and as many closing braces as there are
entries. -/
theorem writeData_tokens_shape (E : Collaborators) (Waypoints : List CWaypoint) (Pois : List CPOI) :
    writeData E Waypoints Pois =
      [beginObject, stringToken "waypoints", nameSeparator, beginArray] ++
      List.intercalate [valueSeparator] (Waypoints.map fun wp => writeWaypoint wp true) ++
      [endArray, valueSeparator, stringToken "pois", nameSeparator, beginArray] ++
      List.intercalate [valueSeparator] (Pois.map fun poi => writePoi E poi true) ++
      [endArray, endObject] ∧
    (∀ wp : CWaypoint, writeWaypoint wp true =
      [beginObject,
       stringToken "name", nameSeparator, stringToken wp.m_name, valueSeparator,
       stringToken "latitude", nameSeparator, numberToken wp.m_latitude, valueSeparator,
       stringToken "longitude", nameSeparator, numberToken wp.m_longitude, endObject]) ∧
    (∀ poi : CPOI, writePoi E poi true =
      [beginObject,
       stringToken "name", nameSeparator, stringToken poi.m_name, valueSeparator,
       stringToken "latitude", nameSeparator, numberToken poi.m_latitude, valueSeparator,
       stringToken "longitude", nameSeparator, numberToken poi.m_longitude, valueSeparator,
       stringToken "type", nameSeparator, stringToken (E.getPoiTypeName poi.m_type),
       valueSeparator,
       stringToken "description", nameSeparator, stringToken poi.m_description, endObject]) ∧
    (writeWaypoints Waypoints).count beginObject = Waypoints.length ∧
    (writeWaypoints Waypoints).count endObject = Waypoints.length ∧
    (writePois E Pois).count beginObject = Pois.length ∧
    (writePois E Pois).count endObject = Pois.length ∧
    writeData E [] [] =
      [beginObject, stringToken "waypoints", nameSeparator, beginArray, endArray,
       valueSeparator, stringToken "pois", nameSeparator, beginArray, endArray, endObject] := by
  refine ⟨?_, ?_, ?_, (writeWaypoints_count Waypoints).1, (writeWaypoints_count Waypoints).2,
    (writePois_count E Pois).1, (writePois_count E Pois).2, ?_⟩
  · rw [writeData, writeWaypoints_intercalate, writePois_intercalate]
    simp
  · intro wp
    simp [writeWaypoint]
  · intro poi
    simp [writePoi]
  · simp [writeData, writeWaypoints, writePois]

/-! ### The read stops at the first rejected token -/

theorem dispatch_consumed (E : Collaborators) (l : ReadLocals) (t : CJsonToken) :
    (dispatch E l t).consumed = l.consumed := by
  simp only [dispatch]
  repeat' split
  all_goals simp [ReadLocals.goto, emitRecord_consumed]

theorem loopBody_consumed (E : Collaborators) (l : ReadLocals) (t : CJsonToken) :
    (loopBody E l t).consumed = l.consumed + 1 := by
  have h := dispatch_consumed E { l with event := t.getType, consumed := l.consumed + 1 } t
  simp only [loopBody]
  split
  · exact h
  · exact h

theorem readLoop_append_err (E : Collaborators) (xs ys : List CJsonToken) :
    ∀ l : ReadLocals, l.error = JSON_ERR_NO → (readLoop E l xs).error ≠ JSON_ERR_NO →
      readLoop E l (xs ++ ys) = readLoop E l xs := by
  induction xs with
  | nil => intro l h0 h; exact absurd h0 h
  | cons t ts ih =>
    intro l h0 h
    by_cases h1 : (loopBody E l t).error = JSON_ERR_NO
    · rw [List.cons_append, readLoop_cons_ok E l t _ h1, readLoop_cons_ok E l t _ h1]
      rw [readLoop_cons_ok E l t _ h1] at h
      exact ih _ h1 h
    · rw [List.cons_append, readLoop_cons_err E l t _ h1, readLoop_cons_err E l t _ h1]

theorem readLoop_stops_at (E : Collaborators) (l0 : ReadLocals) (input : List CJsonToken)
    (k : Nat) (tok : CJsonToken) (h0 : l0.error = JSON_ERR_NO) (hk : input[k]? = some tok)
    (hok : (localsBefore E l0 input k).error = JSON_ERR_NO)
    (hrej : (loopBody E (localsBefore E l0 input k) tok).error ≠ JSON_ERR_NO)
    (later : List CJsonToken) :
    readLoop E l0 (input.take (k + 1) ++ later) = loopBody E (localsBefore E l0 input k) tok := by
  have h1 : readLoop E l0 (input.take (k + 1)) = loopBody E (localsBefore E l0 input k) tok :=
    localsBefore_succ_ok E l0 input k tok h0 hk hok
  rw [readLoop_append_err E _ later l0 h0 (by rw [h1]; exact hrej), h1]

theorem localsBefore_consumed (E : Collaborators) (l0 : ReadLocals) (input : List CJsonToken)
    (h0 : l0.error = JSON_ERR_NO) :
    ∀ k : Nat, k ≤ input.length → (localsBefore E l0 input k).error = JSON_ERR_NO →
      (localsBefore E l0 input k).consumed = l0.consumed + k := by
  intro k
  induction k with
  | zero => intro _ _; rw [localsBefore_zero]; rfl
  | succ k ih =>
    intro hk he
    have hlt : k < input.length := hk
    have hget : input[k]? = some input[k] := List.getElem?_eq_getElem hlt
    have hek := localsBefore_error_of_succ E l0 input k h0 he
    rw [localsBefore_succ_ok E l0 input k _ h0 hget hek, loopBody_consumed,
      ih (Nat.le_of_lt hlt) hek]
    omega

theorem localsBefore_dbs_mono (E : Collaborators) (l0 : ReadLocals) (input : List CJsonToken)
    (h0 : l0.error = JSON_ERR_NO) (j k : Nat) (hjk : j ≤ k)
    (hok : (localsBefore E l0 input k).error = JSON_ERR_NO) :
    (localsBefore E l0 input j).waypointDb <+: (localsBefore E l0 input k).waypointDb ∧
    (localsBefore E l0 input j).poiDb <+: (localsBefore E l0 input k).poiDb := by
  induction k with
  | zero =>
    have : j = 0 := by omega
    subst this
    exact ⟨List.prefix_refl _, List.prefix_refl _⟩
  | succ k ih =>
    rcases Nat.lt_or_ge j (k + 1) with hlt | hge
    · have hek := localsBefore_error_of_succ E l0 input k h0 hok
      obtain ⟨a, b⟩ := ih (by omega) hek
      cases hget : input[k]? with
      | none =>
        rw [localsBefore_succ_none E l0 input k hget]
        exact ⟨a, b⟩
      | some tok =>
        rw [localsBefore_succ_ok E l0 input k tok h0 hget hek]
        exact ⟨a.trans (loopBody_waypointDb E _ tok), b.trans (loopBody_poiDb E _ tok)⟩
    · have : j = k + 1 := by omega
      subst this
      exact ⟨List.prefix_refl _, List.prefix_refl _⟩

/-- C15. When the token at position `k` is the first one `readData` rejects (no
error before it, an error at it), the read ends with the local variables of
that step: the databases are those reached over the first `k` tokens, `k + 1`
tokens were requested from the scanner, whatever follows position `k` in the
input makes no difference to the result, and the databases reached at every
earlier position are initial segments of the final ones, so nothing inserted
before the failure is removed. -/
theorem readData_stops_at_first_error (E : Collaborators) (self : CJson)
    (input : List CJsonToken) (waypointDb : CWpDatabase) (poiDb : CPoiDatabase)
    (mode : MergeMode) (l0 : ReadLocals) (k : Nat) (tok : CJsonToken)
    (hm : enterLoop E self waypointDb poiDb mode = some l0)
    (hk : input[k]? = some tok)
    (hok : (localsBefore E l0 input k).error = JSON_ERR_NO)
    (hrej : (loopBody E (localsBefore E l0 input k) tok).error ≠ JSON_ERR_NO) :
    (readData E self true input waypointDb poiDb mode).run =
      some (loopBody E (localsBefore E l0 input k) tok) ∧
    (readData E self true input waypointDb poiDb mode).waypointDb =
      (localsBefore E l0 input k).waypointDb ∧
    (readData E self true input waypointDb poiDb mode).poiDb =
      (localsBefore E l0 input k).poiDb ∧
    (loopBody E (localsBefore E l0 input k) tok).consumed = k + 1 ∧
    (∀ later : List CJsonToken,
      readData E self true (input.take (k + 1) ++ later) waypointDb poiDb mode =
        readData E self true input waypointDb poiDb mode) ∧
    (∀ j : Nat, j ≤ k →
      (localsBefore E l0 input j).waypointDb <+:
        (readData E self true input waypointDb poiDb mode).waypointDb ∧
      (localsBefore E l0 input j).poiDb <+:
        (readData E self true input waypointDb poiDb mode).poiDb) := by
  have h0 : l0.error = JSON_ERR_NO ∧ l0.consumed = 0 := by
    cases mode <;> simp [enterLoop] at hm <;> subst hm <;> exact ⟨rfl, rfl⟩
  have hstop := readLoop_stops_at E l0 input k tok h0.1 hk hok hrej
  have hlt : k < input.length := by
    rcases Nat.lt_or_ge k input.length with h | h
    · exact h
    · rw [List.getElem?_eq_none h] at hk
      cases hk
  have hin : readLoop E l0 input = loopBody E (localsBefore E l0 input k) tok := by
    have := hstop (input.drop (k + 1))
    rwa [List.take_append_drop] at this
  have hdb := loopBody_dbs_of_error E _ tok hok hrej
  have hrun : ∀ ts : List CJsonToken, readData E self true ts waypointDb poiDb mode =
      { ret := true, waypointDb := (readLoop E l0 ts).waypointDb,
        poiDb := (readLoop E l0 ts).poiDb, run := some (readLoop E l0 ts) } := by
    intro ts
    simp [readData, hm]
  have hc := localsBefore_consumed E l0 input h0.1 k (Nat.le_of_lt hlt) hok
  refine ⟨?_, ?_, ?_, ?_, ?_, ?_⟩
  · rw [hrun, hin]
  · rw [hrun, hin]; exact hdb.1
  · rw [hrun, hin]; exact hdb.2
  · rw [loopBody_consumed, hc, h0.2]; omega
  · intro later
    rw [hrun, hrun, hstop later, hin]
  · intro j hj
    have hmono := localsBefore_dbs_mono E l0 input h0.1 j k hj hok
    rw [hrun, hin]
    exact ⟨by rw [hdb.1]; exact hmono.1, by rw [hdb.2]; exact hmono.2⟩

/-- Witness for C15: the document with one waypoint and an empty array of points
of interest is rejected at the closing bracket of that array, position 22, after
the waypoint was inserted. -/
theorem readData_stops_at_first_error_witness :
    (readData sampleCollaborators sampleCJson true specExampleDocument [] []
        MergeMode.MERGE).run =
      some (loopBody sampleCollaborators (sampleLocalsAt 22) endArray) ∧
    (readData sampleCollaborators sampleCJson true specExampleDocument [] []
        MergeMode.MERGE).waypointDb = (sampleLocalsAt 22).waypointDb ∧
    (readData sampleCollaborators sampleCJson true specExampleDocument [] []
        MergeMode.MERGE).poiDb = (sampleLocalsAt 22).poiDb ∧
    (loopBody sampleCollaborators (sampleLocalsAt 22) endArray).consumed = 22 + 1 ∧
    (∀ later : List CJsonToken,
      readData sampleCollaborators sampleCJson true (specExampleDocument.take (22 + 1) ++ later)
          [] [] MergeMode.MERGE =
        readData sampleCollaborators sampleCJson true specExampleDocument [] []
          MergeMode.MERGE) ∧
    (∀ j : Nat, j ≤ 22 →
      (localsBefore sampleCollaborators (initialLocals sampleCollaborators sampleCJson [] [])
          specExampleDocument j).waypointDb <+:
        (readData sampleCollaborators sampleCJson true specExampleDocument [] []
          MergeMode.MERGE).waypointDb ∧
      (localsBefore sampleCollaborators (initialLocals sampleCollaborators sampleCJson [] [])
          specExampleDocument j).poiDb <+:
        (readData sampleCollaborators sampleCJson true specExampleDocument [] []
          MergeMode.MERGE).poiDb) :=
  readData_stops_at_first_error sampleCollaborators sampleCJson specExampleDocument [] []
    MergeMode.MERGE (initialLocals sampleCollaborators sampleCJson [] []) 22 endArray
    rfl (by decide) (by decide) (by decide)

/-! ### An object that is closed before it is complete -/

theorem loopBody_COMPLETION_eq (E : Collaborators) (l : ReadLocals) (t : CJsonToken)
    (hs : l.currentState = WAITING_FOR_COMPLETION) (he : l.error = JSON_ERR_NO) :
    loopBody E l t =
      { l with
        event := t.getType, previousEvent := t.getType, consumed := l.consumed + 1 } := by
  simp [loopBody, dispatch, hs, he]

theorem readLoop_COMPLETION (E : Collaborators) (rest : List CJsonToken) :
    ∀ l : ReadLocals, l.currentState = WAITING_FOR_COMPLETION → l.error = JSON_ERR_NO →
      (readLoop E l rest).currentState = WAITING_FOR_COMPLETION ∧
      (readLoop E l rest).error = JSON_ERR_NO ∧
      (readLoop E l rest).waypointDb = l.waypointDb ∧ (readLoop E l rest).poiDb = l.poiDb := by
  induction rest with
  | nil => intro l hs he; exact ⟨hs, he, rfl, rfl⟩
  | cons t rest ih =>
    intro l hs he
    have h1 := loopBody_COMPLETION_eq E l t hs he
    have e1 : (loopBody E l t).error = JSON_ERR_NO := by rw [h1]; exact he
    have c1 : (loopBody E l t).currentState = WAITING_FOR_COMPLETION := by rw [h1]; exact hs
    have s3 : (loopBody E l t).waypointDb = l.waypointDb := by rw [h1]
    have s4 : (loopBody E l t).poiDb = l.poiDb := by rw [h1]
    rw [readLoop_cons_ok E l t rest e1]
    obtain ⟨a, b, c, d⟩ := ih _ c1 e1
    exact ⟨a, b, c.trans s3, d.trans s4⟩

theorem readLoop_endObject_in_VALUE_SEPARATOR (E : Collaborators) (l : ReadLocals)
    (rest : List CJsonToken) (hs : l.currentState = WAITING_FOR_VALUE_SEPARATOR)
    (he : l.error = JSON_ERR_NO) :
    (readLoop E l (endObject :: rest)).error = JSON_ERR_NO ∧
    (readLoop E l (endObject :: rest)).currentState = WAITING_FOR_COMPLETION ∧
    (readLoop E l (endObject :: rest)).waypointDb = l.waypointDb ∧
    (readLoop E l (endObject :: rest)).poiDb = l.poiDb := by
  have h1 : loopBody E l endObject =
      { l with
        event := TokenType.END_OBJECT, previousEvent := TokenType.END_OBJECT,
        currentState := WAITING_FOR_COMPLETION, previousState := WAITING_FOR_VALUE_SEPARATOR,
        consumed := l.consumed + 1 } := by
    simp [loopBody, dispatch, hs, he, CJsonToken.getType, ReadLocals.goto]
  have e1 : (loopBody E l endObject).error = JSON_ERR_NO := by rw [h1]; exact he
  have c1 : (loopBody E l endObject).currentState = WAITING_FOR_COMPLETION := by rw [h1]
  have s3 : (loopBody E l endObject).waypointDb = l.waypointDb := by rw [h1]
  have s4 : (loopBody E l endObject).poiDb = l.poiDb := by rw [h1]
  rw [readLoop_cons_ok E l endObject rest e1]
  obtain ⟨a, b, c, d⟩ := readLoop_COMPLETION E rest _ c1 e1
  exact ⟨b, a, c.trans s3, d.trans s4⟩

/-- C11 (the code departs from the specification). A closing brace that arrives
while the reader waits for the separator after a value, that is, one that
closes an object of which not all attributes were read, raises no error and
does not lead to the next array element: the reader goes to
`WAITING_FOR_COMPLETION`, and whatever tokens follow, the read ends without an
error and with the databases as they were at that brace. On the sample
document, whose first point-of-interest object lacks its description and is
followed by a complete one, the brace is token 38, the read ends in
`WAITING_FOR_COMPLETION` without an error after all 63 tokens were requested,
with the waypoint inserted and no point of interest, and `readData` returns
`true`. -/
theorem readData_incomplete_object (E : Collaborators) (l : ReadLocals)
    (rest : List CJsonToken) :
    loopBody E
        { l with
          currentState := WAITING_FOR_VALUE_SEPARATOR, previousState := WAITING_FOR_VALUE,
          error := JSON_ERR_NO } endObject =
      { l with
        event := TokenType.END_OBJECT, previousEvent := TokenType.END_OBJECT,
        currentState := WAITING_FOR_COMPLETION, previousState := WAITING_FOR_VALUE_SEPARATOR,
        error := JSON_ERR_NO, consumed := l.consumed + 1 } ∧
    (readLoop E
        { l with
          currentState := WAITING_FOR_VALUE_SEPARATOR, previousState := WAITING_FOR_VALUE,
          error := JSON_ERR_NO } (endObject :: rest)).error = JSON_ERR_NO ∧
    (readLoop E
        { l with
          currentState := WAITING_FOR_VALUE_SEPARATOR, previousState := WAITING_FOR_VALUE,
          error := JSON_ERR_NO } (endObject :: rest)).currentState = WAITING_FOR_COMPLETION ∧
    (readLoop E
        { l with
          currentState := WAITING_FOR_VALUE_SEPARATOR, previousState := WAITING_FOR_VALUE,
          error := JSON_ERR_NO } (endObject :: rest)).waypointDb = l.waypointDb ∧
    (readLoop E
        { l with
          currentState := WAITING_FOR_VALUE_SEPARATOR, previousState := WAITING_FOR_VALUE,
          error := JSON_ERR_NO } (endObject :: rest)).poiDb = l.poiDb ∧
    incompleteObjectDocument[38]? = some endObject ∧
    (localsBefore sampleCollaborators (initialLocals sampleCollaborators sampleCJson [] [])
        incompleteObjectDocument 38).currentState = WAITING_FOR_VALUE_SEPARATOR ∧
    (localsBefore sampleCollaborators (initialLocals sampleCollaborators sampleCJson [] [])
        incompleteObjectDocument 38).previousState = WAITING_FOR_VALUE ∧
    allAttributesRead
      (localsBefore sampleCollaborators (initialLocals sampleCollaborators sampleCJson [] [])
        incompleteObjectDocument 38).self = false ∧
    (readData sampleCollaborators sampleCJson true incompleteObjectDocument [] []
        MergeMode.MERGE).run.map
        (fun l => (l.error, l.currentState, l.consumed, l.waypointDb, l.poiDb)) =
      some (JSON_ERR_NO, WAITING_FOR_COMPLETION, 63,
        [{ m_name := "A", m_latitude := 1, m_longitude := 2 }], []) ∧
    (readData sampleCollaborators sampleCJson true incompleteObjectDocument [] []
        MergeMode.MERGE).ret = true := by
  have h := readLoop_endObject_in_VALUE_SEPARATOR E
    { l with
      currentState := WAITING_FOR_VALUE_SEPARATOR, previousState := WAITING_FOR_VALUE,
      error := JSON_ERR_NO } rest rfl rfl
  exact ⟨by simp [loopBody, dispatch, CJsonToken.getType, ReadLocals.goto],
    h.1, h.2.1, h.2.2.1, h.2.2.2, by decide, by decide, by decide, by decide, by decide, rfl⟩

/-! ### A repeated attribute -/

theorem extractValue_repeated (E : Collaborators) (self : CJson) (t : CJsonToken) (v : Scratch)
    (h : self.m_isAttrAlreadyRead.read self.m_exceptedAttributeType = true) :
    (extractValue E self t v).1 = false := by
  obtain ⟨cur, ⟨fi, fn, fla, flo, fty, fd⟩, et, ea⟩ := self
  cases ea <;> simp only [AttrFlags.read] at h <;> subst h <;> cases t <;>
    simp [extractValue, flagInvalid, CJsonToken.asString, CJsonToken.asNumber]

theorem loopBody_VALUE_repeated (E : Collaborators) (l : ReadLocals) (t : CJsonToken)
    (hs : l.currentState = WAITING_FOR_VALUE) (he : l.error = JSON_ERR_NO)
    (h : l.self.m_isAttrAlreadyRead.read l.self.m_exceptedAttributeType = true) :
    (loopBody E l t).error = JSON_ERR_EXPECT_ATTR_VALUE ∧ (loopBody E l t).vars = l.vars ∧
    (loopBody E l t).waypointDb = l.waypointDb ∧ (loopBody E l t).poiDb = l.poiDb := by
  have hx := extractValue_repeated E l.self t l.vars h
  have hv : (extractValue E l.self t l.vars).2.2 = l.vars := by
    obtain ⟨self, ev, pev, cs, ps, er, vars, wdb, pdb, c⟩ := l
    obtain ⟨cur, ⟨fi, fn, fla, flo, fty, fd⟩, et, ea⟩ := self
    cases ea <;> simp only [AttrFlags.read] at h <;> subst h <;> cases t <;>
      simp [extractValue, flagInvalid, CJsonToken.asString, CJsonToken.asNumber]
  by_cases hk : t.getType = l.self.m_exceptedTokenType
  · simp [loopBody, dispatch, hs, he, hk, hx, hv]
  · simp [loopBody, dispatch, hs, he, hk]

theorem localsBefore_error_le (E : Collaborators) (l0 : ReadLocals) (input : List CJsonToken)
    (h0 : l0.error = JSON_ERR_NO) (j k : Nat) (hjk : j ≤ k)
    (hok : (localsBefore E l0 input k).error = JSON_ERR_NO) :
    (localsBefore E l0 input j).error = JSON_ERR_NO := by
  induction k with
  | zero =>
    have : j = 0 := by omega
    subst this
    exact hok
  | succ k ih =>
    rcases Nat.lt_or_ge j (k + 1) with hlt | hge
    · exact ih (by omega) (localsBefore_error_of_succ E l0 input k h0 hok)
    · have : j = k + 1 := by omega
      subst this
      exact hok

theorem loopBody_in_object (E : Collaborators) (l : ReadLocals) (t : CJsonToken)
    (hin : l.InObject) (he : l.error = JSON_ERR_NO)
    (he1 : (loopBody E l t).error = JSON_ERR_NO) (hin1 : (loopBody E l t).InObject) :
    (∀ b, l.self.m_isAttrAlreadyRead.read b = true →
      (loopBody E l t).self.m_isAttrAlreadyRead.read b = true) ∧
    (loopBody E l t).waypointDb = l.waypointDb ∧ (loopBody E l t).poiDb = l.poiDb := by
  rcases hin with hs | ⟨hs, -⟩ | hs | ⟨hs, -⟩
  · obtain ⟨-, -, h3, -⟩ := loopBody_of_ATTRIBUTE_NAME E l t hs he he1
    exact ⟨fun b hb => by rw [h3]; exact hb,
      loopBody_dbs_of_not_VALUE E l t (by rw [hs]; decide)⟩
  · obtain ⟨-, h2, -⟩ := loopBody_of_NAME_SEPARATOR E l t hs he he1
    exact ⟨fun b hb => by rw [h2]; exact hb,
      loopBody_dbs_of_not_VALUE E l t (by rw [hs]; decide)⟩
  · obtain ⟨⟨-, -, -, k3, -, -⟩, -, h3⟩ := loopBody_of_VALUE E l t hs he he1
    refine ⟨fun b hb => (k3 b).mpr (Or.inl hb), ?_⟩
    rcases h3 with ⟨h3, -⟩ | ⟨-, -, h4, h5⟩
    · rcases hin1 with h | ⟨h, -⟩ | h | ⟨h, -⟩ <;> rw [h3] at h <;> cases h
    · exact ⟨h4, h5⟩
  · obtain ⟨-, h2, -⟩ := loopBody_of_VALUE_SEPARATOR E l t hs he he1
    exact ⟨fun b hb => by rw [h2]; exact hb,
      loopBody_dbs_of_not_VALUE E l t (by rw [hs]; decide)⟩

theorem run_in_object (E : Collaborators) (l0 : ReadLocals) (input : List CJsonToken)
    (h0 : l0.error = JSON_ERR_NO) (j k : Nat)
    (hstay : StaysInObject E l0 input j k)
    (hok : (localsBefore E l0 input k).error = JSON_ERR_NO) :
    ∀ m, j < m → m ≤ k →
      (∀ b, (localsBefore E l0 input (j + 1)).self.m_isAttrAlreadyRead.read b = true →
        (localsBefore E l0 input m).self.m_isAttrAlreadyRead.read b = true) ∧
      (localsBefore E l0 input m).waypointDb = (localsBefore E l0 input (j + 1)).waypointDb ∧
      (localsBefore E l0 input m).poiDb = (localsBefore E l0 input (j + 1)).poiDb := by
  intro m
  induction m with
  | zero => intro h; omega
  | succ m ih =>
    intro hjm hmk
    rcases Nat.lt_or_ge j m with hlt | hge
    · obtain ⟨a, b, c⟩ := ih hlt (by omega)
      have hem := localsBefore_error_le E l0 input h0 m k (by omega) hok
      have hem1 := localsBefore_error_le E l0 input h0 (m + 1) k hmk hok
      cases hget : input[m]? with
      | none =>
        rw [localsBefore_succ_none E l0 input m hget]
        exact ⟨a, b, c⟩
      | some tok =>
        have hsucc := localsBefore_succ_ok E l0 input m tok h0 hget hem
        have hin1 := hstay (m + 1) hjm hmk
        rw [hsucc] at hem1 hin1 ⊢
        obtain ⟨x, y, z⟩ := loopBody_in_object E _ tok (hstay m hlt (by omega)) hem hem1 hin1
        exact ⟨fun b hb => x b (a b hb), y.trans b, z.trans c⟩
    · have : m = j := by omega
      subst this
      exact ⟨fun b hb => hb, rfl, rfl⟩

/-- C12, amended. When the value of an attribute arrives in `WAITING_FOR_VALUE`
for an attribute that was already captured earlier in the same object (the
object opened at token `j`, the attribute captured at token `i`, the reader
inside the object up to token `k`), the token at `k` raises
`JSON_ERR_EXPECT_ATTR_VALUE`, whatever its kind: the read ends with that step,
the databases are those from before the opening brace of the object, so the
object is not inserted and what was inserted before it stays, and the tokens
after position `k` play no part. An attribute name that comes after the object
is complete meets `WAITING_FOR_DB_OBJECT_END`, where every token but the
closing brace raises `JSON_ERR_EXPECT_DB_OBJECT_END`. -/
theorem readLoop_repeated_attribute (E : Collaborators) (l0 : ReadLocals)
    (input : List CJsonToken) (j i k : Nat) (a : AttributesType) (tok1 tok : CJsonToken)
    (h0 : l0.error = JSON_ERR_NO)
    (hopen : OpensObject E l0 input j) (hstay : StaysInObject E l0 input j k)
    (hji : j < i) (hik : i < k) (hcap : Captures E l0 input i a tok1)
    (hget : input[k]? = some tok)
    (hok : (localsBefore E l0 input k).error = JSON_ERR_NO)
    (hs : (localsBefore E l0 input k).currentState = WAITING_FOR_VALUE)
    (ha : (localsBefore E l0 input k).self.m_exceptedAttributeType = a) :
    (loopBody E (localsBefore E l0 input k) tok).error = JSON_ERR_EXPECT_ATTR_VALUE ∧
    readLoop E l0 input = loopBody E (localsBefore E l0 input k) tok ∧
    (readLoop E l0 input).waypointDb = (localsBefore E l0 input j).waypointDb ∧
    (readLoop E l0 input).poiDb = (localsBefore E l0 input j).poiDb ∧
    (∀ later : List CJsonToken,
      readLoop E l0 (input.take (k + 1) ++ later) = readLoop E l0 input) ∧
    (∀ (l : ReadLocals) (t : CJsonToken), l.currentState = WAITING_FOR_DB_OBJECT_END →
      l.error = JSON_ERR_NO → t ≠ endObject →
      (loopBody E l t).error = JSON_ERR_EXPECT_DB_OBJECT_END) := by
  obtain ⟨c1, c2, c3, c4, c5⟩ := hcap
  have hflag : (localsBefore E l0 input (i + 1)).self.m_isAttrAlreadyRead.read a = true := by
    rw [localsBefore_succ_ok E l0 input i tok1 h0 c1 c2]
    obtain ⟨⟨-, -, -, k3, -, -⟩, -, -⟩ := loopBody_of_VALUE E _ tok1 c3 c2 c5
    exact (k3 a).mpr (Or.inr c4.symm)
  have hstay1 : StaysInObject E l0 input i k := fun m h1 h2 => hstay m (by omega) h2
  have hfk := (run_in_object E l0 input h0 i k hstay1 hok k hik (Nat.le_refl k)).1 a hflag
  rw [← ha] at hfk
  obtain ⟨r1, -, r3, r4⟩ := loopBody_VALUE_repeated E _ tok hs hok hfk
  have hrej : (loopBody E (localsBefore E l0 input k) tok).error ≠ JSON_ERR_NO := by
    rw [r1]; decide
  have hstop := readLoop_stops_at E l0 input k tok h0 hget hok hrej
  have hin : readLoop E l0 input = loopBody E (localsBefore E l0 input k) tok := by
    have := hstop (input.drop (k + 1))
    rwa [List.take_append_drop] at this
  obtain ⟨o1, o2, o3⟩ := hopen
  have hjk : j < k := by omega
  obtain ⟨-, d1, d2⟩ := run_in_object E l0 input h0 j k hstay hok k hjk (Nat.le_refl k)
  have hj1 := localsBefore_succ_ok E l0 input j beginObject h0 o1 o2
  have hdb := loopBody_dbs_of_not_VALUE E (localsBefore E l0 input j) beginObject
    (by rw [o3]; decide)
  rw [hj1] at d1 d2
  refine ⟨r1, hin, ?_, ?_, ?_, ?_⟩
  · rw [hin, r3, d1, hdb.1]
  · rw [hin, r4, d2, hdb.2]
  · intro later
    rw [hstop later, hin]
  · intro l t hs he ht
    cases t <;> simp [loopBody, dispatch, hs, he, CJsonToken.getType] at ht ⊢

/-- Counterexample for C12: on the sample document whose second waypoint object
gives `latitude` twice, the second latitude, token 29, raises
`JSON_ERR_EXPECT_ATTR_VALUE`; the read ends there with the first waypoint
inserted and nothing else, so it is not the case that no error is raised and
that the third waypoint and the point of interest are inserted. -/
theorem readData_repeated_attribute_counterexample :
    (readData sampleCollaborators sampleCJson true repeatedAttributeDocument [] []
        MergeMode.MERGE).run.map
        (fun l => (l.error, l.consumed, l.waypointDb, l.poiDb)) =
      some (JSON_ERR_EXPECT_ATTR_VALUE, 30,
        [{ m_name := "A", m_latitude := 1, m_longitude := 2 }], []) ∧
    ¬ ((readData sampleCollaborators sampleCJson true repeatedAttributeDocument [] []
          MergeMode.MERGE).run.map (fun l => l.error) = some JSON_ERR_NO ∧
      (readData sampleCollaborators sampleCJson true repeatedAttributeDocument [] []
          MergeMode.MERGE).waypointDb =
        [{ m_name := "A", m_latitude := 1, m_longitude := 2 },
         { m_name := "C", m_latitude := 6, m_longitude := 7 }] ∧
      (readData sampleCollaborators sampleCJson true repeatedAttributeDocument [] []
          MergeMode.MERGE).poiDb =
        [{ m_type := 1, m_name := "Mensa", m_description := "canteen", m_latitude := 5,
           m_longitude := 6 }]) := by
  constructor
  · decide
  · decide

/-- Witness for C12, amended: the sample document, its second waypoint object
opened at token 18, `latitude` captured at token 25 and given again at token
29. -/
theorem readLoop_repeated_attribute_witness :
    (loopBody sampleCollaborators
        (localsBefore sampleCollaborators (initialLocals sampleCollaborators sampleCJson [] [])
          repeatedAttributeDocument 29) (numberToken 4)).error = JSON_ERR_EXPECT_ATTR_VALUE ∧
    (readLoop sampleCollaborators (initialLocals sampleCollaborators sampleCJson [] [])
        repeatedAttributeDocument).waypointDb =
      (localsBefore sampleCollaborators (initialLocals sampleCollaborators sampleCJson [] [])
        repeatedAttributeDocument 18).waypointDb ∧
    (readLoop sampleCollaborators (initialLocals sampleCollaborators sampleCJson [] [])
        repeatedAttributeDocument).poiDb =
      (localsBefore sampleCollaborators (initialLocals sampleCollaborators sampleCJson [] [])
        repeatedAttributeDocument 18).poiDb :=
  have h := readLoop_repeated_attribute sampleCollaborators
    (initialLocals sampleCollaborators sampleCJson [] []) repeatedAttributeDocument 18 25 29
    AttributesType.LATITUDE (numberToken 3) (numberToken 4) rfl
    ⟨by decide, by decide, by decide⟩
    (fun m h1 h2 => by
      interval_cases m <;> simp only [ReadLocals.InObject] <;> decide)
    (by decide) (by decide)
    ⟨by decide, by decide, by decide, by decide, by decide⟩
    (by decide) (by decide) (by decide) (by decide)
  ⟨h.1, h.2.2.1, h.2.2.2.1⟩

/-! ### A value that completes an object -/

/-- C24. In `WAITING_FOR_ATTRIBUTE_NAME` a token that is not a string is
skipped: the step changes only the event, the previous event and the count of
consumed tokens, so no error is set and state, previous state, object and
record under construction stay. The step sets an error exactly for a string
that is none of the five attribute names, and the error then is
`JSON_ERR_EXPECT_ATTR_NAME`. On the tokens of `{"waypoints":[{}]}` the read
ends without an error, still in `WAITING_FOR_ATTRIBUTE_NAME`, all eight tokens
consumed and nothing inserted. -/
theorem loopBody_WAITING_FOR_ATTRIBUTE_NAME (E : Collaborators) (l : ReadLocals)
    (t : CJsonToken) (hs : l.currentState = WAITING_FOR_ATTRIBUTE_NAME)
    (he : l.error = JSON_ERR_NO) :
    (t.getType ≠ TokenType.STRING →
      loopBody E l t =
        { l with
          event := t.getType, previousEvent := t.getType, consumed := l.consumed + 1 }) ∧
    ((loopBody E l t).error ≠ JSON_ERR_NO ↔
      ∃ s : String, t = stringToken s ∧
        s ∉ ["name", "latitude", "longitude", "type", "description"]) ∧
    ((loopBody E l t).error = JSON_ERR_NO ∨
      (loopBody E l t).error = JSON_ERR_EXPECT_ATTR_NAME) ∧
    (readData sampleCollaborators sampleCJson true
        [beginObject, stringToken "waypoints", nameSeparator, beginArray, beginObject,
         endObject, endArray, endObject] [] [] MergeMode.MERGE).run.map
        (fun l => (l.error, l.currentState, l.consumed, l.waypointDb, l.poiDb)) =
      some (JSON_ERR_NO, WAITING_FOR_ATTRIBUTE_NAME, 8, [], []) := by
  have key : ∀ s : String, (expectedAttributeValue l.self s).1 = true ↔
      s ∈ ["name", "latitude", "longitude", "type", "description"] := by
    intro s
    simp only [expectedAttributeValue, arributeLUT, expectedAttributeValue.search]
    split_ifs <;> simp_all
  refine ⟨?_, ?_, ?_, by decide⟩
  · intro ht
    cases t <;> simp [loopBody, dispatch, hs, he, CJsonToken.getType] at ht ⊢
  · cases t with
    | stringToken s =>
      by_cases hv : (expectedAttributeValue l.self s).1 = true
      · have hm := (key s).mp hv
        simp [loopBody, dispatch, hs, he, CJsonToken.getType, CJsonToken.asString, hv,
          ReadLocals.goto]
        simp at hm
        tauto
      · have hm : s ∉ ["name", "latitude", "longitude", "type", "description"] :=
          fun h => hv ((key s).mpr h)
        simp [loopBody, dispatch, hs, he, CJsonToken.getType, CJsonToken.asString, hv]
        simpa using hm
    | _ => simp [loopBody, dispatch, hs, he, CJsonToken.getType]
  · cases t with
    | stringToken s =>
      by_cases hv : (expectedAttributeValue l.self s).1 = true
      · simp [loopBody, dispatch, hs, he, CJsonToken.getType, CJsonToken.asString, hv,
          ReadLocals.goto]
      · simp [loopBody, dispatch, hs, he, CJsonToken.getType, CJsonToken.asString, hv]
    | _ => simp [loopBody, dispatch, hs, he, CJsonToken.getType]

/-- Witness for C24: the state reached after the opening brace of the first
object of the waypoint array; a closing brace is skipped there and the string
`"altitude"` is rejected. -/
theorem loopBody_WAITING_FOR_ATTRIBUTE_NAME_witness :
    (sampleLocalsAt 5).currentState = WAITING_FOR_ATTRIBUTE_NAME ∧
    (sampleLocalsAt 5).error = JSON_ERR_NO ∧
    loopBody sampleCollaborators (sampleLocalsAt 5) endObject =
      { sampleLocalsAt 5 with
        event := endObject.getType, previousEvent := endObject.getType,
        consumed := (sampleLocalsAt 5).consumed + 1 } ∧
    (loopBody sampleCollaborators (sampleLocalsAt 5) (stringToken "altitude")).error ≠
      JSON_ERR_NO :=
  ⟨by decide, by decide,
    (loopBody_WAITING_FOR_ATTRIBUTE_NAME sampleCollaborators (sampleLocalsAt 5) endObject
      (by decide) (by decide)).1 (by decide),
    (loopBody_WAITING_FOR_ATTRIBUTE_NAME sampleCollaborators (sampleLocalsAt 5)
      (stringToken "altitude") (by decide) (by decide)).2.1.mpr
      ⟨"altitude", rfl, by decide⟩⟩

/-! ### The fallback branches of the separator states -/

theorem loopBody_separatorsCovered (E : Collaborators) (l : ReadLocals) (t : CJsonToken)
    (he : l.error = JSON_ERR_NO) (h : l.SeparatorsCovered) :
    (loopBody E l t).SeparatorsCovered := by
  unfold ReadLocals.SeparatorsCovered at h ⊢
  cases hcs : l.currentState <;> simp only [hcs] at h <;> cases t <;>
    simp [loopBody, dispatch, hcs, he, CJsonToken.getType, ReadLocals.goto,
      CJsonToken.asString] <;>
    (try split_ifs) <;> simp_all

theorem readLoop_separatorsCovered (E : Collaborators) (input : List CJsonToken) :
    ∀ l : ReadLocals, l.error = JSON_ERR_NO → l.SeparatorsCovered →
      (readLoop E l input).SeparatorsCovered := by
  induction input with
  | nil => intro l _ h; exact h
  | cons t rest ih =>
    intro l he h
    have h1 := loopBody_separatorsCovered E l t he h
    by_cases he1 : (loopBody E l t).error = JSON_ERR_NO
    · rw [readLoop_cons_ok E l t rest he1]
      exact ih _ he1 h1
    · rw [readLoop_cons_err E l t rest he1]
      exact h1

/-- C23. Every configuration the loop of `readData` reaches from its initial
local variables, over any input and after any number of tokens, satisfies: in
`WAITING_FOR_NAME_SEPARATOR` the previous state is `WAITING_FOR_DB_NAME` or
`WAITING_FOR_ATTRIBUTE_NAME`, and in `WAITING_FOR_VALUE_SEPARATOR` the previous
state is `WAITING_FOR_DB_OBJECT_END` or `WAITING_FOR_VALUE`, or the previous
event is `END_ARRAY`. Hence, as long as no error is set, a name separator that
arrives in `WAITING_FOR_NAME_SEPARATOR` and a value separator that arrives in
`WAITING_FOR_VALUE_SEPARATOR` are accepted: the fallback branches that raise
`JSON_ERR_EXPECT_NAME_SEPARATOR` and `JSON_ERR_EXPECT_VALUE_SEPARATOR` for
them are not taken. -/
theorem readData_separators_never_rejected (E : Collaborators) (self : CJson)
    (waypointDb : CWpDatabase) (poiDb : CPoiDatabase) (input : List CJsonToken) (k : Nat)
    (hok : (localsBefore E (initialLocals E self waypointDb poiDb) input k).error =
      JSON_ERR_NO) :
    (localsBefore E (initialLocals E self waypointDb poiDb) input k).SeparatorsCovered ∧
    (readLoop E (initialLocals E self waypointDb poiDb) input).SeparatorsCovered ∧
    ((localsBefore E (initialLocals E self waypointDb poiDb) input k).currentState =
        WAITING_FOR_NAME_SEPARATOR →
      (loopBody E (localsBefore E (initialLocals E self waypointDb poiDb) input k)
        nameSeparator).error = JSON_ERR_NO) ∧
    ((localsBefore E (initialLocals E self waypointDb poiDb) input k).currentState =
        WAITING_FOR_VALUE_SEPARATOR →
      (loopBody E (localsBefore E (initialLocals E self waypointDb poiDb) input k)
        valueSeparator).error = JSON_ERR_NO) := by
  have h0 : (initialLocals E self waypointDb poiDb).SeparatorsCovered := by
    constructor <;> intro h <;> cases h
  have hk : (localsBefore E (initialLocals E self waypointDb poiDb) input k).SeparatorsCovered :=
    readLoop_separatorsCovered E _ _ rfl h0
  refine ⟨hk, readLoop_separatorsCovered E _ _ rfl h0, ?_, ?_⟩
  · intro hs
    rcases hk.1 hs with hp | hp <;>
      simp [loopBody, dispatch, hs, hok, hp, CJsonToken.getType, ReadLocals.goto]
  · intro hs
    by_cases h1 : (localsBefore E (initialLocals E self waypointDb poiDb) input
        k).previousState = WAITING_FOR_DB_OBJECT_END
    · simp [loopBody, dispatch, hs, hok, h1, CJsonToken.getType, ReadLocals.goto]
    · by_cases h2 : (localsBefore E (initialLocals E self waypointDb poiDb) input
          k).previousState = WAITING_FOR_VALUE
      · simp [loopBody, dispatch, hs, hok, h2, CJsonToken.getType, ReadLocals.goto]
      · rcases hk.2 hs with hp | hp | hp
        · exact absurd hp h1
        · exact absurd hp h2
        · simp [loopBody, dispatch, hs, hok, h1, h2, hp, CJsonToken.getType, ReadLocals.goto]

/-- Witness for C23: in the run over the sample document the reader waits for a
name separator before token 2 and for a value separator before token 17. -/
theorem readData_separators_never_rejected_witness :
    (sampleLocalsAt 2).currentState = WAITING_FOR_NAME_SEPARATOR ∧
    (loopBody sampleCollaborators (sampleLocalsAt 2) nameSeparator).error = JSON_ERR_NO ∧
    (sampleLocalsAt 17).currentState = WAITING_FOR_VALUE_SEPARATOR ∧
    (loopBody sampleCollaborators (sampleLocalsAt 17) valueSeparator).error = JSON_ERR_NO ∧
    (sampleLocalsAt 17).SeparatorsCovered :=
  ⟨by decide,
    (readData_separators_never_rejected sampleCollaborators sampleCJson [] []
      specExampleDocument 2 (by decide)).2.2.1 (by decide),
    by decide,
    (readData_separators_never_rejected sampleCollaborators sampleCJson [] []
      specExampleDocument 17 (by decide)).2.2.2 (by decide),
    (readData_separators_never_rejected sampleCollaborators sampleCJson [] []
      specExampleDocument 17 (by decide)).1⟩

/-! ### A record put together from two pairs of braces -/

/-- C10 (the code departs from the specification). On the tokens of
`{"waypoints":[{"name":"A",},{"latitude":1,"longitude":2}]}` the reader waits
for an attribute name before the closing brace at token 9, and the tokens 9,
10 and 11, the closing brace, the comma and the next opening brace, are
skipped there: the state stays, no error is set and the flags and the record
under construction are kept. The name `A`, captured at token 7 inside the
first pair of braces, is therefore still held when the value of `longitude`
at token 18, inside the second pair of braces, completes the attributes: that
step hands the waypoint `A` at (1, 2) to the waypoint database. The read ends
without an error, with this one waypoint inserted, although neither pair of
braces holds all three mandatory attributes. -/
theorem readData_record_across_objects :
    splitObjectDocument[4]? = some beginObject ∧
    splitObjectDocument[9]? = some endObject ∧
    splitObjectDocument[11]? = some beginObject ∧
    splitObjectDocument[19]? = some endObject ∧
    Captures sampleCollaborators (initialLocals sampleCollaborators sampleCJson [] [])
      splitObjectDocument 7 AttributesType.NAME (stringToken "A") ∧
    (∀ m : Fin 4,
      (localsBefore sampleCollaborators (initialLocals sampleCollaborators sampleCJson [] [])
          splitObjectDocument (9 + m.val)).currentState = WAITING_FOR_ATTRIBUTE_NAME ∧
      (localsBefore sampleCollaborators (initialLocals sampleCollaborators sampleCJson [] [])
          splitObjectDocument (9 + m.val)).error = JSON_ERR_NO ∧
      (localsBefore sampleCollaborators (initialLocals sampleCollaborators sampleCJson [] [])
          splitObjectDocument (9 + m.val)).vars.name = "A" ∧
      (localsBefore sampleCollaborators (initialLocals sampleCollaborators sampleCJson [] [])
          splitObjectDocument (9 + m.val)).self.m_isAttrAlreadyRead.NAME = true) ∧
    Captures sampleCollaborators (initialLocals sampleCollaborators sampleCJson [] [])
      splitObjectDocument 14 AttributesType.LATITUDE (numberToken 1) ∧
    HandsWaypoint sampleCollaborators (initialLocals sampleCollaborators sampleCJson [] [])
      splitObjectDocument 18 (numberToken 2)
      { m_name := "A", m_latitude := 1, m_longitude := 2 } ∧
    (readData sampleCollaborators sampleCJson true splitObjectDocument [] []
        MergeMode.MERGE).run.map
        (fun l => (l.error, l.currentState, l.consumed, l.waypointDb, l.poiDb)) =
      some (JSON_ERR_NO, WAITING_FOR_COMPLETION, 22,
        [{ m_name := "A", m_latitude := 1, m_longitude := 2 }], []) := by
  refine ⟨by decide, by decide, by decide, by decide,
    ⟨by decide, by decide, by decide, by decide, by decide⟩, by decide,
    ⟨by decide, by decide, by decide, by decide, by decide⟩,
    ⟨by decide, by decide, by decide⟩, by decide⟩

/-! ### A completed record with an empty name -/

theorem lexJson_string (rd : String → Rat) (s : List Char) :
    ∀ (acc rest : List Char),
      (s.all fun c => c != Char.ofNat 34 && c != Char.ofNat 92) = true →
      lexJson rd (LexMode.inString acc false) (s ++ Char.ofNat 34 :: rest) =
        stringToken (String.mk (acc.reverse ++ s)) :: lexJson rd LexMode.outside rest := by
  induction s with
  | nil => intro acc rest _; simp [lexJson]
  | cons c s ih =>
    intro acc rest h
    simp only [List.all_cons, Bool.and_eq_true, bne_iff_ne, ne_eq] at h
    obtain ⟨⟨h1, h2⟩, h3⟩ := h
    have hstep : lexJson rd (LexMode.inString acc false) ((c :: s) ++ Char.ofNat 34 :: rest) =
        lexJson rd (LexMode.inString (c :: acc) false) (s ++ Char.ofNat 34 :: rest) := by
      rw [List.cons_append, lexJson]
      simp only [if_neg h1, if_neg h2]
    rw [hstep, ih (c :: acc) rest h3]
    simp

theorem lexJson_inNumber (rd : String → Rat) (s : List Char) :
    ∀ (acc : List Char) (c : Char) (rest : List Char),
      s.all isNumberChar = true → isNumberChar c = false →
      lexJson rd (LexMode.inNumber acc) (s ++ c :: rest) =
        numberToken (rd (String.mk (acc.reverse ++ s))) ::
          lexJson rd LexMode.outside (c :: rest) := by
  induction s with
  | nil =>
    intro acc c rest _ hc
    simp [lexJson, hc]
  | cons d s ih =>
    intro acc c rest h hc
    simp only [List.all_cons, Bool.and_eq_true] at h
    have hstep : lexJson rd (LexMode.inNumber acc) ((d :: s) ++ c :: rest) =
        lexJson rd (LexMode.inNumber (d :: acc)) (s ++ c :: rest) := by
      rw [List.cons_append, lexJson]
      simp only [h.1, if_true]
    rw [hstep, ih (d :: acc) c rest h.2 hc]
    simp

theorem lexOutside_number_start (d : Char) (hd : (d == '-' || d.isDigit) = true) :
    lexOutside d = LexStep.enter (LexMode.inNumber [d]) := by
  have hd1 : d = '-' ∨ d.isDigit = true := by
    simpa using hd
  unfold lexOutside
  split_ifs with h1 h2 h3 h4 h5 h6 h7
  · subst h1; exact absurd hd (by decide)
  · subst h2; exact absurd hd (by decide)
  · subst h3; exact absurd hd (by decide)
  · subst h4; exact absurd hd (by decide)
  · subst h5; exact absurd hd (by decide)
  · subst h6; exact absurd hd (by decide)
  · subst h7; exact absurd hd (by decide)
  · rfl

theorem lexJson_number (rd : String → Rat) (str : String) (c : Char) (rest : List Char)
    (h : isNumberText str = true) (hc : isNumberChar c = false) :
    lexJson rd LexMode.outside (str.data ++ c :: rest) =
      numberToken (rd str) :: lexJson rd LexMode.outside (c :: rest) := by
  obtain ⟨data⟩ := str
  cases data with
  | nil => simp [isNumberText] at h
  | cons d r =>
    simp only [isNumberText, Bool.and_eq_true] at h
    have hstep : lexJson rd LexMode.outside ((d :: r) ++ c :: rest) =
        lexJson rd (LexMode.inNumber [d]) (r ++ c :: rest) := by
      rw [List.cons_append, lexJson, lexOutside_number_start d h.1]
    show lexJson rd LexMode.outside ((d :: r) ++ c :: rest) = _
    rw [hstep, lexJson_inNumber rd r [d] c rest h.2 hc]
    simp

theorem lexJson_plain_comma (rd : String → Rat) (s : String) (r : List Char)
    (h : isPlainString s = true) :
    lexJson rd (LexMode.inString [] false) (s.data ++ ("\",\n".data ++ r)) =
      stringToken s :: lexJson rd LexMode.outside (",\n".data ++ r) :=
  lexJson_string rd s.data [] (",\n".data ++ r) h

theorem lexJson_plain_newline (rd : String → Rat) (s : String) (r : List Char)
    (h : isPlainString s = true) :
    lexJson rd (LexMode.inString [] false) (s.data ++ ("\"\n".data ++ r)) =
      stringToken s :: lexJson rd LexMode.outside ("\n".data ++ r) :=
  lexJson_string rd s.data [] ("\n".data ++ r) h

theorem lexJson_number_comma (rd : String → Rat) (s : String) (r : List Char)
    (h : isNumberText s = true) :
    lexJson rd LexMode.outside (s.data ++ (",\n".data ++ r)) =
      numberToken (rd s) :: lexJson rd LexMode.outside (",\n".data ++ r) :=
  lexJson_number rd s ',' ("\n".data ++ r) h (by decide)

theorem lexJson_number_newline (rd : String → Rat) (s : String) (r : List Char)
    (h : isNumberText s = true) :
    lexJson rd LexMode.outside (s.data ++ ("\n".data ++ r)) =
      numberToken (rd s) :: lexJson rd LexMode.outside ("\n".data ++ r) :=
  lexJson_number rd s '\n' r h (by decide)

theorem lexJson_open_name (rd : String → Rat) (r : List Char) :
    lexJson rd LexMode.outside ("\t\x7b\n".data ++ ("\t\t\"name\": \"".data ++ r)) =
      [beginObject, stringToken "name", nameSeparator] ++
        lexJson rd (LexMode.inString [] false) r := rfl

theorem lexJson_latitude (rd : String → Rat) (r : List Char) :
    lexJson rd LexMode.outside (",\n".data ++ ("\t\t\"latitude\": ".data ++ r)) =
      [valueSeparator, stringToken "latitude", nameSeparator] ++
        lexJson rd LexMode.outside r := rfl

theorem lexJson_longitude (rd : String → Rat) (r : List Char) :
    lexJson rd LexMode.outside (",\n".data ++ ("\t\t\"longitude\": ".data ++ r)) =
      [valueSeparator, stringToken "longitude", nameSeparator] ++
        lexJson rd LexMode.outside r := rfl

theorem lexJson_type (rd : String → Rat) (r : List Char) :
    lexJson rd LexMode.outside (",\n".data ++ ("\t\t\"type\": \"".data ++ r)) =
      [valueSeparator, stringToken "type", nameSeparator] ++
        lexJson rd (LexMode.inString [] false) r := rfl

theorem lexJson_description (rd : String → Rat) (r : List Char) :
    lexJson rd LexMode.outside (",\n".data ++ ("\t\t\"description\": \"".data ++ r)) =
      [valueSeparator, stringToken "description", nameSeparator] ++
        lexJson rd (LexMode.inString [] false) r := rfl

theorem lexJson_close_more (rd : String → Rat) (r : List Char) :
    lexJson rd LexMode.outside ("\n".data ++ ("\t\x7d,\n".data ++ r)) =
      [endObject, valueSeparator] ++ lexJson rd LexMode.outside r := rfl

theorem lexJson_close_last (rd : String → Rat) (r : List Char) :
    lexJson rd LexMode.outside ("\n".data ++ ("\t\x7d\n".data ++ r)) =
      [endObject] ++ lexJson rd LexMode.outside r := rfl

theorem lexJson_writeWaypointText (rd : String → Rat) (printDouble : Rat → String)
    (wp : CWaypoint) (isLast : Bool) (r : List Char)
    (h : wp.Writable printDouble = true) :
    lexJson rd LexMode.outside ((writeWaypointText printDouble wp isLast).data ++ r) =
      writeWaypoint (wp.asWritten rd printDouble) isLast ++ lexJson rd LexMode.outside r := by
  simp only [CWaypoint.Writable, Bool.and_eq_true] at h
  obtain ⟨⟨h1, h2⟩, h3⟩ := h
  cases isLast
  · simp only [writeWaypointText, String.data_append, List.append_assoc, Bool.not_false,
      if_true]
    rw [lexJson_open_name, lexJson_plain_comma rd _ _ h1, lexJson_latitude,
      lexJson_number_comma rd _ _ h2, lexJson_longitude, lexJson_number_newline rd _ _ h3,
      lexJson_close_more]
    simp [writeWaypoint, CWaypoint.asWritten]
  · simp only [writeWaypointText, String.data_append, List.append_assoc, Bool.not_true,
      Bool.false_eq_true, if_false]
    rw [lexJson_open_name, lexJson_plain_comma rd _ _ h1, lexJson_latitude,
      lexJson_number_comma rd _ _ h2, lexJson_longitude, lexJson_number_newline rd _ _ h3,
      lexJson_close_last]
    simp [writeWaypoint, CWaypoint.asWritten]

theorem lexJson_writePoiText (E : Collaborators) (rd : String → Rat)
    (printDouble : Rat → String) (poi : CPOI) (isLast : Bool) (r : List Char)
    (h : poi.Writable E printDouble = true) :
    lexJson rd LexMode.outside ((writePoiText E printDouble poi isLast).data ++ r) =
      writePoi E (poi.asWritten rd printDouble) isLast ++ lexJson rd LexMode.outside r := by
  simp only [CPOI.Writable, Bool.and_eq_true] at h
  obtain ⟨⟨⟨⟨h1, h2⟩, h3⟩, h4⟩, h5⟩ := h
  cases isLast
  · simp only [writePoiText, String.data_append, List.append_assoc, Bool.not_false, if_true]
    rw [lexJson_open_name, lexJson_plain_comma rd _ _ h1, lexJson_latitude,
      lexJson_number_comma rd _ _ h4, lexJson_longitude, lexJson_number_comma rd _ _ h5,
      lexJson_type, lexJson_plain_comma rd _ _ h2, lexJson_description,
      lexJson_plain_newline rd _ _ h3, lexJson_close_more]
    simp [writePoi, CPOI.asWritten]
  · simp only [writePoiText, String.data_append, List.append_assoc, Bool.not_true,
      Bool.false_eq_true, if_false]
    rw [lexJson_open_name, lexJson_plain_comma rd _ _ h1, lexJson_latitude,
      lexJson_number_comma rd _ _ h4, lexJson_longitude, lexJson_number_comma rd _ _ h5,
      lexJson_type, lexJson_plain_comma rd _ _ h2, lexJson_description,
      lexJson_plain_newline rd _ _ h3, lexJson_close_last]
    simp [writePoi, CPOI.asWritten]

theorem lexJson_writeWaypointsText (rd : String → Rat) (printDouble : Rat → String)
    (Waypoints : List CWaypoint) (r : List Char)
    (h : ∀ wp ∈ Waypoints, wp.Writable printDouble = true) :
    lexJson rd LexMode.outside ((writeWaypointsText printDouble Waypoints).data ++ r) =
      writeWaypoints (Waypoints.map (CWaypoint.asWritten rd printDouble)) ++
        lexJson rd LexMode.outside r := by
  induction Waypoints with
  | nil => simp [writeWaypointsText, writeWaypoints]
  | cons wp rest ih =>
    simp only [writeWaypointsText, String.data_append, List.append_assoc, List.map_cons,
      writeWaypoints]
    rw [lexJson_writeWaypointText rd printDouble wp _ _ (h wp (List.mem_cons_self wp rest)),
      ih (fun x hx => h x (List.mem_cons_of_mem wp hx))]
    cases rest <;> simp

theorem lexJson_writePoisText (E : Collaborators) (rd : String → Rat)
    (printDouble : Rat → String) (Pois : List CPOI) (r : List Char)
    (h : ∀ poi ∈ Pois, poi.Writable E printDouble = true) :
    lexJson rd LexMode.outside ((writePoisText E printDouble Pois).data ++ r) =
      writePois E (Pois.map (CPOI.asWritten rd printDouble)) ++
        lexJson rd LexMode.outside r := by
  induction Pois with
  | nil => simp [writePoisText, writePois]
  | cons poi rest ih =>
    simp only [writePoisText, String.data_append, List.append_assoc, List.map_cons,
      writePois]
    rw [lexJson_writePoiText E rd printDouble poi _ _ (h poi (List.mem_cons_self poi rest)),
      ih (fun x hx => h x (List.mem_cons_of_mem poi hx))]
    cases rest <;> simp

theorem lexJson_head (rd : String → Rat) (r : List Char) :
    lexJson rd LexMode.outside ("\x7b\n".data ++ ("\"waypoints\": [\n".data ++ r)) =
      [beginObject, stringToken "waypoints", nameSeparator, beginArray] ++
        lexJson rd LexMode.outside r := rfl

theorem lexJson_middle (rd : String → Rat) (r : List Char) :
    lexJson rd LexMode.outside ("],\n".data ++ ("\"pois\": [\n".data ++ r)) =
      [endArray, valueSeparator, stringToken "pois", nameSeparator, beginArray] ++
        lexJson rd LexMode.outside r := rfl

theorem lexJson_tail (rd : String → Rat) :
    lexJson rd LexMode.outside "]\n\x7d\n".data = [endArray, endObject] := rfl

theorem jsonTokens_writeDataText (E : Collaborators) (rd : String → Rat)
    (printDouble : Rat → String) (Waypoints : List CWaypoint) (Pois : List CPOI)
    (hW : ∀ wp ∈ Waypoints, wp.Writable printDouble = true)
    (hP : ∀ poi ∈ Pois, poi.Writable E printDouble = true) :
    jsonTokens rd (writeDataText E printDouble Waypoints Pois) =
      writeData E (Waypoints.map (CWaypoint.asWritten rd printDouble))
        (Pois.map (CPOI.asWritten rd printDouble)) := by
  simp only [jsonTokens, writeDataText, String.data_append, List.append_assoc]
  rw [lexJson_head, lexJson_writeWaypointsText rd printDouble Waypoints _ hW, lexJson_middle,
    lexJson_writePoisText E rd printDouble Pois _ hP, lexJson_tail]
  simp [writeData]

/-- C17, amended. For all databases whose names, category names and
descriptions hold no double quote and no backslash, and whose coordinates are
printed like numbers, the text `writeData` emits reads as the tokens of
`{ "waypoints" : [ ... ] , "pois" : [ ... ] }`, where the content of each array
is the objects of the stored entries, one per entry and in the order of the
database, joined by single commas: a comma stands between two consecutive
objects only, none follows the last object, and an empty database gives an
empty array. The object of an entry holds its strings as stored and its
numbers as they are read back from their printed form. -/
theorem writeDataText_shape (E : Collaborators) (readNumber : String → Rat)
    (printDouble : Rat → String) (Waypoints : List CWaypoint) (Pois : List CPOI)
    (hW : ∀ wp ∈ Waypoints, wp.Writable printDouble = true)
    (hP : ∀ poi ∈ Pois, poi.Writable E printDouble = true) :
    jsonTokens readNumber (writeDataText E printDouble Waypoints Pois) =
      [beginObject, stringToken "waypoints", nameSeparator, beginArray] ++
      List.intercalate [valueSeparator]
        (Waypoints.map fun wp =>
          [beginObject,
           stringToken "name", nameSeparator, stringToken wp.m_name, valueSeparator,
           stringToken "latitude", nameSeparator,
           numberToken (readNumber (printDouble wp.m_latitude)), valueSeparator,
           stringToken "longitude", nameSeparator,
           numberToken (readNumber (printDouble wp.m_longitude)), endObject]) ++
      [endArray, valueSeparator, stringToken "pois", nameSeparator, beginArray] ++
      List.intercalate [valueSeparator]
        (Pois.map fun poi =>
          [beginObject,
           stringToken "name", nameSeparator, stringToken poi.m_name, valueSeparator,
           stringToken "latitude", nameSeparator,
           numberToken (readNumber (printDouble poi.m_latitude)), valueSeparator,
           stringToken "longitude", nameSeparator,
           numberToken (readNumber (printDouble poi.m_longitude)), valueSeparator,
           stringToken "type", nameSeparator, stringToken (E.getPoiTypeName poi.m_type),
           valueSeparator,
           stringToken "description", nameSeparator, stringToken poi.m_description,
           endObject]) ++
      [endArray, endObject] ∧
    jsonTokens readNumber (writeDataText E printDouble [] []) =
      [beginObject, stringToken "waypoints", nameSeparator, beginArray, endArray,
       valueSeparator, stringToken "pois", nameSeparator, beginArray, endArray, endObject] := by
  constructor
  · rw [jsonTokens_writeDataText E readNumber printDouble Waypoints Pois hW hP, writeData,
      writeWaypoints_intercalate, writePois_intercalate, List.map_map, List.map_map]
    simp only [List.append_assoc, List.cons_append, List.nil_append]
    rfl
  · rfl

/-- Counterexample for C17. The database with the one waypoint whose name is
`a"},{"name":"b` is written as a text with two objects and a comma in the
`waypoints` array: three opening braces in all, for one entry. The database
with the one waypoint whose name ends with a backslash is written as a text in
which the string of the name does not end where the name ends, and the reading
ends inside the object. Neither text has the shape with one object for the one
entry. -/
theorem writeDataText_quoted_name_counterexample :
    jsonTokens sampleReadNumber
        (writeDataText sampleCollaborators samplePrintDouble [sampleQuotedWaypoint] []) =
      [beginObject, stringToken "waypoints", nameSeparator, beginArray,
       beginObject, stringToken "name", nameSeparator, stringToken "a", endObject,
       valueSeparator,
       beginObject, stringToken "name", nameSeparator, stringToken "b", valueSeparator,
       stringToken "latitude", nameSeparator, numberToken 1, valueSeparator,
       stringToken "longitude", nameSeparator, numberToken 2, endObject,
       endArray, valueSeparator, stringToken "pois", nameSeparator, beginArray, endArray,
       endObject] ∧
    (jsonTokens sampleReadNumber
        (writeDataText sampleCollaborators samplePrintDouble [sampleQuotedWaypoint] [])).count
        beginObject = 3 ∧
    jsonTokens sampleReadNumber
        (writeDataText sampleCollaborators samplePrintDouble [sampleQuotedWaypoint] []) ≠
      [beginObject, stringToken "waypoints", nameSeparator, beginArray] ++
      List.intercalate [valueSeparator]
        ([sampleQuotedWaypoint].map fun wp =>
          [beginObject,
           stringToken "name", nameSeparator, stringToken wp.m_name, valueSeparator,
           stringToken "latitude", nameSeparator,
           numberToken (sampleReadNumber (samplePrintDouble wp.m_latitude)), valueSeparator,
           stringToken "longitude", nameSeparator,
           numberToken (sampleReadNumber (samplePrintDouble wp.m_longitude)), endObject]) ++
      [endArray, valueSeparator, stringToken "pois", nameSeparator, beginArray] ++
      [endArray, endObject] ∧
    jsonTokens sampleReadNumber
        (writeDataText sampleCollaborators samplePrintDouble [sampleBackslashWaypoint] []) =
      [beginObject, stringToken "waypoints", nameSeparator, beginArray,
       beginObject, stringToken "name", nameSeparator, stringToken "a\\\",\n\t\t"] := by
  refine ⟨by decide, by decide, by decide, by decide⟩

/-- Witness for C17, amended: the sample databases, two waypoints and three
points of interest with plain strings. -/
theorem writeDataText_shape_witness :
    (∀ wp ∈ sampleWaypointDatabase, wp.Writable samplePrintDouble = true) ∧
    (∀ poi ∈ samplePoiDatabase, poi.Writable sampleCollaborators samplePrintDouble = true) ∧
    jsonTokens sampleReadNumber
        (writeDataText sampleCollaborators samplePrintDouble sampleWaypointDatabase
          samplePoiDatabase) =
      [beginObject, stringToken "waypoints", nameSeparator, beginArray] ++
      List.intercalate [valueSeparator]
        (sampleWaypointDatabase.map fun wp =>
          [beginObject,
           stringToken "name", nameSeparator, stringToken wp.m_name, valueSeparator,
           stringToken "latitude", nameSeparator,
           numberToken (sampleReadNumber (samplePrintDouble wp.m_latitude)), valueSeparator,
           stringToken "longitude", nameSeparator,
           numberToken (sampleReadNumber (samplePrintDouble wp.m_longitude)), endObject]) ++
      [endArray, valueSeparator, stringToken "pois", nameSeparator, beginArray] ++
      List.intercalate [valueSeparator]
        (samplePoiDatabase.map fun poi =>
          [beginObject,
           stringToken "name", nameSeparator, stringToken poi.m_name, valueSeparator,
           stringToken "latitude", nameSeparator,
           numberToken (sampleReadNumber (samplePrintDouble poi.m_latitude)), valueSeparator,
           stringToken "longitude", nameSeparator,
           numberToken (sampleReadNumber (samplePrintDouble poi.m_longitude)), valueSeparator,
           stringToken "type", nameSeparator,
           stringToken (sampleCollaborators.getPoiTypeName poi.m_type), valueSeparator,
           stringToken "description", nameSeparator, stringToken poi.m_description,
           endObject]) ++
      [endArray, endObject] :=
  ⟨by decide, by decide,
    (writeDataText_shape sampleCollaborators sampleReadNumber samplePrintDouble
      sampleWaypointDatabase samplePoiDatabase (by decide) (by decide)).1⟩

/-- The defect of the empty array on the written text itself: for an empty
waypoint database, whatever the points of interest and whatever their strings,
the text `writeData` emits reads as tokens that begin `{ "waypoints" : [ ]`,
and the reader rejects the closing bracket with
`JSON_ERR_EXPECT_DB_OBJECT_BEGIN`, the databases being as at the start. -/
theorem readLoop_writeDataText_empty_waypoints (E : Collaborators) (rd : String → Rat)
    (printDouble : Rat → String) (self : CJson) (Pois : List CPOI)
    (waypointDb : CWpDatabase) (poiDb : CPoiDatabase) :
    (∃ rest : List CJsonToken,
      jsonTokens rd (writeDataText E printDouble [] Pois) =
        [beginObject, stringToken "waypoints", nameSeparator, beginArray, endArray] ++ rest) ∧
    (readLoop E (initialLocals E self waypointDb poiDb)
      (jsonTokens rd (writeDataText E printDouble [] Pois))).error =
        JSON_ERR_EXPECT_DB_OBJECT_BEGIN ∧
    (readLoop E (initialLocals E self waypointDb poiDb)
      (jsonTokens rd (writeDataText E printDouble [] Pois))).waypointDb = waypointDb ∧
    (readLoop E (initialLocals E self waypointDb poiDb)
      (jsonTokens rd (writeDataText E printDouble [] Pois))).poiDb = poiDb := by
  have htok : ∃ rest : List CJsonToken,
      jsonTokens rd (writeDataText E printDouble [] Pois) =
        [beginObject, stringToken "waypoints", nameSeparator, beginArray] ++
          endArray :: rest := by
    refine ⟨valueSeparator :: lexJson rd LexMode.outside
      ("\"pois\": [\n".data ++ ((writePoisText E printDouble Pois).data ++ "]\n\x7d\n".data)), ?_⟩
    simp only [jsonTokens, writeDataText, writeWaypointsText, String.data_append,
      List.append_assoc]
    rw [lexJson_head]
    rfl
  obtain ⟨rest, hrest⟩ := htok
  have hhead := readLoop_document_head E self waypointDb poiDb
  have h1 := readLoop_endArray_in_object_begin E _ _ _ _ rest hhead
  rw [← readLoop_append E _ _ _ hhead.2.2.1, ← hrest] at h1
  exact ⟨⟨rest, by rw [hrest]; simp⟩, h1.1, h1.2.2.1, h1.2.2.2.1⟩

end CJson

namespace CRoute

/-! ### The route -/

theorem asCWaypoint_getName (e : CourseEntry) :
    ∃ pWp : CWaypoint, e.asCWaypoint = some pWp ∧ pWp.getName = e.getName := by
  cases e with
  | waypoint wp => exact ⟨wp, rfl, rfl⟩
  | poi p => exact ⟨p.toCWaypoint, rfl, rfl⟩

theorem addPoi_loop_none (afterWp : String) (pPoi : CPOI) (toVisit : List CourseEntry) :
    ∀ visited : List CourseEntry, (∀ x ∈ toVisit, x.getName ≠ afterWp) →
      addPoi.loop afterWp pPoi toVisit visited = none := by
  induction toVisit with
  | nil => intro visited _; rfl
  | cons e rest ih =>
    intro visited h
    obtain ⟨pWp, h1, h2⟩ := asCWaypoint_getName e
    have hne : ¬ afterWp = pWp.getName := by
      rw [h2]
      exact fun hc => h e (List.mem_cons_self e rest) hc.symm
    simp only [addPoi.loop, h1, if_neg hne]
    exact ih _ (fun x hx => h x (List.mem_cons_of_mem e hx))

theorem addPoi_loop_some (afterWp : String) (pPoi : CPOI) (e : CourseEntry)
    (toVisit passed : List CourseEntry) (he : e.getName = afterWp) :
    ∀ visited : List CourseEntry, (∀ x ∈ passed, x.getName ≠ afterWp) →
      addPoi.loop afterWp pPoi (passed ++ e :: toVisit) visited =
        some (toVisit.reverse ++ e :: CourseEntry.poi pPoi :: (passed.reverse ++ visited)) := by
  induction passed with
  | nil =>
    intro visited _
    obtain ⟨pWp, h1, h2⟩ := asCWaypoint_getName e
    have heq : afterWp = pWp.getName := by rw [h2, he]
    simp only [List.nil_append, addPoi.loop, h1, if_pos heq, List.reverse_nil]
  | cons x rest ih =>
    intro visited h
    obtain ⟨pWp, h1, h2⟩ := asCWaypoint_getName x
    have hne : ¬ afterWp = pWp.getName := by
      rw [h2]
      exact fun hc => h x (List.mem_cons_self x rest) hc.symm
    have hstep : addPoi.loop afterWp pPoi ((x :: rest) ++ e :: toVisit) visited =
        addPoi.loop afterWp pPoi (rest ++ e :: toVisit) (x :: visited) := by
      rw [List.cons_append, addPoi.loop]
      simp only [h1, if_neg hne]
    rw [hstep, ih _ (fun y hy => h y (List.mem_cons_of_mem x hy))]
    simp

/-- C21 (the code departs from the specification). With the database connected
and `namePoi` found in it, `addPoi` inserts the point of interest right behind
the last entry of the course whose name is `afterWp`, be that entry a waypoint
or a point of interest: the cast that is to tell waypoints apart succeeds for
every entry. All other entries keep their order. With no entry of that name,
with no database connected, or with `namePoi` not found, the route stays as it
is. On the sample route, whose second entry is a point of interest named `A`
like the waypoint before it, the new entry ends up behind that point of
interest and not behind the waypoint `A`. -/
theorem addPoi_after_last_entry_named (R : RouteCollaborators) (self : CRoute)
    (namePoi afterWp : String) (db : CPoiDatabase) (pPoi : CPOI)
    (hdb : self.m_pPoiDatabase = some db) (hp : R.getPointerToPoi db namePoi = some pPoi) :
    (∀ (pre post : List CourseEntry) (e : CourseEntry),
      self.m_Course = pre ++ e :: post → e.getName = afterWp →
      (∀ x ∈ post, x.getName ≠ afterWp) →
      addPoi R self namePoi afterWp =
        { self with m_Course := pre ++ e :: CourseEntry.poi pPoi :: post }) ∧
    ((∀ x ∈ self.m_Course, x.getName ≠ afterWp) → addPoi R self namePoi afterWp = self) ∧
    addPoi R { self with m_pPoiDatabase := none } namePoi afterWp =
      { self with m_pPoiDatabase := none } ∧
    (∀ other : String, R.getPointerToPoi db other = none →
      addPoi R self other afterWp = self) ∧
    (addPoi sampleRouteCollaborators sampleRoute "Q" "A").m_Course =
      [CourseEntry.waypoint { m_name := "A", m_latitude := 1, m_longitude := 2 },
       CourseEntry.poi
         { m_type := 1, m_name := "A", m_description := "inn", m_latitude := 3,
           m_longitude := 4 },
       CourseEntry.poi
         { m_type := 0, m_name := "Q", m_description := "kiosk", m_latitude := 7,
           m_longitude := 8 },
       CourseEntry.poi
         { m_type := 1, m_name := "Mensa", m_description := "canteen", m_latitude := 3,
           m_longitude := 4 },
       CourseEntry.waypoint { m_name := "B", m_latitude := 5, m_longitude := 6 }] := by
  refine ⟨?_, ?_, ?_, ?_, by decide⟩
  · intro pre post e hc he hpost
    have hl := addPoi_loop_some afterWp pPoi e pre.reverse post.reverse he []
      (fun x hx => hpost x (List.mem_reverse.mp hx))
    simp only [addPoi, hdb, hp, hc, List.reverse_append, List.reverse_cons, List.append_assoc,
      List.singleton_append]
    rw [hl]
    simp
  · intro h
    have hl := addPoi_loop_none afterWp pPoi self.m_Course.reverse []
      (fun x hx => h x (List.mem_reverse.mp hx))
    simp only [addPoi, hdb, hp, hl]
  · simp [addPoi]
  · intro other ho
    simp only [addPoi, hdb, ho]

/-- Witness for C21: on the sample route the last entry named `A` is the point
of interest behind the waypoint `A`; the point of interest `Q` is inserted
behind it. -/
theorem addPoi_after_last_entry_named_witness :
    addPoi sampleRouteCollaborators sampleRoute "Q" "A" =
      { sampleRoute with
        m_Course :=
          [CourseEntry.waypoint { m_name := "A", m_latitude := 1, m_longitude := 2 }] ++
          CourseEntry.poi
            { m_type := 1, m_name := "A", m_description := "inn", m_latitude := 3,
              m_longitude := 4 } ::
          CourseEntry.poi
            { m_type := 0, m_name := "Q", m_description := "kiosk", m_latitude := 7,
              m_longitude := 8 } ::
          [CourseEntry.poi
             { m_type := 1, m_name := "Mensa", m_description := "canteen", m_latitude := 3,
               m_longitude := 4 },
           CourseEntry.waypoint { m_name := "B", m_latitude := 5, m_longitude := 6 }] } :=
  (addPoi_after_last_entry_named sampleRouteCollaborators sampleRoute "Q" "A"
    samplePoiDatabase
    { m_type := 0, m_name := "Q", m_description := "kiosk", m_latitude := 7, m_longitude := 8 }
    rfl (by decide)).1
    [CourseEntry.waypoint { m_name := "A", m_latitude := 1, m_longitude := 2 }]
    [CourseEntry.poi
       { m_type := 1, m_name := "Mensa", m_description := "canteen", m_latitude := 3,
         m_longitude := 4 },
     CourseEntry.waypoint { m_name := "B", m_latitude := 5, m_longitude := 6 }]
    (CourseEntry.poi
      { m_type := 1, m_name := "A", m_description := "inn", m_latitude := 3, m_longitude := 4 })
    rfl (by decide) (by decide)

/-! ### The nearest point of interest -/

theorem getDistanceNextPoi_foldl (R : RouteCollaborators) (wp : CWaypoint)
    (course : List CourseEntry) :
    ∀ acc : Rat × CPOI,
      course.foldl (getDistanceNextPoi.body R wp) acc =
        (course.filterMap CourseEntry.asCPOI).foldl
          (fun a p =>
            if R.calculateDistance p.toCWaypoint wp ≤ a.1 then
              (R.calculateDistance p.toCWaypoint wp, p)
            else a) acc := by
  induction course with
  | nil => intro acc; rfl
  | cons e rest ih =>
    intro acc
    cases e with
    | waypoint w =>
      simp only [List.foldl_cons, getDistanceNextPoi.body, CourseEntry.asCPOI,
        List.filterMap_cons_none]
      exact ih acc
    | poi p =>
      simp only [List.foldl_cons, getDistanceNextPoi.body, CourseEntry.asCPOI,
        List.filterMap_cons_some]
      exact ih _

theorem foldl_least_last (d : CPOI → Rat) (M : Rat) (poi : CPOI) (pois : List CPOI) :
    (∀ p ∈ pois, d p ≤ M) → pois ≠ [] →
      ∃ (pre : List CPOI) (p : CPOI) (post : List CPOI), pois = pre ++ p :: post ∧
        (∀ q ∈ pre, d p ≤ d q) ∧ (∀ q ∈ post, d p < d q) ∧
        pois.foldl (fun a p => if d p ≤ a.1 then (d p, p) else a) (M, poi) = (d p, p) := by
  induction pois using List.reverseRecOn with
  | nil => intro _ h; exact absurd rfl h
  | append_singleton xs p ih =>
    intro hM _
    by_cases hx : xs = []
    · subst hx
      refine ⟨[], p, [], rfl, by simp, by simp, ?_⟩
      have := hM p (by simp)
      simp [this]
    · obtain ⟨pre0, p0, post0, h1, h2, h3, h4⟩ :=
        ih (fun q hq => hM q (List.mem_append_left _ hq)) hx
      rw [List.foldl_append, h4]
      by_cases hle : d p ≤ d p0
      · refine ⟨xs, p, [], rfl, ?_, by simp, by simp [hle]⟩
        intro q hq
        rw [h1] at hq
        rcases List.mem_append.mp hq with hq | hq
        · exact le_trans hle (h2 q hq)
        · rcases List.mem_cons.mp hq with hq | hq
          · rw [hq]; exact hle
          · exact le_trans hle (le_of_lt (h3 q hq))
      · refine ⟨pre0, p0, post0 ++ [p], by rw [h1]; simp, h2, ?_, by simp [hle]⟩
        intro q hq
        rcases List.mem_append.mp hq with hq | hq
        · exact h3 q hq
        · rw [List.mem_singleton.mp hq]
          exact lt_of_not_le hle

/-- C22. With every distance at most `numeric_limits<double>::max()`,
`getDistanceNextPoi(wp, poi)` looks at the points of interest of the course
only. If there is none it returns the maximum value and leaves `poi` as it
was. Otherwise it returns the distance of one of them, `p`, and sets `poi` to
`p`, where no point of interest of the course is nearer to `wp` than `p` and
all that come behind `p` on the course are farther: `p` is at the least
distance, and the last one there. -/
theorem getDistanceNextPoi_least (R : RouteCollaborators) (self : CRoute) (wp : CWaypoint)
    (poi : CPOI)
    (hmax : ∀ p ∈ self.m_Course.filterMap CourseEntry.asCPOI,
      R.calculateDistance p.toCWaypoint wp ≤ R.DBL_MAX) :
    (self.m_Course.filterMap CourseEntry.asCPOI = [] →
      getDistanceNextPoi R self wp poi = (R.DBL_MAX, poi)) ∧
    (self.m_Course.filterMap CourseEntry.asCPOI ≠ [] →
      ∃ (pre : List CPOI) (p : CPOI) (post : List CPOI),
        self.m_Course.filterMap CourseEntry.asCPOI = pre ++ p :: post ∧
        (∀ q ∈ pre, R.calculateDistance p.toCWaypoint wp ≤
          R.calculateDistance q.toCWaypoint wp) ∧
        (∀ q ∈ post, R.calculateDistance p.toCWaypoint wp <
          R.calculateDistance q.toCWaypoint wp) ∧
        getDistanceNextPoi R self wp poi = (R.calculateDistance p.toCWaypoint wp, p)) := by
  have hfold : getDistanceNextPoi R self wp poi =
      (self.m_Course.filterMap CourseEntry.asCPOI).foldl
        (fun a p =>
          if R.calculateDistance p.toCWaypoint wp ≤ a.1 then
            (R.calculateDistance p.toCWaypoint wp, p)
          else a) (R.DBL_MAX, poi) := by
    rw [← getDistanceNextPoi_foldl]
    cases hc : self.m_Course with
    | nil => simp [getDistanceNextPoi, hc]
    | cons e rest => simp [getDistanceNextPoi, hc]
  constructor
  · intro h
    rw [hfold, h]
    rfl
  · intro h
    obtain ⟨pre, p, post, h1, h2, h3, h4⟩ :=
      foldl_least_last (fun p => R.calculateDistance p.toCWaypoint wp) R.DBL_MAX poi _ hmax h
    exact ⟨pre, p, post, h1, h2, h3, by rw [hfold]; exact h4⟩

/-- Witness for C22: on the sample route two points of interest are at the
least distance 4 from the place of the waypoint `A`; the later one, `Mensa`,
is handed back. -/
theorem getDistanceNextPoi_least_witness :
    (∀ p ∈ sampleRoute.m_Course.filterMap CourseEntry.asCPOI,
      sampleRouteCollaborators.calculateDistance p.toCWaypoint
        { m_name := "A", m_latitude := 1, m_longitude := 2 } ≤
        sampleRouteCollaborators.DBL_MAX) ∧
    (∃ (pre : List CPOI) (p : CPOI) (post : List CPOI),
      sampleRoute.m_Course.filterMap CourseEntry.asCPOI = pre ++ p :: post ∧
      (∀ q ∈ pre, sampleRouteCollaborators.calculateDistance p.toCWaypoint
          { m_name := "A", m_latitude := 1, m_longitude := 2 } ≤
        sampleRouteCollaborators.calculateDistance q.toCWaypoint
          { m_name := "A", m_latitude := 1, m_longitude := 2 }) ∧
      (∀ q ∈ post, sampleRouteCollaborators.calculateDistance p.toCWaypoint
          { m_name := "A", m_latitude := 1, m_longitude := 2 } <
        sampleRouteCollaborators.calculateDistance q.toCWaypoint
          { m_name := "A", m_latitude := 1, m_longitude := 2 }) ∧
      getDistanceNextPoi sampleRouteCollaborators sampleRoute
          { m_name := "A", m_latitude := 1, m_longitude := 2 }
          { m_type := 0, m_name := "", m_description := "", m_latitude := 0,
            m_longitude := 0 } =
        (sampleRouteCollaborators.calculateDistance p.toCWaypoint
          { m_name := "A", m_latitude := 1, m_longitude := 2 }, p)) ∧
    getDistanceNextPoi sampleRouteCollaborators sampleRoute
        { m_name := "A", m_latitude := 1, m_longitude := 2 }
        { m_type := 0, m_name := "", m_description := "", m_latitude := 0, m_longitude := 0 } =
      (4, { m_type := 1, m_name := "Mensa", m_description := "canteen", m_latitude := 3,
            m_longitude := 4 }) :=
  ⟨by decide,
    (getDistanceNextPoi_least sampleRouteCollaborators sampleRoute
      { m_name := "A", m_latitude := 1, m_longitude := 2 }
      { m_type := 0, m_name := "", m_description := "", m_latitude := 0, m_longitude := 0 }
      (by decide)).2 (by decide),
    by decide⟩

end CRoute

end NavigationSystem
